import Mathlib

/-!
Neon Breaker: a shallow embedding of the simulation core.

JavaScript numbers are modelled by a linearly ordered field `α`: the definitions are
polymorphic and computable (they evaluate at `ℚ`), and the statements that involve
`Math.sqrt`, `Math.sin`, `Math.cos` are made at `α = ℝ` with the exact real functions
passed in for the `Math` primitives.  Rounding, `NaN` and infinities are outside the model.

Rendering, sound, DOM updates and particle requests never feed back into the simulation
state and are left out, together with the fields that only they read (colours, shake offset).
`Math.random()` is a stream of draws carried by the game state.
-/

namespace NeonBreaker

/-! ## utils.js -/

/-- Rectangle record `{x, y, width, height}` as passed to the collision helpers. -/
structure Rect (α : Type) where
  x : α
  y : α
  width : α
  height : α

/-- Circle record `{x, y, radius}` as passed to `Utils.circleRectIntersect`. -/
structure Circle (α : Type) where
  x : α
  y : α
  radius : α

/-- The side strings returned by `Utils.getCollisionSide`. -/
inductive Side where
  | left
  | right
  | top
  | bottom
  deriving DecidableEq, Repr

namespace Utils

variable {α : Type} [LinearOrderedField α]

/-- `Utils.clamp`: `Math.min(Math.max(value, min), max)`. -/
def clamp (value lo hi : α) : α :=
  min (max value lo) hi

/-- `Utils.distance`. -/
def distance (sqrt : α → α) (x1 y1 x2 y2 : α) : α :=
  let dx := x2 - x1
  let dy := y2 - y1
  sqrt (dx * dx + dy * dy)

/-- `Utils.rectIntersect`: strict overlap of two rectangles. -/
def rectIntersect (rect1 rect2 : Rect α) : Bool :=
  decide (rect1.x < rect2.x + rect2.width) &&
  decide (rect1.x + rect1.width > rect2.x) &&
  decide (rect1.y < rect2.y + rect2.height) &&
  decide (rect1.y + rect1.height > rect2.y)

/-- `Utils.circleRectIntersect`. -/
def circleRectIntersect (circle : Circle α) (rect : Rect α) : Bool :=
  let distX := |circle.x - rect.x - rect.width / 2|
  let distY := |circle.y - rect.y - rect.height / 2|
  if distX > rect.width / 2 + circle.radius then false
  else if distY > rect.height / 2 + circle.radius then false
  else if distX ≤ rect.width / 2 then true
  else if distY ≤ rect.height / 2 then true
  else
    let dx := distX - rect.width / 2
    let dy := distY - rect.height / 2
    decide (dx * dx + dy * dy ≤ circle.radius * circle.radius)

/-- `Utils.getCollisionSide(ball, rect)`; only the centre of the ball is read. -/
def getCollisionSide (ball : Circle α) (rect : Rect α) : Side :=
  let ballCenterX := ball.x
  let ballCenterY := ball.y
  let rectCenterX := rect.x + rect.width / 2
  let rectCenterY := rect.y + rect.height / 2
  let dx := ballCenterX - rectCenterX
  let dy := ballCenterY - rectCenterY
  let absDx := |dx|
  let absDy := |dy|
  let halfWidth := rect.width / 2
  let halfHeight := rect.height / 2
  if absDx / halfWidth > absDy / halfHeight then
    if dx > 0 then Side.right else Side.left
  else
    if dy > 0 then Side.bottom else Side.top

/-- `Utils.random(min, max)` for the value `r` drawn by `Math.random()`. -/
def random (r lo hi : α) : α :=
  r * (hi - lo) + lo

/-- `Utils.randomInt(min, max)` for the value `r` drawn by `Math.random()`, with `floor`
standing for `Math.floor`. -/
def randomInt (floor : α → Int) (r : α) (lo hi : Int) : Int :=
  floor (r * (((hi - lo + 1 : Int) : α))) + lo

/-- `Utils.saveToStorage(key, data)` acting on `localStorage`, given as the string held under
each key (`none` for an absent key).  `stringify` stands for `JSON.stringify`; `none` stands
for an exception thrown inside the `try` block, which is caught and leaves the storage as it
was. -/
def saveToStorage {δ : Type} (stringify : δ → Option String) (storage : String → Option String)
    (key : String) (data : δ) : String → Option String :=
  match stringify data with
  | some text => fun k => if k = key then some text else storage k
  | none => storage

/-- `Utils.loadFromStorage(key, defaultValue)`.  `parse` stands for `JSON.parse`, with `none`
for a thrown exception; an absent key (`null`) and the empty string are falsy and give the
default, like a failing parse. -/
def loadFromStorage {δ : Type} (parse : String → Option δ) (storage : String → Option String)
    (key : String) (defaultValue : δ) : δ :=
  match storage key with
  | none => defaultValue
  | some data => if data = "" then defaultValue else (parse data).getD defaultValue

end Utils

/-! ## powerup.js -/

/-- The ten power-up type strings of the catalogue in `PowerUp.getPowerUpProperties`. -/
inductive PowerUpType where
  | enlarge
  | shrink
  | speed_up
  | slow_down
  | multi_ball
  | laser
  | extra_life
  | score_boost
  | sticky_paddle
  | penetrating_ball
  deriving DecidableEq, Repr

/-- The `effect` strings of the catalogue: the kind of an active effect. -/
inductive EffectKind where
  | paddle_size
  | ball_speed
  | multi_ball
  | laser
  | extra_life
  | score_multiplier
  | sticky_paddle
  | penetrating
  deriving DecidableEq, Repr

/-- The `value` of a catalogue entry is a number or the boolean `true`. -/
inductive EffectValue (α : Type) where
  | num : α → EffectValue α
  | bool : Bool → EffectValue α
  deriving DecidableEq, Repr

/-- JavaScript `ToNumber` on an effect value, as applied by `*` to its operands. -/
def EffectValue.toNumber {α : Type} [LinearOrderedField α] : EffectValue α → α
  | .num v => v
  | .bool true => 1
  | .bool false => 0

/-- The fields of a catalogue entry that the simulation reads. -/
structure PowerUpProperties (α : Type) where
  name : String
  duration : Int
  effect : EffectKind
  value : EffectValue α

/-- A falling power-up. -/
structure PowerUp (α : Type) where
  x : α
  y : α
  width : α
  height : α
  type : PowerUpType
  speed : α
  collected : Bool
  glowIntensity : α
  glowDirection : α

/-- An entry of `PowerUpManager.activePowerUps` (`startTime` is never read and is left out). -/
structure ActiveEffect (α : Type) where
  type : EffectKind
  value : EffectValue α
  duration : Int
  name : String

/-- The state of `PowerUpManager` (`spawnChance` is the constant 0.15). -/
structure PowerUpManager (α : Type) where
  activePowerUps : List (ActiveEffect α)
  fallingPowerUps : List (PowerUp α)

/-- The state of a `Paddle` (colours are left out); a laser is a rectangle. -/
structure Paddle (α : Type) where
  x : α
  y : α
  defaultWidth : α
  width : α
  height : α
  speed : α
  glowIntensity : α
  glowDirection : α
  lasers : List (Rect α)
  laserCooldown : Nat
  laserSpeed : α
  sizeMultiplier : α
  hasLaser : Bool
  isSticky : Bool

namespace Paddle

variable {α : Type} [LinearOrderedField α]

/-- The constructor `new Paddle(x, y, width, height)`. -/
def new (x y width height : α) : Paddle α :=
  { x := x, y := y, defaultWidth := width, width := width, height := height, speed := 8,
    glowIntensity := 0, glowDirection := 1, lasers := [], laserCooldown := 0, laserSpeed := 10,
    sizeMultiplier := 1, hasLaser := false, isSticky := false }

/-- `Paddle.getBounds`. -/
def getBounds (p : Paddle α) : Rect α :=
  { x := p.x, y := p.y, width := p.width, height := p.height }

/-- `Paddle.getCenterX`. -/
def getCenterX (p : Paddle α) : α :=
  p.x + p.width / 2

end Paddle

namespace PowerUp

variable {α : Type} [LinearOrderedField α]

/-- `PowerUp.getPowerUpProperties`: the catalogue. -/
def getPowerUpProperties : PowerUpType → PowerUpProperties α
  | .enlarge => { name := "Enlarge Paddle", duration := 10000, effect := .paddle_size, value := .num (3 / 2) }
  | .shrink => { name := "Shrink Paddle", duration := 8000, effect := .paddle_size, value := .num (7 / 10) }
  | .speed_up => { name := "Speed Up", duration := 8000, effect := .ball_speed, value := .num (13 / 10) }
  | .slow_down => { name := "Slow Down", duration := 10000, effect := .ball_speed, value := .num (7 / 10) }
  | .multi_ball => { name := "Multi Ball", duration := 0, effect := .multi_ball, value := .num 2 }
  | .laser => { name := "Laser Paddle", duration := 15000, effect := .laser, value := .bool true }
  | .extra_life => { name := "Extra Life", duration := 0, effect := .extra_life, value := .num 1 }
  | .score_boost => { name := "Score Boost", duration := 12000, effect := .score_multiplier, value := .num 2 }
  | .sticky_paddle => { name := "Sticky Paddle", duration := 15000, effect := .sticky_paddle, value := .bool true }
  | .penetrating_ball => { name := "Penetrating Ball", duration := 8000, effect := .penetrating, value := .bool true }

/-- The `properties` field set by the constructor. -/
def properties (p : PowerUp α) : PowerUpProperties α :=
  getPowerUpProperties p.type

/-- The constructor `new PowerUp(x, y, type)`. -/
def new (x y : α) (type : PowerUpType) : PowerUp α :=
  { x := x, y := y, width := 30, height := 15, type := type, speed := 2,
    collected := false, glowIntensity := 0, glowDirection := 1 }

/-- `PowerUp.update`: fall by `speed` and advance the glow animation. -/
def update (p : PowerUp α) : PowerUp α :=
  let g := p.glowIntensity + p.glowDirection * (5 / 100)
  let p1 := { p with y := p.y + p.speed }
  if g ≥ 1 then { p1 with glowIntensity := 1, glowDirection := -1 }
  else if g ≤ 0 then { p1 with glowIntensity := 0, glowDirection := 1 }
  else { p1 with glowIntensity := g }

/-- `PowerUp.checkCollision(paddle)`. -/
def checkCollision (p : PowerUp α) (paddle : Paddle α) : Bool :=
  Utils.rectIntersect { x := p.x, y := p.y, width := p.width, height := p.height }
    { x := paddle.x, y := paddle.y, width := paddle.width, height := paddle.height }

/-- `PowerUp.isOffScreen`. -/
def isOffScreen (p : PowerUp α) (canvasHeight : α) : Bool :=
  decide (p.y > canvasHeight)

/-- The `types` array of `PowerUp.getRandomType`, in catalogue order. -/
def types : List PowerUpType :=
  [.enlarge, .shrink, .speed_up, .slow_down, .multi_ball, .laser, .extra_life, .score_boost,
   .sticky_paddle, .penetrating_ball]

/-- The `weights` table of `PowerUp.getRandomType`. -/
def weights : PowerUpType → α
  | .enlarge => 15
  | .shrink => 10
  | .speed_up => 12
  | .slow_down => 15
  | .multi_ball => 8
  | .laser => 10
  | .extra_life => 5
  | .score_boost => 12
  | .sticky_paddle => 8
  | .penetrating_ball => 5

/-- The selection loop of `PowerUp.getRandomType`: subtract the weight of each type in turn
and return the first type for which the remainder is `≤ 0`; the fallback is `types[0]`. -/
def getRandomTypeLoop (random : α) : List PowerUpType → PowerUpType
  | [] => .enlarge
  | type :: rest =>
    if random - weights type ≤ 0 then type else getRandomTypeLoop (random - weights type) rest

/-- `PowerUp.getRandomType`, for the value `r` drawn by `Math.random()`. -/
def getRandomType (r : α) : PowerUpType :=
  let totalWeight := (types.map weights).foldl (fun sum weight => sum + weight) 0
  getRandomTypeLoop (r * totalWeight) types

end PowerUp

namespace PowerUpManager

variable {α : Type} [LinearOrderedField α]

/-- The constructor `new PowerUpManager()`. -/
def new : PowerUpManager α :=
  { activePowerUps := [], fallingPowerUps := [] }

/-- `PowerUpManager.spawnPowerUp(x, y)` with `spawnChance = 0.15`, for the values `r1` and `r2`
of the two `Math.random()` draws (the second is made by `getRandomType` when the first
succeeds). -/
def spawnPowerUp (m : PowerUpManager α) (x y r1 r2 : α) : PowerUpManager α × Bool :=
  if r1 < 15 / 100 then
    ({ m with fallingPowerUps := m.fallingPowerUps ++ [PowerUp.new x y (PowerUp.getRandomType r2)] },
      true)
  else (m, false)

/-- `PowerUpManager.collectPowerUp`.  An instant effect (duration 0) is handed to
`applyInstantEffect`, which forwards it to the game and does not touch the manager: it is
returned as the second component.  A durable effect replaces the active effect of its kind. -/
def collectPowerUp (m : PowerUpManager α) (powerUp : PowerUp α) :
    PowerUpManager α × Option (ActiveEffect α) :=
  let effect : ActiveEffect α :=
    { type := powerUp.properties.effect, value := powerUp.properties.value,
      duration := powerUp.properties.duration, name := powerUp.properties.name }
  if powerUp.properties.duration = 0 then
    (m, some effect)
  else
    ({ m with activePowerUps :=
        m.activePowerUps.filter (fun active => decide (active.type ≠ effect.type)) ++ [effect] },
      none)

/-- The first `filter` of `PowerUpManager.update`, one falling power-up at a time: each is
moved, collected if it overlaps the paddle, dropped if it left the screen and kept otherwise.
The instant effects raised on the way are accumulated in order. -/
def updateFalling (paddle : Paddle α) (canvasHeight : α) :
    List (PowerUp α) → PowerUpManager α → List (ActiveEffect α) →
      List (PowerUp α) × PowerUpManager α × List (ActiveEffect α)
  | [], m, inst => ([], m, inst)
  | p :: rest, m, inst =>
    let p1 := p.update
    if p1.checkCollision paddle then
      let r := m.collectPowerUp p1
      updateFalling paddle canvasHeight rest r.1 (inst ++ r.2.toList)
    else
      let out := updateFalling paddle canvasHeight rest m inst
      if p1.isOffScreen canvasHeight then out else (p1 :: out.1, out.2)

/-- The second `filter` of `PowerUpManager.update`: an effect with a positive duration loses
16 and is kept when the result is positive; any other effect is dropped. -/
def tickActive (l : List (ActiveEffect α)) : List (ActiveEffect α) :=
  l.filterMap (fun powerUp =>
    if powerUp.duration > 0 then
      let powerUp1 := { powerUp with duration := powerUp.duration - 16 }
      if powerUp1.duration > 0 then some powerUp1 else none
    else none)

/-- `PowerUpManager.update(paddle, canvasHeight)`, with the instant effects raised by the
power-ups collected during the call. -/
def update (m : PowerUpManager α) (paddle : Paddle α) (canvasHeight : α) :
    PowerUpManager α × List (ActiveEffect α) :=
  let r := updateFalling paddle canvasHeight m.fallingPowerUps m []
  ({ activePowerUps := tickActive r.2.1.activePowerUps, fallingPowerUps := r.1 }, r.2.2)

/-- `PowerUpManager.getEffectValue(effectType, defaultValue)`. -/
def getEffectValue (m : PowerUpManager α) (effectType : EffectKind) (defaultValue : EffectValue α) :
    EffectValue α :=
  match m.activePowerUps.find? (fun powerUp => decide (powerUp.type = effectType)) with
  | some effect => effect.value
  | none => defaultValue

/-- `PowerUpManager.hasEffect(effectType)`. -/
def hasEffect (m : PowerUpManager α) (effectType : EffectKind) : Bool :=
  m.activePowerUps.any (fun powerUp => decide (powerUp.type = effectType))

/-- `PowerUpManager.clear`. -/
def clear (_m : PowerUpManager α) : PowerUpManager α :=
  { activePowerUps := [], fallingPowerUps := [] }

/-- The managers that a run can produce: a new manager, changed by any sequence of
`spawnPowerUp`, `collectPowerUp`, `update` and `clear` calls. -/
inductive Reachable : PowerUpManager α → Prop where
  | new : Reachable PowerUpManager.new
  | spawn (m : PowerUpManager α) (x y r1 r2 : α) :
      Reachable m → Reachable (m.spawnPowerUp x y r1 r2).1
  | collect (m : PowerUpManager α) (powerUp : PowerUp α) :
      Reachable m → Reachable (m.collectPowerUp powerUp).1
  | update (m : PowerUpManager α) (paddle : Paddle α) (canvasHeight : α) :
      Reachable m → Reachable (m.update paddle canvasHeight).1
  | clear (m : PowerUpManager α) : Reachable m → Reachable m.clear

end PowerUpManager

/-! ## Entity state -/

/-- The state of a `Ball` (colours are left out; `penetratingTimer` is never read). -/
structure Ball (α : Type) where
  x : α
  y : α
  radius : α
  vx : α
  vy : α
  speed : α
  maxSpeed : α
  minSpeed : α
  trail : List (α × α)
  maxTrailLength : Nat
  glowIntensity : α
  glowDirection : α
  launched : Bool
  stuck : Bool
  stuckOffset : α
  penetrating : Bool

/-! ## brick.js -/

/-- The brick type strings of the table in `Brick.getBrickProperties`. -/
inductive BrickType where
  | normal
  | strong
  | metal
  | explosive
  | regenerating
  | moving
  | unbreakable
  deriving DecidableEq, Repr

/-- The `properties` record of a brick.  The `colors` array always has three entries and
`currentColor` is kept as the index into it; a field that the table entry of a type does not
define is `none`. -/
structure BrickProperties (α : Type) where
  score : Nat
  special : Bool
  explosionRadius : Option α
  regenerateTime : Option Int
  moveSpeed : Option α
  moveDirection : Option α
  currentColor : α

/-- The side effect descriptor returned by `Brick.destroy` in `special`. -/
inductive SpecialEffect (α : Type) where
  | explosion : α → SpecialEffect α
  | regenerate : SpecialEffect α
  deriving DecidableEq, Repr

/-- The record `{destroyed, score, special}` returned by `Brick.hit` and `Brick.destroy`;
`special = false` is `none`. -/
structure HitResult (α : Type) where
  destroyed : Bool
  score : Nat
  special : Option (SpecialEffect α)
  deriving DecidableEq, Repr

/-- The state of a `Brick` (`shakeOffset` is only drawn and is left out). -/
structure Brick (α : Type) where
  x : α
  y : α
  width : α
  height : α
  type : BrickType
  maxHitPoints : α
  hitPoints : α
  destroyed : Bool
  glowIntensity : α
  glowDirection : α
  shakeIntensity : α
  properties : BrickProperties α
  regenerateTimer : Option Int

namespace Brick

variable {α : Type} [LinearOrderedField α]

/-- `Brick.getBrickProperties(type, hitPoints)`: the table entry of the type, with the colour
index `Math.min(hitPoints - 1, colors.length - 1)`. -/
def getBrickProperties (type : BrickType) (hitPoints : α) : BrickProperties α :=
  let colorIndex := min (hitPoints - 1) (3 - 1)
  match type with
  | .normal =>
    { score := 10, special := false, explosionRadius := none, regenerateTime := none,
      moveSpeed := none, moveDirection := none, currentColor := colorIndex }
  | .strong =>
    { score := 25, special := false, explosionRadius := none, regenerateTime := none,
      moveSpeed := none, moveDirection := none, currentColor := colorIndex }
  | .metal =>
    { score := 50, special := false, explosionRadius := none, regenerateTime := none,
      moveSpeed := none, moveDirection := none, currentColor := colorIndex }
  | .explosive =>
    { score := 30, special := true, explosionRadius := some 80, regenerateTime := none,
      moveSpeed := none, moveDirection := none, currentColor := colorIndex }
  | .regenerating =>
    { score := 40, special := true, explosionRadius := none, regenerateTime := some 5000,
      moveSpeed := none, moveDirection := none, currentColor := colorIndex }
  | .moving =>
    { score := 35, special := true, explosionRadius := none, regenerateTime := none,
      moveSpeed := some 1, moveDirection := some 1, currentColor := colorIndex }
  | .unbreakable =>
    { score := 0, special := true, explosionRadius := none, regenerateTime := none,
      moveSpeed := none, moveDirection := none, currentColor := colorIndex }

/-- The constructor `new Brick(x, y, type, hitPoints)`. -/
def new (x y : α) (type : BrickType) (hitPoints : α) : Brick α :=
  { x := x, y := y, width := 80, height := 30, type := type, maxHitPoints := hitPoints,
    hitPoints := hitPoints, destroyed := false, glowIntensity := 0, glowDirection := 1,
    shakeIntensity := 0, properties := getBrickProperties type hitPoints,
    regenerateTimer := none }

/-- `Brick.destroy`: mark the brick destroyed and report its score and special effect; a
regenerating brick starts its timer. -/
def destroy (b : Brick α) : Brick α × HitResult α :=
  let b1 := { b with destroyed := true }
  if b1.type = .explosive then
    (b1, { destroyed := true, score := b1.properties.score,
           special := b1.properties.explosionRadius.map SpecialEffect.explosion })
  else if b1.type = .regenerating then
    ({ b1 with regenerateTimer := b1.properties.regenerateTime },
      { destroyed := true, score := b1.properties.score, special := some .regenerate })
  else
    (b1, { destroyed := true, score := b1.properties.score, special := none })

/-- `Brick.hit(damage)` (`damage` defaults to 1 in the source): the new brick and the returned
record. -/
def hit (b : Brick α) (damage : α) : Brick α × HitResult α :=
  if b.type = .unbreakable then
    (b, { destroyed := false, score := 0, special := none })
  else
    let b1 := { b with hitPoints := b.hitPoints - damage, shakeIntensity := 3 }
    let b2 :=
      if b1.hitPoints > 0 then
        { b1 with properties :=
            { b1.properties with currentColor := min (b1.hitPoints - 1) (3 - 1) } }
      else b1
    if b2.hitPoints ≤ 0 then b2.destroy
    else (b2, { destroyed := false, score := 0, special := none })

/-- `Brick.regenerate`. -/
def regenerate (b : Brick α) : Brick α :=
  { b with destroyed := false, hitPoints := b.maxHitPoints,
           properties := { b.properties with currentColor := b.maxHitPoints - 1 },
           regenerateTimer := none }

/-- `Brick.getBounds`. -/
def getBounds (b : Brick α) : Rect α :=
  { x := b.x, y := b.y, width := b.width, height := b.height }

/-- `Brick.checkCollision(ball)`. -/
def checkCollision (b : Brick α) (ball : Ball α) : Bool :=
  if b.destroyed && decide (b.type ≠ .regenerating) then false
  else Utils.circleRectIntersect { x := ball.x, y := ball.y, radius := ball.radius }
    { x := b.x, y := b.y, width := b.width, height := b.height }

/-- `Brick.getCollisionSide(ball)`. -/
def getCollisionSide (b : Brick α) (ball : Ball α) : Side :=
  Utils.getCollisionSide { x := ball.x, y := ball.y, radius := ball.radius }
    { x := b.x, y := b.y, width := b.width, height := b.height }

/-- The glow animation of `Brick.update`. -/
def updateGlow (b : Brick α) : Brick α :=
  let g := b.glowIntensity + b.glowDirection * (2 / 100)
  if g ≥ 1 then { b with glowIntensity := 1, glowDirection := -1 }
  else if g ≤ 0 then { b with glowIntensity := 0, glowDirection := 1 }
  else { b with glowIntensity := g }

/-- The shake decay of `Brick.update` (the random shake offset is only drawn). -/
def updateShake (b : Brick α) : Brick α :=
  if b.shakeIntensity > 0 then
    let s := b.shakeIntensity * (9 / 10)
    if s < 1 / 10 then { b with shakeIntensity := 0 } else { b with shakeIntensity := s }
  else b

/-- The `moving` behaviour of `Brick.update`: shift `x` by `moveSpeed * moveDirection` and
reverse the direction at the edges of an 800 wide canvas. -/
def updateMoving (b : Brick α) : Brick α :=
  if b.type = .moving ∧ b.destroyed = false then
    match b.properties.moveSpeed, b.properties.moveDirection with
    | some moveSpeed, some moveDirection =>
      let b1 := { b with x := b.x + moveSpeed * moveDirection }
      if b1.x ≤ 0 ∨ b1.x + b1.width ≥ 800 then
        { b1 with properties := { b1.properties with moveDirection := some (moveDirection * -1) } }
      else b1
    | _, _ => b
  else b

/-- The `regenerating` behaviour of `Brick.update`: a destroyed brick with a running (non-zero)
timer loses 16 and regenerates when the timer is `≤ 0`. -/
def updateRegenerating (b : Brick α) : Brick α :=
  match b.regenerateTimer with
  | some timer =>
    if b.type = .regenerating ∧ b.destroyed = true ∧ timer ≠ 0 then
      let b1 := { b with regenerateTimer := some (timer - 16) }
      if timer - 16 ≤ 0 then b1.regenerate else b1
    else b
  | none => b

/-- `Brick.update`. -/
def update (b : Brick α) : Brick α :=
  b.updateGlow.updateShake.updateMoving.updateRegenerating

/-- `Brick.isInExplosionRadius(explosionX, explosionY, radius)`. -/
def isInExplosionRadius (sqrt : α → α) (b : Brick α) (explosionX explosionY radius : α) : Bool :=
  let centerX := b.x + b.width / 2
  let centerY := b.y + b.height / 2
  decide (Utils.distance sqrt centerX centerY explosionX explosionY ≤ radius)

end Brick

/-! ## paddle.js -/

/-- The state of a `PaddleController`: the canvas width it was given, the pressed state of the
four movement keys, and the last pointer positions with their control flags. -/
structure PaddleController (α : Type) where
  canvasWidth : α
  arrowLeft : Bool
  keyA : Bool
  arrowRight : Bool
  keyD : Bool
  mouseX : α
  touchX : α
  useMouseControl : Bool
  useTouchControl : Bool

namespace Paddle

variable {α : Type} [LinearOrderedField α]

/-- `Paddle.updateGlow`. -/
def updateGlow (p : Paddle α) : Paddle α :=
  let g := p.glowIntensity + p.glowDirection * (3 / 100)
  if g ≥ 1 then { p with glowIntensity := 1, glowDirection := -1 }
  else if g ≤ 0 then { p with glowIntensity := 0, glowDirection := 1 }
  else { p with glowIntensity := g }

/-- `Paddle.applyPowerUpEffects(powerUpManager)` (the colour update is left out). -/
def applyPowerUpEffects (p : Paddle α) (powerUpManager : PowerUpManager α) : Paddle α :=
  let sizeMultiplier := (powerUpManager.getEffectValue .paddle_size (.num 1)).toNumber
  { p with sizeMultiplier := sizeMultiplier,
           width := p.defaultWidth * sizeMultiplier,
           hasLaser := powerUpManager.hasEffect .laser,
           isSticky := powerUpManager.hasEffect .sticky_paddle }

/-- `Paddle.updateLasers`: count the cooldown down, move every laser up by `laserSpeed` and
keep those with `y > -height`. -/
def updateLasers (p : Paddle α) : Paddle α :=
  { p with laserCooldown := if p.laserCooldown > 0 then p.laserCooldown - 1 else p.laserCooldown,
           lasers := (p.lasers.map (fun laser => { laser with y := laser.y - p.laserSpeed })).filter
             (fun laser => decide (laser.y > -laser.height)) }

/-- `Paddle.update(canvasWidth, powerUpManager)`. -/
def update (p : Paddle α) (canvasWidth : α) (powerUpManager : PowerUpManager α) : Paddle α :=
  let p1 := ((p.updateGlow).applyPowerUpEffects powerUpManager).updateLasers
  { p1 with x := Utils.clamp p1.x 0 (canvasWidth - p1.width) }

/-- `Paddle.move(direction, canvasWidth)`. -/
def move (p : Paddle α) (direction canvasWidth : α) : Paddle α :=
  let moveDistance := p.speed * direction
  let p1 := { p with x := p.x + moveDistance }
  { p1 with x := Utils.clamp p1.x 0 (canvasWidth - p1.width) }

/-- `Paddle.setPosition(x, canvasWidth)`. -/
def setPosition (p : Paddle α) (x canvasWidth : α) : Paddle α :=
  { p with x := Utils.clamp (x - p.width / 2) 0 (canvasWidth - p.width) }

/-- `Paddle.fireLaser`: the new paddle and the returned flag. -/
def fireLaser (p : Paddle α) : Paddle α × Bool :=
  if !p.hasLaser || decide (p.laserCooldown > 0) then (p, false)
  else
    let laserWidth : α := 4
    let laserHeight : α := 15
    ({ p with lasers := p.lasers ++
          [{ x := p.x + 10, y := p.y, width := laserWidth, height := laserHeight },
           { x := p.x + p.width - 10 - laserWidth, y := p.y, width := laserWidth,
             height := laserHeight }],
              laserCooldown := 15 }, true)

/-- The inner `for` loop of `Paddle.checkLaserCollisions` for one laser, over the bricks from
index `i` on: destroyed bricks are skipped, and the loop breaks at the first brick whose
bounds the laser overlaps, whose index is returned. -/
def firstLaserHit (laser : Rect α) : List (Brick α) → Nat → Option Nat
  | [], _ => none
  | brick :: rest, i =>
    if brick.destroyed then firstLaserHit laser rest (i + 1)
    else if Utils.rectIntersect laser brick.getBounds then some i
    else firstLaserHit laser rest (i + 1)

/-- `Paddle.checkLaserCollisions(bricks)`: the paddle with the lasers that hit nothing, and
`hitBricks`, each brick given by its index in `bricks`. -/
def checkLaserCollisions (p : Paddle α) (bricks : List (Brick α)) : Paddle α × List Nat :=
  let r := p.lasers.foldl
    (fun (acc : List (Rect α) × List Nat) laser =>
      match firstLaserHit laser bricks 0 with
      | some i => (acc.1, acc.2 ++ [i])
      | none => (acc.1 ++ [laser], acc.2))
    ([], [])
  ({ p with lasers := r.1 }, r.2)

/-- `Paddle.reset(x, y)`. -/
def reset (p : Paddle α) (x y : α) : Paddle α :=
  { p with x := x, y := y, width := p.defaultWidth, sizeMultiplier := 1, hasLaser := false,
           isSticky := false, lasers := [], laserCooldown := 0 }

end Paddle

namespace PaddleController

variable {α : Type} [LinearOrderedField α]

/-- The constructor `new PaddleController(paddle, canvasWidth)`. -/
def new (canvasWidth : α) : PaddleController α :=
  { canvasWidth := canvasWidth, arrowLeft := false, keyA := false, arrowRight := false,
    keyD := false, mouseX := 0, touchX := 0, useMouseControl := false,
    useTouchControl := false }

/-- `PaddleController.update`, acting on the paddle it controls. -/
def update (c : PaddleController α) (paddle : Paddle α) : PaddleController α × Paddle α :=
  if c.useMouseControl then (c, paddle.setPosition c.mouseX c.canvasWidth)
  else if c.useTouchControl then (c, paddle.setPosition c.touchX c.canvasWidth)
  else
    let direction0 : α := 0
    let direction1 := if c.arrowLeft || c.keyA then direction0 - 1 else direction0
    let direction := if c.arrowRight || c.keyD then direction1 + 1 else direction1
    if direction ≠ 0 then
      ({ c with useMouseControl := false, useTouchControl := false },
        paddle.move direction c.canvasWidth)
    else (c, paddle)

end PaddleController

/-! ## ball.js -/

namespace Ball

variable {α : Type} [LinearOrderedField α]

/-- The constructor `new Ball(x, y, radius)`. -/
def new (x y radius : α) : Ball α :=
  { x := x, y := y, radius := radius, vx := 0, vy := 0, speed := 5, maxSpeed := 12,
    minSpeed := 3, trail := [], maxTrailLength := 8, glowIntensity := 0, glowDirection := 1,
    launched := false, stuck := false, stuckOffset := 0, penetrating := false }

/-- `Ball.updateTrail`: push the position, then drop the oldest entry when over length. -/
def updateTrail (b : Ball α) : Ball α :=
  let t := b.trail ++ [(b.x, b.y)]
  if t.length > b.maxTrailLength then { b with trail := t.tail } else { b with trail := t }

/-- `Ball.updateGlow`. -/
def updateGlow (b : Ball α) : Ball α :=
  let g := b.glowIntensity + b.glowDirection * (5 / 100)
  if g ≥ 1 then { b with glowIntensity := 1, glowDirection := -1 }
  else if g ≤ 0 then { b with glowIntensity := 0, glowDirection := 1 }
  else { b with glowIntensity := g }

/-- The left-wall test and its effect (`handleWallCollisions`, first `if`). -/
def wallLeft (b : Ball α) : Ball α :=
  if b.x - b.radius ≤ 0 then { b with x := b.radius, vx := |b.vx| } else b

/-- The right-wall test and its effect (`handleWallCollisions`, second `if`). -/
def wallRight (b : Ball α) (canvasWidth : α) : Ball α :=
  if b.x + b.radius ≥ canvasWidth then { b with x := canvasWidth - b.radius, vx := -|b.vx| }
  else b

/-- The top-wall test and its effect (`handleWallCollisions`, third `if`). -/
def wallTop (b : Ball α) : Ball α :=
  if b.y - b.radius ≤ 0 then { b with y := b.radius, vy := |b.vy| } else b

/-- `Ball.handleWallCollisions(canvasWidth, canvasHeight)`: the three tests run in sequence,
each on the state left by the previous one; `canvasHeight` is not read. -/
def handleWallCollisions (b : Ball α) (canvasWidth _canvasHeight : α) : Ball α :=
  ((b.wallLeft).wallRight canvasWidth).wallTop

/-- The magnitude `Math.sqrt(vx * vx + vy * vy)` computed by `limitSpeed` (`currentSpeed`) and
by `handlePaddleCollision` (`speed`). -/
def currentSpeed (sqrt : α → α) (b : Ball α) : α :=
  sqrt (b.vx * b.vx + b.vy * b.vy)

/-- The speed clamp of `Ball.limitSpeed` (the `if` / `else if` on `currentSpeed`). -/
def rescaleSpeed (sqrt : α → α) (b : Ball α) : Ball α :=
  let currentSpeed := b.currentSpeed sqrt
  if currentSpeed > b.maxSpeed then
    let ratio := b.maxSpeed / currentSpeed
    { b with vx := b.vx * ratio, vy := b.vy * ratio }
  else if currentSpeed < b.minSpeed ∧ currentSpeed > 0 then
    let ratio := b.minSpeed / currentSpeed
    { b with vx := b.vx * ratio, vy := b.vy * ratio }
  else b

/-- The anti-stall rule that ends `Ball.limitSpeed`. -/
def preventHorizontal (b : Ball α) : Ball α :=
  if |b.vy| < 1 / 2 then { b with vy := if b.vy > 0 then 1 / 2 else -(1 / 2) } else b

/-- `Ball.limitSpeed`: the speed clamp followed by the anti-stall rule. -/
def limitSpeed (sqrt : α → α) (b : Ball α) : Ball α :=
  (b.rescaleSpeed sqrt).preventHorizontal

/-- The body of `Ball.update` up to and including the wall collisions: effect lookup,
position step, trail, glow, walls. -/
def advance (b : Ball α) (canvasWidth canvasHeight : α) (powerUpManager : PowerUpManager α) :
    Ball α :=
  let speedMultiplier := (powerUpManager.getEffectValue .ball_speed (.num 1)).toNumber
  let b1 := { b with penetrating := powerUpManager.hasEffect .penetrating }
  let b2 := { b1 with x := b1.x + b1.vx * speedMultiplier, y := b1.y + b1.vy * speedMultiplier }
  (b2.updateTrail.updateGlow).handleWallCollisions canvasWidth canvasHeight

/-- `Ball.update(canvasWidth, canvasHeight, powerUpManager)`: nothing happens unless the ball
is launched and not stuck; otherwise the step above is followed by `limitSpeed`. -/
def update (sqrt : α → α) (b : Ball α) (canvasWidth canvasHeight : α)
    (powerUpManager : PowerUpManager α) : Ball α :=
  if !b.launched || b.stuck then b
  else (b.advance canvasWidth canvasHeight powerUpManager).limitSpeed sqrt

/-- `Ball.stickToPaddle(paddle)`. -/
def stickToPaddle (b : Ball α) (paddle : Paddle α) : Ball α :=
  { b with stuck := true, launched := false,
           stuckOffset := b.x - (paddle.x + paddle.width / 2),
           y := paddle.y - b.radius, vx := 0, vy := 0 }

/-- `Ball.handlePaddleCollision(paddle, powerUpManager)`: the new ball and the returned flag. -/
def handlePaddleCollision (sqrt sin cos : α → α) (pi : α) (b : Ball α) (paddle : Paddle α)
    (powerUpManager : PowerUpManager α) : Ball α × Bool :=
  let paddleBounds := paddle.getBounds
  if !Utils.circleRectIntersect { x := b.x, y := b.y, radius := b.radius } paddleBounds then
    (b, false)
  else if b.vy ≤ 0 then (b, false)
  else if powerUpManager.hasEffect .sticky_paddle && !b.stuck then
    (b.stickToPaddle paddle, true)
  else
    let relativeIntersectX :=
      (b.x - (paddleBounds.x + paddleBounds.width / 2)) / (paddleBounds.width / 2)
    let normalizedRelativeIntersection := Utils.clamp relativeIntersectX (-1) 1
    let bounceAngle := normalizedRelativeIntersection * pi / 3
    let speed := b.currentSpeed sqrt
    ({ b with vx := sin bounceAngle * speed, vy := -|cos bounceAngle * speed|,
              y := paddleBounds.y - b.radius }, true)

/-- `Ball.launch(angle, speed)`: `speed` is `none` for the default `null`, and a zero speed
falls back to `this.speed` like `null` does (`speed || this.speed`). -/
def launch (cos sin : α → α) (b : Ball α) (angle : α) (speed : Option α) : Ball α :=
  let launchSpeed :=
    match speed with
    | some s => if s = 0 then b.speed else s
    | none => b.speed
  { b with launched := true, stuck := false, vx := cos angle * launchSpeed,
           vy := sin angle * launchSpeed }

/-- `Ball.updateStuckPosition(paddle)`. -/
def updateStuckPosition (b : Ball α) (paddle : Paddle α) : Ball α :=
  if b.stuck then
    let b1 := { b with x := paddle.x + paddle.width / 2 + b.stuckOffset,
                       y := paddle.y - b.radius }
    let minX := paddle.x + b1.radius
    let maxX := paddle.x + paddle.width - b1.radius
    { b1 with x := Utils.clamp b1.x minX maxX }
  else b

/-- `Ball.moveOutOfBrick(brick, side)`. -/
def moveOutOfBrick (b : Ball α) (brick : Brick α) (side : Side) : Ball α :=
  let bounds := brick.getBounds
  match side with
  | .left => { b with x := bounds.x - b.radius }
  | .right => { b with x := bounds.x + bounds.width + b.radius }
  | .top => { b with y := bounds.y - b.radius }
  | .bottom => { b with y := bounds.y + bounds.height + b.radius }

/-- `Ball.handleBrickCollision(brick)`: the new ball, the new brick and the returned value,
`none` for `null`. -/
def handleBrickCollision (b : Ball α) (brick : Brick α) :
    Ball α × Brick α × Option (HitResult α) :=
  if !brick.checkCollision b then (b, brick, none)
  else
    let side := brick.getCollisionSide b
    let b1 :=
      if !b.penetrating then
        let b0 :=
          match side with
          | .left => { b with vx := -b.vx }
          | .right => { b with vx := -b.vx }
          | .top => { b with vy := -b.vy }
          | .bottom => { b with vy := -b.vy }
        b0.moveOutOfBrick brick side
      else b
    let r := brick.hit 1
    (b1, r.1, some r.2)

/-- `Ball.isBelowPaddle(paddleY)`. -/
def isBelowPaddle (b : Ball α) (paddleY : α) : Bool :=
  decide (b.y - b.radius > paddleY)

/-- `Ball.reset(x, y)`. -/
def reset (b : Ball α) (x y : α) : Ball α :=
  { b with x := x, y := y, vx := 0, vy := 0, launched := false, stuck := false, trail := [],
           penetrating := false }

/-- `Ball.clone`, for the value `r` drawn by `Math.random()` inside `Utils.random(-0.5, 0.5)`. -/
def clone (sqrt sin cos : α → α) (atan2 : α → α → α) (b : Ball α) (r : α) : Ball α :=
  let newBall := Ball.new b.x b.y b.radius
  let newBall1 := { newBall with launched := b.launched, speed := b.speed }
  let angle := atan2 b.vy b.vx + Utils.random r (-(1 / 2)) (1 / 2)
  let speed := sqrt (b.vx * b.vx + b.vy * b.vy)
  { newBall1 with vx := cos angle * speed, vy := sin angle * speed }

end Ball

/-! ## game.js -/

/-- The values of `Game.state`. -/
inductive GameState where
  | start
  | playing
  | paused
  | gameOver
  | levelComplete
  deriving DecidableEq, Repr

/-- A level configuration as returned by `Game.generateLevelConfig`. -/
structure LevelConfig (α : Type) where
  rows : Nat
  cols : Nat
  brickTypes : List BrickType
  specialChance : α
  ballSpeed : α

/-- An entry of the high-score list. -/
structure HighScore (α : Type) where
  score : α
  level : Nat
  date : String

/-- The overlay screens that `showOverlay` can make visible. -/
inductive Overlay where
  | startScreen
  | pauseScreen
  | gameOverScreen
  | levelCompleteScreen
  | leaderboardScreen
  deriving DecidableEq, Repr

/-- The `Math` functions used by the game loop, and the value standing for `Infinity` (the
hit points `createBricks` gives an 'unbreakable' brick, which `Brick.hit` never reads). -/
structure MathOps (α : Type) where
  sqrt : α → α
  sin : α → α
  cos : α → α
  atan2 : α → α → α
  floor : α → Int
  pi : α
  infinity : α

/-- The state of a `Game`.  The canvas is represented by its width and height,
`Math.random()` by the stream `random` together with the index of the next draw, the visible
overlay by `overlay` (`none` after `hideAllOverlays`), and the string that
`new Date().toLocaleDateString()` returns by `dateString`. -/
structure Game (α : Type) where
  canvasWidth : α
  canvasHeight : α
  state : GameState
  score : α
  lives : Int
  level : Nat
  combo : Nat
  maxCombo : Nat
  paddle : Paddle α
  balls : List (Ball α)
  bricks : List (Brick α)
  powerUpManager : PowerUpManager α
  paddleController : PaddleController α
  levelConfig : LevelConfig α
  bricksRemaining : Int
  highScores : List (HighScore α)
  random : Nat → α
  randomIndex : Nat
  overlay : Option Overlay
  dateString : String

namespace Game

variable {α : Type} [LinearOrderedField α]

/-- `Game.addLife`. -/
def addLife (g : Game α) : Game α :=
  { g with lives := min 5 (g.lives + 1) }

/-- The scoring step of `Game.handleBrickDestruction` for a destroyed result: `combo++`,
`maxCombo`, the combo and score multipliers, `score += points`, `bricksRemaining--`. -/
def awardPoints (g : Game α) (result : HitResult α) : Game α :=
  let g1 := { g with combo := g.combo + 1 }
  let g2 := { g1 with maxCombo := max g1.maxCombo g1.combo }
  let comboMultiplier : Nat := min 5 (1 + g2.combo / 3)
  let scoreMultiplier := g2.powerUpManager.getEffectValue .score_multiplier (.num 1)
  let points := (result.score : α) * (comboMultiplier : α) * scoreMultiplier.toNumber
  { g2 with score := g2.score + points, bricksRemaining := g2.bricksRemaining - 1 }

/-- The call `this.powerUpManager.spawnPowerUp(x, y)` made by the game: one `Math.random()`
draw for the spawn chance and, when it succeeds, one more for the type. -/
def spawnPowerUp (g : Game α) (x y : α) : Game α :=
  let r := g.powerUpManager.spawnPowerUp x y (g.random g.randomIndex)
    (g.random (g.randomIndex + 1))
  { g with powerUpManager := r.1, randomIndex := g.randomIndex + (if r.2 then 2 else 1) }

/-- The body of the `forEach` in `Game.handleExplosion` for the brick at index `i`, where
`destruction` stands for the nested call of `handleBrickDestruction`: a brick that is not
destroyed and lies within the radius takes `hit(2)`, and a destroyed result is passed on. -/
def explodeBrick (sqrt : α → α) (destruction : Game α → HitResult α → Brick α → Game α)
    (x y radius : α) (g : Game α) (i : Nat) : Game α :=
  match g.bricks.get? i with
  | none => g
  | some brick =>
    if !brick.destroyed && brick.isInExplosionRadius sqrt x y radius then
      let r := brick.hit 2
      let g1 := { g with bricks := g.bricks.set i r.1 }
      if r.2.destroyed then destruction g1 r.2 r.1 else g1
    else g

/-- `Game.handleExplosion(x, y, radius)` over the bricks in list order, with `destruction`
standing for the nested call of `handleBrickDestruction`. -/
def handleExplosionWith (sqrt : α → α)
    (destruction : Game α → HitResult α → Brick α → Game α) (g : Game α) (x y radius : α) :
    Game α :=
  (List.range g.bricks.length).foldl (explodeBrick sqrt destruction x y radius) g

/-- `Game.handleSpecialBrickEffect(effect, brick)`, with `destruction` standing for the nested
call of `handleBrickDestruction`. -/
def handleSpecialBrickEffectWith (sqrt : α → α)
    (destruction : Game α → HitResult α → Brick α → Game α) (g : Game α)
    (effect : SpecialEffect α) (brick : Brick α) : Game α :=
  match effect with
  | .explosion radius =>
    handleExplosionWith sqrt destruction g (brick.x + brick.width / 2)
      (brick.y + brick.height / 2) radius
  | .regenerate => { g with bricksRemaining := g.bricksRemaining + 1 }

/-- `Game.handleBrickDestruction(result, brick)`.  The recursion through
`handleSpecialBrickEffect` and `handleExplosion` is bounded by `fuel`, the number of nested
destructions still allowed; with no fuel left the call returns the state unchanged. -/
def handleBrickDestruction (sqrt : α → α) : Nat → Game α → HitResult α → Brick α → Game α
  | 0, g, _, _ => g
  | fuel + 1, g, result, brick =>
    if !result.destroyed then g
    else
      let g1 := g.awardPoints result
      let g2 :=
        match result.special with
        | some effect =>
          handleSpecialBrickEffectWith sqrt (handleBrickDestruction sqrt fuel) g1 effect brick
        | none => g1
      g2.spawnPowerUp (brick.x + brick.width / 2) (brick.y + brick.height / 2)

/-- `Game.handleSpecialBrickEffect(effect, brick)` with `fuel` nested destructions allowed. -/
def handleSpecialBrickEffect (sqrt : α → α) (fuel : Nat) (g : Game α)
    (effect : SpecialEffect α) (brick : Brick α) : Game α :=
  handleSpecialBrickEffectWith sqrt (handleBrickDestruction sqrt fuel) g effect brick

/-- `Game.handleExplosion(x, y, radius)` with `fuel` nested destructions allowed. -/
def handleExplosion (sqrt : α → α) (fuel : Nat) (g : Game α) (x y radius : α) : Game α :=
  handleExplosionWith sqrt (handleBrickDestruction sqrt fuel) g x y radius

/-- `Game.calculateLevelBonus`. -/
def calculateLevelBonus (g : Game α) : α :=
  (g.level : α) * 100 + (g.maxCombo : α) * 50

/-- `Game.levelComplete`: enter `levelComplete`, add the level bonus, show the level-complete
screen. -/
def levelComplete (g : Game α) : Game α :=
  let g1 := { g with state := GameState.levelComplete }
  let bonus := g1.calculateLevelBonus
  { g1 with score := g1.score + bonus, overlay := some Overlay.levelCompleteScreen }

/-- `Game.checkWinCondition`. -/
def checkWinCondition (g : Game α) : Game α :=
  let activeBricks :=
    (g.bricks.filter
      (fun brick => !brick.destroyed && decide (brick.type ≠ BrickType.unbreakable))).length
  if activeBricks = 0 then g.levelComplete else g

/-- `Game.saveHighScore`: push the new entry, sort by descending score (the sort is stable),
keep the first ten.  The write to storage that ends the method is `storeHighScores`. -/
def saveHighScore (g : Game α) : Game α :=
  let newScore : HighScore α := { score := g.score, level := g.level, date := g.dateString }
  let pushed := g.highScores ++ [newScore]
  let sorted := pushed.insertionSort (fun a b => a.score ≥ b.score)
  { g with highScores := sorted.take 10 }

/-- The last statement of `Game.saveHighScore`:
`Utils.saveToStorage('highScores', this.highScores)`. -/
def storeHighScores (stringify : List (HighScore α) → Option String)
    (storage : String → Option String) (g : Game α) : String → Option String :=
  Utils.saveToStorage stringify storage "highScores" g.highScores

/-- The read in the constructor of `Game`:
`this.highScores = Utils.loadFromStorage('highScores', [])`. -/
def loadHighScores (parse : String → Option (List (HighScore α)))
    (storage : String → Option String) : List (HighScore α) :=
  Utils.loadFromStorage parse storage "highScores" []

/-- `Game.gameOver`. -/
def gameOver (g : Game α) : Game α :=
  let g1 := { g with state := GameState.gameOver }
  let g2 := g1.saveHighScore
  { g2 with overlay := some Overlay.gameOverScreen }

/-- `Game.generateLevelConfig(level)`. -/
def generateLevelConfig (level : Nat) : LevelConfig α :=
  let config1 : LevelConfig α :=
    { rows := 5, cols := 10, brickTypes := [.normal], specialChance := 1 / 10, ballSpeed := 5 }
  let config5 : LevelConfig α :=
    { rows := 7, cols := 12, brickTypes := [.normal, .strong, .explosive, .moving, .regenerating],
      specialChance := 3 / 10, ballSpeed := 7 }
  if level > 5 then
    { rows := min 8 (config5.rows + (level - 5) / 3),
      cols := min 13 (config5.cols + (level - 5) / 2),
      brickTypes := config5.brickTypes ++ [.metal],
      specialChance := min (4 / 10) (config5.specialChance + ((level - 5 : Nat) : α) * (2 / 100)),
      ballSpeed := min 10 (config5.ballSpeed + ((level - 5 : Nat) : α) * (2 / 10)) }
  else
    match level with
    | 1 => config1
    | 2 =>
      { rows := 6, cols := 10, brickTypes := [.normal, .strong], specialChance := 15 / 100,
        ballSpeed := 55 / 10 }
    | 3 =>
      { rows := 6, cols := 11, brickTypes := [.normal, .strong, .explosive],
        specialChance := 2 / 10, ballSpeed := 6 }
    | 4 =>
      { rows := 7, cols := 11, brickTypes := [.normal, .strong, .explosive, .moving],
        specialChance := 25 / 100, ballSpeed := 65 / 10 }
    | 5 => config5
    | _ => config1

/-- The array access `brickTypes[index]`: `none` for `undefined`. -/
def brickTypeAt (brickTypes : List BrickType) (index : Int) : Option BrickType :=
  if index < 0 then none else brickTypes.get? index.toNat

/-- The body of the two loops of `Game.createBricks` for one cell: the bricks created so far
and the index of the next `Math.random()` draw go in and come out.  An `undefined` type makes
the `Brick` constructor take its default, 'normal'. -/
def createBrick (M : MathOps α) (config : LevelConfig α) (canvasWidth : α) (random : Nat → α)
    (row col : Nat) (acc : List (Brick α) × Nat) : List (Brick α) × Nat :=
  let brickWidth : α := 80
  let brickHeight : α := 30
  let padding : α := 5
  let offsetX := (canvasWidth - ((config.cols : α) * (brickWidth + padding) - padding)) / 2
  let offsetY : α := 60
  let x := offsetX + (col : α) * (brickWidth + padding)
  let y := offsetY + (row : α) * (brickHeight + padding)
  let special := decide (random acc.2 < config.specialChance)
  let brickType :=
    if special then
      brickTypeAt config.brickTypes
        (Utils.randomInt M.floor (random (acc.2 + 1)) 1 ((config.brickTypes.length : Int) - 1))
    else brickTypeAt config.brickTypes 0
  let hitPoints : α :=
    match brickType with
    | some .strong => 2
    | some .metal => 3
    | some .unbreakable => M.infinity
    | _ => 1
  (acc.1 ++ [Brick.new x y (brickType.getD .normal) hitPoints],
    acc.2 + (if special then 2 else 1))

/-- `Game.createBricks`. -/
def createBricks (M : MathOps α) (g : Game α) : Game α :=
  let config := g.levelConfig
  let r := (List.range config.rows).foldl
    (fun acc row =>
      (List.range config.cols).foldl
        (fun acc col => createBrick M config g.canvasWidth g.random row col acc) acc)
    (([] : List (Brick α)), g.randomIndex)
  { g with bricks := r.1, randomIndex := r.2 }

/-- `Game.loadLevel(levelNumber)`. -/
def loadLevel (M : MathOps α) (g : Game α) (levelNumber : Nat) : Game α :=
  let g1 := { g with levelConfig := generateLevelConfig levelNumber }
  let g2 := g1.createBricks M
  { g2 with bricksRemaining := ((g2.bricks.filter (fun brick => !brick.destroyed)).length : Int) }

/-- `Game.spawnBall`. -/
def spawnBall (M : MathOps α) (g : Game α) : Game α :=
  let ball := Ball.new g.paddle.getCenterX (g.paddle.y - 20) 8
  let ball1 := { ball with speed := g.levelConfig.ballSpeed }
  { g with balls := [ball1.launch M.cos M.sin (-M.pi / 2) none] }

/-- The loop of `Game.spawnMultiBalls`: `n` clones of `originalBall`, each with its own
`Math.random()` draw. -/
def spawnClones (M : MathOps α) (originalBall : Ball α) : Nat → Game α → Game α
  | 0, g => g
  | n + 1, g =>
    let newBall := originalBall.clone M.sqrt M.sin M.cos M.atan2 (g.random g.randomIndex)
    spawnClones M originalBall n
      { g with balls := g.balls ++ [newBall], randomIndex := g.randomIndex + 1 }

/-- `Game.spawnMultiBalls(count)`: the loop `for (i = 0; i < count; i++)` runs
`ceil(count)` times for a positive `count`. -/
def spawnMultiBalls (M : MathOps α) (g : Game α) (count : α) : Game α :=
  match g.balls with
  | [] => g
  | originalBall :: _ => spawnClones M originalBall (-(M.floor (-count))).toNat g

/-- `PowerUpManager.applyInstantEffect(effect)`, acting on the game. -/
def applyInstantEffect (M : MathOps α) (g : Game α) (effect : ActiveEffect α) : Game α :=
  match effect.type with
  | .multi_ball => g.spawnMultiBalls M effect.value.toNumber
  | .extra_life => g.addLife
  | _ => g

/-- `Game.nextLevel`. -/
def nextLevel (M : MathOps α) (g : Game α) : Game α :=
  let g1 := { g with level := g.level + 1 }
  let g2 := g1.loadLevel M g1.level
  let g3 := g2.spawnBall M
  { g3 with state := GameState.playing, overlay := none }

/-- `Game.loseLife`. -/
def loseLife (M : MathOps α) (g : Game α) : Game α :=
  let g1 := { g with lives := g.lives - 1, combo := 0 }
  if g1.lives ≤ 0 then g1.gameOver
  else
    let g2 := g1.spawnBall M
    { g2 with powerUpManager := g2.powerUpManager.clear }

/-- The loop of `Game.handleBrickCollisions(ball)` over the brick indices still to visit:
destroyed bricks that are not regenerating are skipped, a brick the ball collides with is hit
and its result passed to `handleBrickDestruction`, and the loop breaks there unless the ball
is penetrating. -/
def handleBrickCollisionsLoop (sqrt : α → α) (fuel : Nat) :
    List Nat → Game α → Ball α → Game α × Ball α
  | [], g, ball => (g, ball)
  | i :: rest, g, ball =>
    match g.bricks.get? i with
    | none => handleBrickCollisionsLoop sqrt fuel rest g ball
    | some brick =>
      if brick.destroyed && decide (brick.type ≠ BrickType.regenerating) then
        handleBrickCollisionsLoop sqrt fuel rest g ball
      else
        let r := ball.handleBrickCollision brick
        match r.2.2 with
        | none => handleBrickCollisionsLoop sqrt fuel rest g ball
        | some result =>
          let g1 := { g with bricks := g.bricks.set i r.2.1 }
          let g2 := handleBrickDestruction sqrt fuel g1 result r.2.1
          if !r.1.penetrating then (g2, r.1)
          else handleBrickCollisionsLoop sqrt fuel rest g2 r.1

/-- `Game.handleBrickCollisions(ball)`, with `fuel` nested destructions allowed. -/
def handleBrickCollisions (sqrt : α → α) (fuel : Nat) (g : Game α) (ball : Ball α) :
    Game α × Ball α :=
  handleBrickCollisionsLoop sqrt fuel (List.range g.bricks.length) g ball

/-- The `forEach` over `laserHitBricks` in `Game.handleBallCollisions`, for one recorded
brick. -/
def laserHit (sqrt : α → α) (fuel : Nat) (g : Game α) (i : Nat) : Game α :=
  match g.bricks.get? i with
  | none => g
  | some brick =>
    let r := brick.hit 1
    let g1 := { g with bricks := g.bricks.set i r.1 }
    if r.2.destroyed then handleBrickDestruction sqrt fuel g1 r.2 r.1 else g1

/-- `Game.handleBallCollisions(ball)`: paddle, bricks, lasers.  Nested destructions are
allowed up to one more than the number of bricks. -/
def handleBallCollisions (M : MathOps α) (g : Game α) (ball : Ball α) : Game α × Ball α :=
  let fuel := g.bricks.length + 1
  let r := ball.handlePaddleCollision M.sqrt M.sin M.cos M.pi g.paddle g.powerUpManager
  let g1 := if r.2 then { g with combo := 0 } else g
  let r2 := handleBrickCollisions M.sqrt fuel g1 r.1
  let l := r2.1.paddle.checkLaserCollisions r2.1.bricks
  let g3 := { r2.1 with paddle := l.1 }
  (l.2.foldl (laserHit M.sqrt fuel) g3, r2.2)

/-- The callback of the `filter` in `Game.updateBalls` for one ball: the game and the balls
kept so far go in and come out. -/
def updateBall (M : MathOps α) (acc : Game α × List (Ball α)) (ball : Ball α) :
    Game α × List (Ball α) :=
  let g := acc.1
  let b1 := ball.update M.sqrt g.canvasWidth g.canvasHeight g.powerUpManager
  let b2 := if b1.stuck then b1.updateStuckPosition g.paddle else b1
  let r := handleBallCollisions M g b2
  if r.2.isBelowPaddle r.1.paddle.y then (r.1, acc.2) else (r.1, acc.2 ++ [r.2])

/-- `Game.updateBalls`. -/
def updateBalls (M : MathOps α) (g : Game α) : Game α :=
  let r := g.balls.foldl (updateBall M) (g, ([] : List (Ball α)))
  let g1 : Game α := { r.1 with balls := r.2 }
  if g1.balls.length = 0 then g1.loseLife M else g1

/-- `Game.updateBricks`. -/
def updateBricks (g : Game α) : Game α :=
  let bricks := g.bricks.map (fun brick =>
    if !brick.destroyed || decide (brick.type = BrickType.regenerating) then brick.update
    else brick)
  { g with bricks := bricks }

/-- `Game.update`: paddle, balls, bricks, power-ups (with the instant effects of the power-ups
collected in this tick), win check. -/
def update (M : MathOps α) (g : Game α) : Game α :=
  let c := g.paddleController.update g.paddle
  let g1 := { g with paddleController := c.1, paddle := c.2 }
  let g2 := { g1 with paddle := g1.paddle.update g1.canvasWidth g1.powerUpManager }
  let g3 := g2.updateBalls M
  let g4 := g3.updateBricks
  let u := g4.powerUpManager.update g4.paddle g4.canvasHeight
  let g5 := u.2.foldl (applyInstantEffect M) { g4 with powerUpManager := u.1 }
  g5.checkWinCondition

/-- One pass of `Game.gameLoop`: `update` runs only in the `playing` state. -/
def gameLoop (M : MathOps α) (g : Game α) : Game α :=
  if g.state = GameState.playing then g.update M else g

/-- `Game.resetGame`. -/
def resetGame (M : MathOps α) (g : Game α) : Game α :=
  let g1 := { g with score := 0, lives := 3, level := 1, combo := 0, maxCombo := 0, balls := [],
                     powerUpManager := g.powerUpManager.clear }
  let g2 := { g1 with paddle := g1.paddle.reset (g1.canvasWidth / 2 - 50) (g1.canvasHeight - 40) }
  g2.loadLevel M g2.level

/-- `Game.startGame` (also `restartGame`). -/
def startGame (M : MathOps α) (g : Game α) : Game α :=
  let g1 := { g with state := GameState.playing }
  let g2 := g1.resetGame M
  let g3 := { g2 with overlay := none }
  g3.spawnBall M

/-- `Game.resumeGame`. -/
def resumeGame (g : Game α) : Game α :=
  { g with state := GameState.playing, overlay := none }

/-- `Game.togglePause`. -/
def togglePause (g : Game α) : Game α :=
  if g.state = GameState.playing then
    { g with state := GameState.paused, overlay := some Overlay.pauseScreen }
  else if g.state = GameState.paused then g.resumeGame
  else g

/-- `Game.showMainMenu`. -/
def showMainMenu (g : Game α) : Game α :=
  { g with state := GameState.start, overlay := some Overlay.startScreen }

end Game

/-! ## Concrete inputs -/

namespace Scenario

variable {α : Type} [LinearOrderedField α]

/-- A session in the `playing` state on an 800 x 600 canvas at level 1, with the given paddle,
balls, bricks and lives, no power-up, no key pressed, and every `Math.random()` draw equal to
one half. -/
def playing (paddle : Paddle α) (balls : List (Ball α)) (bricks : List (Brick α))
    (lives : Int) : Game α :=
  { canvasWidth := 800, canvasHeight := 600, state := GameState.playing, score := 0,
    lives := lives, level := 1, combo := 0, maxCombo := 0, paddle := paddle, balls := balls,
    bricks := bricks, powerUpManager := PowerUpManager.new,
    paddleController := PaddleController.new 800,
    levelConfig := Game.generateLevelConfig 1, bricksRemaining := (bricks.length : Int),
    highScores := [], random := fun _ => 1 / 2, randomIndex := 0, overlay := none,
    dateString := "" }

/-- Last life, last brick: one `normal` brick at (100, 100), a laser in flight just below it,
and the only ball already under the paddle and falling. -/
def lastLife : Game α :=
  playing
    { Paddle.new 325 540 150 22 with
        lasers := [{ x := 104, y := 135, width := 4, height := 15 }] }
    [{ Ball.new 400 570 8 with vy := 5, launched := true }]
    [Brick.new 100 100 BrickType.normal 1]
    1

/-- A session that is `playing` with no life left, one intact brick and its only ball under
the paddle and falling. -/
def noLifeLeft : Game α :=
  playing (Paddle.new 325 540 150 22)
    [{ Ball.new 400 570 8 with vy := 5, launched := true }]
    [Brick.new 100 100 BrickType.normal 1]
    0

end Scenario

end NeonBreaker

/-! # The snake game: `games/snake-game/script.js` -/

namespace Snake

/-- A grid cell `{x, y}`: a snake segment or the food. -/
structure Cell (α : Type) where
  x : α
  y : α

/-- The state of a `SnakeGame` that the simulation reads or writes (canvas, DOM elements and
sounds are left out).  `Math.random()` is the stream `random` together with the index of the
next draw. -/
structure SnakeGame (α : Type) where
  tileCount : α
  snake : List (Cell α)
  food : Cell α
  dx : α
  dy : α
  score : α
  highScore : α
  gameRunning : Bool
  gameStarted : Bool
  gamePaused : Bool
  gameSpeed : α
  level : α
  random : Nat → α
  randomIndex : Nat

namespace SnakeGame

variable {α : Type} [LinearOrderedField α]

/-- The test `this.snake.some(segment => segment.x === cell.x && segment.y === cell.y)`. -/
def onSnake (snake : List (Cell α)) (cell : Cell α) : Bool :=
  snake.any (fun segment => decide (segment.x = cell.x) && decide (segment.y = cell.y))

/-- The `do ... while` loop of `SnakeGame.generateFood` with `fuel` iterations allowed: each
iteration draws a candidate cell with two calls of `Math.random()` and stops when the cell is
not on the snake.  The result is the food and the index of the next draw, `none` when the fuel
runs out.  `floor` stands for `Math.floor`. -/
def generateFoodLoop (floor : α → Int) (tileCount : α) (snake : List (Cell α))
    (random : Nat → α) : Nat → Nat → Option (Cell α × Nat)
  | 0, _ => none
  | fuel + 1, index =>
    let newFood : Cell α :=
      { x := ((floor (random index * tileCount) : Int) : α),
        y := ((floor (random (index + 1) * tileCount) : Int) : α) }
    if onSnake snake newFood then generateFoodLoop floor tileCount snake random fuel (index + 2)
    else some (newFood, index + 2)

/-- `SnakeGame.generateFood`, `none` when the loop does not end within `fuel` iterations. -/
def generateFood (floor : α → Int) (fuel : Nat) (g : SnakeGame α) : Option (SnakeGame α) :=
  (generateFoodLoop floor g.tileCount g.snake g.random fuel g.randomIndex).map
    (fun r => { g with food := r.1, randomIndex := r.2 })

/-- `SnakeGame.updateLevel`. -/
def updateLevel (floor : α → Int) (g : SnakeGame α) : SnakeGame α :=
  let newLevel : α := ((floor (g.score / 100) : Int) : α) + 1
  if newLevel > g.level then
    let g1 := { g with level := newLevel }
    { g1 with gameSpeed := max 80 (150 - (g1.level - 1) * 10) }
  else g

/-- `SnakeGame.eatFood`: ten points, new food, level update. -/
def eatFood (floor : α → Int) (fuel : Nat) (g : SnakeGame α) : Option (SnakeGame α) :=
  let g1 := { g with score := g.score + 10 }
  (g1.generateFood floor fuel).map (fun g2 => g2.updateLevel floor)

/-- `SnakeGame.gameOver`. -/
def gameOver (g : SnakeGame α) : SnakeGame α :=
  let g1 := { g with gameRunning := false, gameStarted := false }
  if g1.score > g1.highScore then { g1 with highScore := g1.score } else g1

/-- `SnakeGame.update`.  The result is `none` when `generateFood` does not return within `fuel`
iterations, and for an empty snake, where reading `this.snake[0].x` throws. -/
def update (floor : α → Int) (fuel : Nat) (g : SnakeGame α) : Option (SnakeGame α) :=
  if g.dx = 0 ∧ g.dy = 0 then some g
  else
    match g.snake with
    | [] => none
    | first :: _ =>
      let head : Cell α := { x := first.x + g.dx, y := first.y + g.dy }
      if head.x < 0 ∨ head.x ≥ g.tileCount ∨ head.y < 0 ∨ head.y ≥ g.tileCount then
        some g.gameOver
      else if onSnake g.snake head then some g.gameOver
      else
        let g1 := { g with snake := head :: g.snake }
        if head.x = g1.food.x ∧ head.y = g1.food.y then g1.eatFood floor fuel
        else some { g1 with snake := g1.snake.dropLast }

end SnakeGame

/-! ## Concrete inputs -/

namespace Scenario

variable {α : Type} [LinearOrderedField α]

/-- A running game on a 20 x 20 grid: the one-segment snake of `resetGame` at (10, 10) heading
right, the food on the next cell (11, 10), and every `Math.random()` draw equal to a quarter. -/
def headingRight : SnakeGame α :=
  { tileCount := 20, snake := [{ x := 10, y := 10 }], food := { x := 11, y := 10 }, dx := 1,
    dy := 0, score := 0, highScore := 0, gameRunning := true, gameStarted := true,
    gamePaused := false, gameSpeed := 150, level := 1, random := fun _ => 1 / 4,
    randomIndex := 0 }

end Scenario

end Snake

/-! # Verified properties -/

namespace NeonBreaker

section PaddleBounce

/-- The exit angle stays within 60 degrees of the vertical. -/
theorem bounceAngle_mem (n : ℝ) (h1 : -1 ≤ n) (h2 : n ≤ 1) :
    n * Real.pi / 3 ∈ Set.Ioo (-(Real.pi / 2)) (Real.pi / 2) := by
  have hpi := Real.pi_pos
  constructor <;> nlinarith

/-- `Utils.clamp value (-1) 1` lies in `[-1, 1]`. -/
theorem clamp_unit_mem (v : ℝ) : -1 ≤ Utils.clamp v (-1) 1 ∧ Utils.clamp v (-1) 1 ≤ 1 := by
  unfold Utils.clamp
  exact ⟨le_min (le_max_right _ _) (by norm_num), min_le_right _ _⟩

/-- C1: a ball that overlaps the paddle while moving down (`vy > 0`), with a paddle of positive
width and no sticky effect, bounces: the call returns `true`, the new velocity is
`(s * sin t, -(s * cos t))` for the old speed `s` and the exit angle `t = n * π / 3`, the new
`vy` is negative and `vx² + vy²` is unchanged. -/
theorem handlePaddleCollision_bounce (b : Ball ℝ) (paddle : Paddle ℝ) (pm : PowerUpManager ℝ)
    (hhit : Utils.circleRectIntersect { x := b.x, y := b.y, radius := b.radius }
      paddle.getBounds = true)
    (hvy : 0 < b.vy) (_hw : 0 < paddle.width)
    (hsticky : pm.hasEffect EffectKind.sticky_paddle = false) :
    (b.handlePaddleCollision Real.sqrt Real.sin Real.cos Real.pi paddle pm).2 = true ∧
    (b.handlePaddleCollision Real.sqrt Real.sin Real.cos Real.pi paddle pm).1.vx =
      Real.sqrt (b.vx ^ 2 + b.vy ^ 2) *
        Real.sin (Utils.clamp ((b.x - (paddle.x + paddle.width / 2)) / (paddle.width / 2)) (-1) 1
          * Real.pi / 3) ∧
    (b.handlePaddleCollision Real.sqrt Real.sin Real.cos Real.pi paddle pm).1.vy =
      -(Real.sqrt (b.vx ^ 2 + b.vy ^ 2) *
        Real.cos (Utils.clamp ((b.x - (paddle.x + paddle.width / 2)) / (paddle.width / 2)) (-1) 1
          * Real.pi / 3)) ∧
    (b.handlePaddleCollision Real.sqrt Real.sin Real.cos Real.pi paddle pm).1.vy < 0 ∧
    (b.handlePaddleCollision Real.sqrt Real.sin Real.cos Real.pi paddle pm).1.vx ^ 2 +
      (b.handlePaddleCollision Real.sqrt Real.sin Real.cos Real.pi paddle pm).1.vy ^ 2 =
      b.vx ^ 2 + b.vy ^ 2 := by
  have hsq : 0 < b.vx ^ 2 + b.vy ^ 2 := by positivity
  have hs : 0 < Real.sqrt (b.vx ^ 2 + b.vy ^ 2) := Real.sqrt_pos.mpr hsq
  have hss : Real.sqrt (b.vx ^ 2 + b.vy ^ 2) ^ 2 = b.vx ^ 2 + b.vy ^ 2 := Real.sq_sqrt hsq.le
  obtain ⟨hn1, hn2⟩ :=
    clamp_unit_mem ((b.x - (paddle.x + paddle.width / 2)) / (paddle.width / 2))
  have hcos := Real.cos_pos_of_mem_Ioo (bounceAngle_mem _ hn1 hn2)
  have hmul : 0 < Real.cos (Utils.clamp ((b.x - (paddle.x + paddle.width / 2)) /
      (paddle.width / 2)) (-1) 1 * Real.pi / 3) * Real.sqrt (b.vx ^ 2 + b.vy ^ 2) :=
    mul_pos hcos hs
  have hpow : b.vx * b.vx + b.vy * b.vy = b.vx ^ 2 + b.vy ^ 2 := by ring
  simp only [Ball.handlePaddleCollision, hhit, Bool.not_true, not_le.mpr hvy, hsticky,
    Bool.false_and, Bool.false_eq_true, if_false, Ball.currentSpeed, hpow]
  simp only [Paddle.getBounds, abs_of_pos hmul, true_and]
  refine ⟨by ring, by ring, by linarith, ?_⟩
  have := Real.sin_sq_add_cos_sq (Utils.clamp ((b.x - (paddle.x + paddle.width / 2)) /
      (paddle.width / 2)) (-1) 1 * Real.pi / 3)
  nlinarith [this, hss]

/-- C1, witness: a ball with velocity (3, 4) centred on a paddle of width 2. -/
theorem handlePaddleCollision_bounce_witness :
    (({ Ball.new (0 : ℝ) 0 1 with vx := 3, vy := 4 } : Ball ℝ).handlePaddleCollision
      Real.sqrt Real.sin Real.cos Real.pi
      (Paddle.new (-1) (-1) 2 2)
      PowerUpManager.new).2 = true ∧
    (({ Ball.new (0 : ℝ) 0 1 with vx := 3, vy := 4 } : Ball ℝ).handlePaddleCollision
      Real.sqrt Real.sin Real.cos Real.pi
      (Paddle.new (-1) (-1) 2 2)
      PowerUpManager.new).1.vy < 0 :=
  have h := handlePaddleCollision_bounce ({ Ball.new (0 : ℝ) 0 1 with vx := 3, vy := 4 })
    (Paddle.new (-1) (-1) 2 2)
    PowerUpManager.new
    (by norm_num [Utils.circleRectIntersect, Ball.new, Paddle.getBounds, Paddle.new])
    (by norm_num [Ball.new]) (by norm_num [Paddle.new]) rfl
  ⟨h.1, h.2.2.2.1⟩

end PaddleBounce

section SpeedLimit

variable {α : Type} [LinearOrderedField α]

/-- The anti-stall rule leaves a vertical component of absolute value at least one half. -/
theorem preventHorizontal_abs_vy (c : Ball α) : 1 / 2 ≤ |c.preventHorizontal.vy| := by
  unfold Ball.preventHorizontal
  split_ifs with h1 h2
  · simp only [abs_of_pos (show (0 : α) < 1 / 2 by norm_num)]; exact le_refl _
  · simp only [abs_neg, abs_of_pos (show (0 : α) < 1 / 2 by norm_num)]; exact le_refl _
  · exact not_lt.mp h1

/-- `updateTrail` touches the trail only. -/
theorem updateTrail_velocity {β : Type} (b : Ball β) :
    b.updateTrail.vx = b.vx ∧ b.updateTrail.vy = b.vy ∧
    b.updateTrail.maxSpeed = b.maxSpeed ∧ b.updateTrail.minSpeed = b.minSpeed := by
  simp only [Ball.updateTrail]
  split_ifs <;> exact ⟨rfl, rfl, rfl, rfl⟩

/-- `updateGlow` touches the glow animation only. -/
theorem updateGlow_velocity (b : Ball α) :
    b.updateGlow.vx = b.vx ∧ b.updateGlow.vy = b.vy ∧
    b.updateGlow.maxSpeed = b.maxSpeed ∧ b.updateGlow.minSpeed = b.minSpeed := by
  simp only [Ball.updateGlow]
  split_ifs <;> exact ⟨rfl, rfl, rfl, rfl⟩

/-- The wall collisions keep the speed bounds and only change the sign of the velocity
components. -/
theorem handleWallCollisions_velocity (b : Ball α) (cw ch : α) :
    (b.handleWallCollisions cw ch).vx * (b.handleWallCollisions cw ch).vx = b.vx * b.vx ∧
    (b.handleWallCollisions cw ch).vy * (b.handleWallCollisions cw ch).vy = b.vy * b.vy ∧
    (b.handleWallCollisions cw ch).maxSpeed = b.maxSpeed ∧
    (b.handleWallCollisions cw ch).minSpeed = b.minSpeed := by
  simp only [Ball.handleWallCollisions, Ball.wallLeft, Ball.wallRight, Ball.wallTop]
  split_ifs <;>
  simp only [abs_mul_abs_self, neg_mul_neg, and_self]

/-- The step of `update` before `limitSpeed` keeps the speed bounds and only changes the sign
of the velocity components. -/
theorem advance_velocity (b : Ball α) (cw ch : α) (pm : PowerUpManager α) :
    (b.advance cw ch pm).vx * (b.advance cw ch pm).vx = b.vx * b.vx ∧
    (b.advance cw ch pm).vy * (b.advance cw ch pm).vy = b.vy * b.vy ∧
    (b.advance cw ch pm).maxSpeed = b.maxSpeed ∧
    (b.advance cw ch pm).minSpeed = b.minSpeed := by
  unfold Ball.advance
  obtain ⟨h1, h2, h3, h4⟩ := handleWallCollisions_velocity
    (Ball.updateGlow (Ball.updateTrail
      { b with penetrating := pm.hasEffect EffectKind.penetrating,
               x := b.x + b.vx * (pm.getEffectValue EffectKind.ball_speed
                 (EffectValue.num 1)).toNumber,
               y := b.y + b.vy * (pm.getEffectValue EffectKind.ball_speed
                 (EffectValue.num 1)).toNumber })) cw ch
  obtain ⟨g1, g2, g3, g4⟩ := updateGlow_velocity (Ball.updateTrail
      { b with penetrating := pm.hasEffect EffectKind.penetrating,
               x := b.x + b.vx * (pm.getEffectValue EffectKind.ball_speed
                 (EffectValue.num 1)).toNumber,
               y := b.y + b.vy * (pm.getEffectValue EffectKind.ball_speed
                 (EffectValue.num 1)).toNumber })
  obtain ⟨t1, t2, t3, t4⟩ := updateTrail_velocity
      { b with penetrating := pm.hasEffect EffectKind.penetrating,
               x := b.x + b.vx * (pm.getEffectValue EffectKind.ball_speed
                 (EffectValue.num 1)).toNumber,
               y := b.y + b.vy * (pm.getEffectValue EffectKind.ball_speed
                 (EffectValue.num 1)).toNumber }
  rw [g1, t1] at h1
  rw [g2, t2] at h2
  rw [g3, t3] at h3
  rw [g4, t4] at h4
  exact ⟨h1, h2, h3, h4⟩

/-- C4: after `limitSpeed` the vertical speed is at least 0.5 in absolute value: a clamped `vy`
with `|vy| < 0.5` becomes 0.5 when positive and -0.5 otherwise (so 0 becomes -0.5), while `vx`
and a clamped `vy` with `|vy| ≥ 0.5` are left as the clamp produced them; the same bound holds
after every `update` of a launched ball that is not stuck. -/
theorem limitSpeed_vy_floor (sqrt : α → α) (b : Ball α) :
    1 / 2 ≤ |(b.limitSpeed sqrt).vy| ∧
    (b.limitSpeed sqrt).vx = (b.rescaleSpeed sqrt).vx ∧
    (|(b.rescaleSpeed sqrt).vy| < 1 / 2 → 0 < (b.rescaleSpeed sqrt).vy →
      (b.limitSpeed sqrt).vy = 1 / 2) ∧
    (|(b.rescaleSpeed sqrt).vy| < 1 / 2 → (b.rescaleSpeed sqrt).vy ≤ 0 →
      (b.limitSpeed sqrt).vy = -(1 / 2)) ∧
    ((b.rescaleSpeed sqrt).vy = 0 → (b.limitSpeed sqrt).vy = -(1 / 2)) ∧
    (1 / 2 ≤ |(b.rescaleSpeed sqrt).vy| → (b.limitSpeed sqrt).vy = (b.rescaleSpeed sqrt).vy) ∧
    (∀ (canvasWidth canvasHeight : α) (pm : PowerUpManager α),
      b.launched = true → b.stuck = false →
      1 / 2 ≤ |(b.update sqrt canvasWidth canvasHeight pm).vy|) := by
  refine ⟨preventHorizontal_abs_vy _, ?_, ?_, ?_, ?_, ?_, ?_⟩
  · simp only [Ball.limitSpeed, Ball.preventHorizontal]
    split_ifs <;> rfl
  · intro h1 h2
    simp only [Ball.limitSpeed, Ball.preventHorizontal, h1, h2, if_true]
  · intro h1 h2
    simp only [Ball.limitSpeed, Ball.preventHorizontal, h1, not_lt.mpr h2, if_true, if_false]
  · intro h0
    simp only [Ball.limitSpeed, Ball.preventHorizontal, h0, abs_zero, lt_irrefl, if_false,
      show (0 : α) < 1 / 2 by norm_num, if_true]
  · intro h1
    simp only [Ball.limitSpeed, Ball.preventHorizontal, not_lt.mpr h1, if_false]
  · intro cw ch pm hl hs
    simp only [Ball.update, hl, hs, Bool.not_true, Bool.or_false, Bool.false_eq_true, if_false]
    exact preventHorizontal_abs_vy _

/-- The squared magnitude of the velocity. -/
theorem currentSpeed_sq (b : Ball ℝ) :
    b.currentSpeed Real.sqrt ^ 2 = b.vx * b.vx + b.vy * b.vy := by
  unfold Ball.currentSpeed
  exact Real.sq_sqrt (by nlinarith [mul_self_nonneg b.vx, mul_self_nonneg b.vy])

/-- The magnitude is never negative. -/
theorem currentSpeed_nonneg (b : Ball ℝ) : 0 ≤ b.currentSpeed Real.sqrt :=
  Real.sqrt_nonneg _

/-- Scaling both components by `k ≥ 0` scales the magnitude by `k`. -/
theorem currentSpeed_scale (b c : Ball ℝ) (k : ℝ) (hk : 0 ≤ k)
    (hx : c.vx = b.vx * k) (hy : c.vy = b.vy * k) :
    c.currentSpeed Real.sqrt = k * b.currentSpeed Real.sqrt := by
  unfold Ball.currentSpeed
  have h : c.vx * c.vx + c.vy * c.vy = k * k * (b.vx * b.vx + b.vy * b.vy) := by
    rw [hx, hy]; ring
  rw [h, Real.sqrt_mul (mul_self_nonneg k), Real.sqrt_mul_self hk]

/-- The clamp of `limitSpeed` brings a non-zero speed into `[minSpeed, maxSpeed]`. -/
theorem rescaleSpeed_bounds (b : Ball ℝ) (hmax : 0 ≤ b.maxSpeed)
    (hmm : b.minSpeed ≤ b.maxSpeed) (hv : 0 < b.currentSpeed Real.sqrt) :
    b.minSpeed ≤ (b.rescaleSpeed Real.sqrt).currentSpeed Real.sqrt ∧
    (b.rescaleSpeed Real.sqrt).currentSpeed Real.sqrt ≤ b.maxSpeed := by
  by_cases h1 : b.currentSpeed Real.sqrt > b.maxSpeed
  · have hk : 0 ≤ b.maxSpeed / b.currentSpeed Real.sqrt := div_nonneg hmax hv.le
    have hc := currentSpeed_scale b (b.rescaleSpeed Real.sqrt) _ hk
      (by simp only [Ball.rescaleSpeed, h1, if_true])
      (by simp only [Ball.rescaleSpeed, h1, if_true])
    rw [div_mul_cancel₀ _ hv.ne.symm] at hc
    rw [hc]
    exact ⟨hmm, le_refl _⟩
  · by_cases h2 : b.currentSpeed Real.sqrt < b.minSpeed ∧ b.currentSpeed Real.sqrt > 0
    · have hmin : 0 ≤ b.minSpeed := le_trans hv.le h2.1.le
      have hk : 0 ≤ b.minSpeed / b.currentSpeed Real.sqrt := div_nonneg hmin hv.le
      have hc := currentSpeed_scale b (b.rescaleSpeed Real.sqrt) _ hk
        (by simp only [Ball.rescaleSpeed, h1, h2, if_false, if_true, and_self])
        (by simp only [Ball.rescaleSpeed, h1, h2, if_false, if_true, and_self])
      rw [div_mul_cancel₀ _ hv.ne.symm] at hc
      rw [hc]
      exact ⟨le_refl _, hmm⟩
    · have he : b.rescaleSpeed Real.sqrt = b := by
        simp only [Ball.rescaleSpeed, h1, h2, if_false]
      rw [he]
      refine ⟨?_, not_lt.mp h1⟩
      by_contra hlt
      exact h2 ⟨not_le.mp hlt, hv⟩

/-- The anti-stall rule never lowers the magnitude and adds at most 0.25 to its square. -/
theorem preventHorizontal_speed (c : Ball ℝ) :
    c.currentSpeed Real.sqrt ≤ c.preventHorizontal.currentSpeed Real.sqrt ∧
    c.preventHorizontal.currentSpeed Real.sqrt ^ 2 ≤ c.currentSpeed Real.sqrt ^ 2 + 1 / 4 ∧
    (1 / 2 ≤ |c.vy| → c.preventHorizontal = c) := by
  have hvy : |c.vy| < 1 / 2 → c.vy * c.vy ≤ 1 / 4 := by
    intro h
    have h' := abs_lt.mp h
    nlinarith [h'.1, h'.2]
  have key : c.preventHorizontal.vx = c.vx ∧
      c.vy * c.vy ≤ c.preventHorizontal.vy * c.preventHorizontal.vy ∧
      c.preventHorizontal.vy * c.preventHorizontal.vy ≤ c.vy * c.vy + 1 / 4 := by
    unfold Ball.preventHorizontal
    split_ifs with h1 h2
    · refine ⟨rfl, ?_, ?_⟩ <;> simp only [] <;> nlinarith [hvy h1, mul_self_nonneg c.vy]
    · refine ⟨rfl, ?_, ?_⟩ <;> simp only [] <;> nlinarith [hvy h1, mul_self_nonneg c.vy]
    · exact ⟨rfl, le_refl _, by linarith⟩
  obtain ⟨k1, k2, k3⟩ := key
  refine ⟨?_, ?_, ?_⟩
  · unfold Ball.currentSpeed
    rw [k1]
    exact Real.sqrt_le_sqrt (by linarith)
  · rw [currentSpeed_sq, currentSpeed_sq, k1]
    linarith
  · intro h
    simp only [Ball.preventHorizontal, not_lt.mpr h, if_false]

/-- C2 (as amended): for a launched ball that is not stuck, with `0 ≤ maxSpeed`,
`minSpeed ≤ maxSpeed` and a non-zero velocity, the speed after `update` is at least `minSpeed`
and its square is at most `maxSpeed² + 0.25`; it is at most `maxSpeed` whenever the anti-stall
rule does not fire, that is when the clamped `vy` has `|vy| ≥ 0.5`. -/
theorem update_speed_bounds (b : Ball ℝ) (canvasWidth canvasHeight : ℝ)
    (pm : PowerUpManager ℝ) (hl : b.launched = true) (hs : b.stuck = false)
    (hmax : 0 ≤ b.maxSpeed) (hmm : b.minSpeed ≤ b.maxSpeed) (hv : b.vx ≠ 0 ∨ b.vy ≠ 0) :
    b.minSpeed ≤ (b.update Real.sqrt canvasWidth canvasHeight pm).currentSpeed Real.sqrt ∧
    (b.update Real.sqrt canvasWidth canvasHeight pm).currentSpeed Real.sqrt ^ 2 ≤
      b.maxSpeed ^ 2 + 1 / 4 ∧
    (1 / 2 ≤ |((b.advance canvasWidth canvasHeight pm).rescaleSpeed Real.sqrt).vy| →
      (b.update Real.sqrt canvasWidth canvasHeight pm).currentSpeed Real.sqrt ≤ b.maxSpeed) := by
  obtain ⟨a1, a2, a3, a4⟩ := advance_velocity b canvasWidth canvasHeight pm
  have hpos : 0 < b.vx * b.vx + b.vy * b.vy := by
    rcases hv with h | h
    · nlinarith [mul_self_pos.mpr h, mul_self_nonneg b.vy]
    · nlinarith [mul_self_pos.mpr h, mul_self_nonneg b.vx]
  have hcs : 0 < (b.advance canvasWidth canvasHeight pm).currentSpeed Real.sqrt := by
    unfold Ball.currentSpeed
    rw [a1, a2]
    exact Real.sqrt_pos.mpr hpos
  obtain ⟨r1, r2⟩ := rescaleSpeed_bounds (b.advance canvasWidth canvasHeight pm)
    (by rw [a3]; exact hmax) (by rw [a3, a4]; exact hmm) hcs
  rw [a4] at r1
  rw [a3] at r2
  obtain ⟨p1, p2, p3⟩ :=
    preventHorizontal_speed ((b.advance canvasWidth canvasHeight pm).rescaleSpeed Real.sqrt)
  have hu : b.update Real.sqrt canvasWidth canvasHeight pm =
      ((b.advance canvasWidth canvasHeight pm).rescaleSpeed Real.sqrt).preventHorizontal := by
    simp only [Ball.update, hl, hs, Bool.not_true, Bool.or_false, Bool.false_eq_true, if_false,
      Ball.limitSpeed]
  rw [hu]
  refine ⟨le_trans r1 p1, ?_, ?_⟩
  · have h0 := currentSpeed_nonneg
      ((b.advance canvasWidth canvasHeight pm).rescaleSpeed Real.sqrt)
    nlinarith [p2, r2, h0]
  · intro h
    rw [p3 h]
    exact r2

/-- C2, witness: a launched ball with velocity (3, 4) in an 800 x 600 canvas. -/
theorem update_speed_bounds_witness :
    (3 : ℝ) ≤ (({ Ball.new (100 : ℝ) 100 8 with vx := 3, vy := 4, launched := true } :
      Ball ℝ).update Real.sqrt 800 600 PowerUpManager.new).currentSpeed Real.sqrt :=
  (update_speed_bounds { Ball.new (100 : ℝ) 100 8 with vx := 3, vy := 4, launched := true }
    800 600 PowerUpManager.new rfl rfl (by norm_num [Ball.new]) (by norm_num [Ball.new])
    (Or.inl (by norm_num))).1

/-- C2, counterexample: a launched ball travelling horizontally at exactly `maxSpeed = 12`
is given `vy = -0.5` by the anti-stall rule, so its speed after `update` exceeds 12; and a
launched ball with zero velocity, which the clamp skips, ends with speed below
`minSpeed = 3`. -/
theorem update_speed_above_max :
    ({ Ball.new (100 : ℝ) 100 8 with vx := 12, launched := true } : Ball ℝ).launched = true ∧
    ({ Ball.new (100 : ℝ) 100 8 with vx := 12, launched := true } : Ball ℝ).stuck = false ∧
    ({ Ball.new (100 : ℝ) 100 8 with vx := 12, launched := true } : Ball ℝ).maxSpeed = 12 ∧
    (12 : ℝ) < (({ Ball.new (100 : ℝ) 100 8 with vx := 12, launched := true } :
      Ball ℝ).update Real.sqrt 800 600 PowerUpManager.new).currentSpeed Real.sqrt ∧
    ({ Ball.new (100 : ℝ) 100 8 with launched := true } : Ball ℝ).minSpeed = 3 ∧
    (({ Ball.new (100 : ℝ) 100 8 with launched := true } :
      Ball ℝ).update Real.sqrt 800 600 PowerUpManager.new).currentSpeed Real.sqrt < 3 := by
  have h144 : Real.sqrt 144 = 12 :=
    (Real.sqrt_eq_iff_mul_self_eq_of_pos (by norm_num)).mpr (by norm_num)
  refine ⟨rfl, rfl, rfl, ?_, rfl, ?_⟩
  · have hv : (({ Ball.new (100 : ℝ) 100 8 with vx := 12, launched := true } :
        Ball ℝ).update Real.sqrt 800 600 PowerUpManager.new).vx = 12 ∧
        (({ Ball.new (100 : ℝ) 100 8 with vx := 12, launched := true } :
        Ball ℝ).update Real.sqrt 800 600 PowerUpManager.new).vy = -(1 / 2) := by
      norm_num [Ball.update, Ball.advance, Ball.new, Ball.limitSpeed, Ball.rescaleSpeed,
        Ball.preventHorizontal, Ball.currentSpeed, Ball.handleWallCollisions, Ball.wallLeft,
        Ball.wallRight, Ball.wallTop, Ball.updateTrail, Ball.updateGlow, PowerUpManager.new,
        PowerUpManager.getEffectValue, PowerUpManager.hasEffect, EffectValue.toNumber, h144]
    unfold Ball.currentSpeed
    rw [hv.1, hv.2]
    exact Real.lt_sqrt_of_sq_lt (by norm_num)
  · have hv : (({ Ball.new (100 : ℝ) 100 8 with launched := true } :
        Ball ℝ).update Real.sqrt 800 600 PowerUpManager.new).vx = 0 ∧
        (({ Ball.new (100 : ℝ) 100 8 with launched := true } :
        Ball ℝ).update Real.sqrt 800 600 PowerUpManager.new).vy = -(1 / 2) := by
      norm_num [Ball.update, Ball.advance, Ball.new, Ball.limitSpeed, Ball.rescaleSpeed,
        Ball.preventHorizontal, Ball.currentSpeed, Ball.handleWallCollisions, Ball.wallLeft,
        Ball.wallRight, Ball.wallTop, Ball.updateTrail, Ball.updateGlow, PowerUpManager.new,
        PowerUpManager.getEffectValue, PowerUpManager.hasEffect, EffectValue.toNumber]
    unfold Ball.currentSpeed
    rw [hv.1, hv.2]
    exact (Real.sqrt_lt' (by norm_num)).mpr (by norm_num)

/-- C3 (as amended): for `maxSpeed > 0` and a velocity of magnitude above `maxSpeed` whose
rescaled vertical component `vy * maxSpeed / speed` is at least 0.5 in absolute value,
`limitSpeed` leaves a velocity of magnitude exactly `maxSpeed` that is a positive multiple of
the original one. -/
theorem limitSpeed_over_max (b : Ball ℝ) (hmax : 0 < b.maxSpeed)
    (hover : b.maxSpeed < b.currentSpeed Real.sqrt)
    (hvy : 1 / 2 ≤ |b.vy * (b.maxSpeed / b.currentSpeed Real.sqrt)|) :
    (b.limitSpeed Real.sqrt).currentSpeed Real.sqrt = b.maxSpeed ∧
    ∃ k : ℝ, 0 < k ∧ (b.limitSpeed Real.sqrt).vx = k * b.vx ∧
      (b.limitSpeed Real.sqrt).vy = k * b.vy := by
  have hs : 0 < b.currentSpeed Real.sqrt := lt_trans hmax hover
  have hk : 0 < b.maxSpeed / b.currentSpeed Real.sqrt := div_pos hmax hs
  have hx : (b.rescaleSpeed Real.sqrt).vx = b.vx * (b.maxSpeed / b.currentSpeed Real.sqrt) := by
    simp only [Ball.rescaleSpeed, gt_iff_lt, hover, if_true]
  have hy : (b.rescaleSpeed Real.sqrt).vy = b.vy * (b.maxSpeed / b.currentSpeed Real.sqrt) := by
    simp only [Ball.rescaleSpeed, gt_iff_lt, hover, if_true]
  have hl : b.limitSpeed Real.sqrt = b.rescaleSpeed Real.sqrt := by
    unfold Ball.limitSpeed
    exact (preventHorizontal_speed _).2.2 (by rw [hy]; exact hvy)
  rw [hl]
  refine ⟨?_, b.maxSpeed / b.currentSpeed Real.sqrt, hk, ?_, ?_⟩
  · rw [currentSpeed_scale b _ _ hk.le hx hy, div_mul_cancel₀ _ hs.ne.symm]
  · rw [hx, mul_comm]
  · rw [hy, mul_comm]

/-- C3, witness: a ball moving straight down with speed 14 ends with speed exactly 12. -/
theorem limitSpeed_over_max_witness :
    (({ Ball.new (100 : ℝ) 100 8 with vy := 14 } : Ball ℝ).limitSpeed
      Real.sqrt).currentSpeed Real.sqrt = 12 :=
  have h196 : ({ Ball.new (100 : ℝ) 100 8 with vy := 14 } : Ball ℝ).currentSpeed Real.sqrt = 14 :=
    (Real.sqrt_eq_iff_mul_self_eq_of_pos (by norm_num)).mpr (by norm_num [Ball.new])
  (limitSpeed_over_max { Ball.new (100 : ℝ) 100 8 with vy := 14 } (by norm_num [Ball.new])
    (by rw [h196]; norm_num [Ball.new])
    (by rw [h196]; norm_num [Ball.new])).1

/-- C3, counterexample: a ball moving horizontally with speed 14 is rescaled to (12, 0) and
then given `vy = -0.5`: its final speed is not 12 and its velocity is not a multiple of the
original one. -/
theorem limitSpeed_horizontal_not_max :
    ({ Ball.new (100 : ℝ) 100 8 with vx := 14 } : Ball ℝ).currentSpeed Real.sqrt = 14 ∧
    ({ Ball.new (100 : ℝ) 100 8 with vx := 14 } : Ball ℝ).maxSpeed = 12 ∧
    (({ Ball.new (100 : ℝ) 100 8 with vx := 14 } : Ball ℝ).limitSpeed
      Real.sqrt).currentSpeed Real.sqrt ≠ 12 ∧
    ¬ ∃ k : ℝ, 0 < k ∧
      (({ Ball.new (100 : ℝ) 100 8 with vx := 14 } : Ball ℝ).limitSpeed Real.sqrt).vy =
        k * ({ Ball.new (100 : ℝ) 100 8 with vx := 14 } : Ball ℝ).vy := by
  have h196 : Real.sqrt 196 = 14 :=
    (Real.sqrt_eq_iff_mul_self_eq_of_pos (by norm_num)).mpr (by norm_num)
  have hv : (({ Ball.new (100 : ℝ) 100 8 with vx := 14 } : Ball ℝ).limitSpeed Real.sqrt).vx
        = 12 ∧
      (({ Ball.new (100 : ℝ) 100 8 with vx := 14 } : Ball ℝ).limitSpeed Real.sqrt).vy
        = -(1 / 2) := by
    norm_num [Ball.new, Ball.limitSpeed, Ball.rescaleSpeed, Ball.preventHorizontal,
      Ball.currentSpeed, h196]
  refine ⟨?_, rfl, ?_, ?_⟩
  · norm_num [Ball.currentSpeed, Ball.new, h196]
  · unfold Ball.currentSpeed
    rw [hv.1, hv.2]
    exact ne_of_gt (Real.lt_sqrt_of_sq_lt (by norm_num))
  · rintro ⟨k, _, hk⟩
    rw [hv.2] at hk
    norm_num [Ball.new] at hk

/-- C4, witness: a ball moving horizontally with speed 5 (square root read off as 5) keeps
`vx = 5` and leaves `limitSpeed` with `vy = -0.5`. -/
theorem limitSpeed_vy_floor_witness :
    (({ Ball.new (0 : ℚ) 0 8 with vx := 5 } : Ball ℚ).limitSpeed (fun _ => 5)).vy = -(1 / 2) ∧
    (({ Ball.new (0 : ℚ) 0 8 with vx := 5 } : Ball ℚ).limitSpeed (fun _ => 5)).vx = 5 :=
  have h := limitSpeed_vy_floor (fun _ => (5 : ℚ)) { Ball.new (0 : ℚ) 0 8 with vx := 5 }
  ⟨h.2.2.2.2.1 (by norm_num [Ball.rescaleSpeed, Ball.currentSpeed, Ball.new]),
    h.2.1.trans (by norm_num [Ball.rescaleSpeed, Ball.currentSpeed, Ball.new])⟩

end SpeedLimit

section WallCollisions

variable {α : Type} [LinearOrderedField α]

/-- C5 (as amended): for `canvasWidth ≥ 2 * radius` the ball ends inside the left, right and
top walls; a firing left, right or top test (the right test reads the `x` left by the left
one) puts the coordinate exactly at `radius`, `canvasWidth - radius`, `radius` and keeps the
absolute value of the matching velocity component, which then points away from the right and
top walls, and away from the left wall when `canvasWidth > 2 * radius`; a ball below the top
test keeps `y` and `vy` whatever the canvas height, so no bottom wall is applied. -/
theorem handleWallCollisions_inside (b : Ball α) (canvasWidth canvasHeight : α)
    (hw : 2 * b.radius ≤ canvasWidth) :
    (b.radius ≤ (b.handleWallCollisions canvasWidth canvasHeight).x ∧
      (b.handleWallCollisions canvasWidth canvasHeight).x ≤ canvasWidth - b.radius ∧
      b.radius ≤ (b.handleWallCollisions canvasWidth canvasHeight).y) ∧
    (b.x - b.radius ≤ 0 →
      (b.handleWallCollisions canvasWidth canvasHeight).x = b.radius ∧
      |(b.handleWallCollisions canvasWidth canvasHeight).vx| = |b.vx| ∧
      (2 * b.radius < canvasWidth → 0 ≤ (b.handleWallCollisions canvasWidth canvasHeight).vx)) ∧
    (b.wallLeft.x + b.radius ≥ canvasWidth →
      (b.handleWallCollisions canvasWidth canvasHeight).x = canvasWidth - b.radius ∧
      |(b.handleWallCollisions canvasWidth canvasHeight).vx| = |b.vx| ∧
      (b.handleWallCollisions canvasWidth canvasHeight).vx ≤ 0) ∧
    (b.y - b.radius ≤ 0 →
      (b.handleWallCollisions canvasWidth canvasHeight).y = b.radius ∧
      |(b.handleWallCollisions canvasWidth canvasHeight).vy| = |b.vy| ∧
      0 ≤ (b.handleWallCollisions canvasWidth canvasHeight).vy) ∧
    (0 < b.y - b.radius →
      (b.handleWallCollisions canvasWidth canvasHeight).y = b.y ∧
      (b.handleWallCollisions canvasWidth canvasHeight).vy = b.vy) := by
  simp only [Ball.handleWallCollisions, Ball.wallLeft, Ball.wallRight, Ball.wallTop]
  split_ifs <;> (try dsimp only) <;>
  refine ⟨⟨?_, ?_, ?_⟩, fun h => ⟨?_, ?_, fun h2 => ?_⟩, fun h => ⟨?_, ?_, ?_⟩,
    fun h => ⟨?_, ?_, ?_⟩, fun h => ⟨?_, ?_⟩⟩ <;>
  first
    | linarith
    | rfl
    | exact abs_nonneg _
    | exact neg_nonpos.mpr (abs_nonneg _)
    | simp only [abs_neg, abs_abs]

/-- C5, witness: a ball of radius 8 that crossed the left wall of an 800-wide canvas. -/
theorem handleWallCollisions_inside_witness :
    2 * (Ball.new (5 : ℚ) 50 8).radius ≤ 800 ∧
    ((Ball.new (5 : ℚ) 50 8).handleWallCollisions 800 600).x = (Ball.new (5 : ℚ) 50 8).radius :=
  ⟨by norm_num [Ball.new],
    ((handleWallCollisions_inside (Ball.new (5 : ℚ) 50 8) 800 600
      (by norm_num [Ball.new])).2.1 (by norm_num [Ball.new])).1⟩

/-- C5, counterexample: with `canvasWidth = 2 * radius = 16` a ball at `x = 5` with `vx = 3`
fires the left test and then the right test, and leaves with `vx = -3`, towards the left wall. -/
theorem handleWallCollisions_left_not_away :
    2 * ({ Ball.new (5 : ℚ) 50 8 with vx := 3 } : Ball ℚ).radius ≤ 16 ∧
    ({ Ball.new (5 : ℚ) 50 8 with vx := 3 } : Ball ℚ).x -
      ({ Ball.new (5 : ℚ) 50 8 with vx := 3 } : Ball ℚ).radius ≤ 0 ∧
    (({ Ball.new (5 : ℚ) 50 8 with vx := 3 } : Ball ℚ).handleWallCollisions 16 600).vx = -3 ∧
    ¬ 0 ≤ (({ Ball.new (5 : ℚ) 50 8 with vx := 3 } : Ball ℚ).handleWallCollisions 16 600).vx := by
  norm_num [Ball.new, Ball.handleWallCollisions, Ball.wallLeft, Ball.wallRight, Ball.wallTop]

end WallCollisions

section BrickHits

variable {α : Type} [LinearOrderedField α]

/-- C6: a hit on an `unbreakable` brick, whatever the damage, returns `destroyed = false`,
score 0 and no special effect and leaves the whole brick (hit points and destroyed flag
included) as it was; hence after any sequence of hits the brick is unchanged, and every hit of
the sequence returned `destroyed = false` with score 0. -/
theorem hit_unbreakable (b : Brick α) (h : b.type = BrickType.unbreakable) :
    (∀ damage : α,
      b.hit damage = (b, { destroyed := false, score := 0, special := none })) ∧
    (∀ damages : List α,
      damages.foldl (fun brick damage => (brick.hit damage).1) b = b ∧
      (damages.foldl (fun brick damage => (brick.hit damage).1) b).destroyed = b.destroyed ∧
      (damages.foldl (fun brick damage => (brick.hit damage).1) b).hitPoints = b.hitPoints ∧
      ∀ damage : α,
        ((damages.foldl (fun brick damage => (brick.hit damage).1) b).hit damage).2.destroyed
          = false ∧
        ((damages.foldl (fun brick damage => (brick.hit damage).1) b).hit damage).2.score
          = 0) := by
  have h1 : ∀ damage : α,
      b.hit damage = (b, { destroyed := false, score := 0, special := none }) := by
    intro damage
    simp only [Brick.hit, h, if_true]
  have h2 : ∀ damages : List α,
      damages.foldl (fun brick damage => (brick.hit damage).1) b = b := by
    intro damages
    induction damages with
    | nil => rfl
    | cons d ds ih => rw [List.foldl_cons, h1 d]; exact ih
  refine ⟨h1, fun damages => ?_⟩
  rw [h2 damages]
  refine ⟨rfl, rfl, rfl, fun damage => ?_⟩
  rw [h1 damage]
  exact ⟨rfl, rfl⟩

/-- C6, witness: an unbreakable brick hit with damage 1, 2 and 100. -/
theorem hit_unbreakable_witness :
    [(1 : ℚ), 2, 100].foldl (fun brick damage => (brick.hit damage).1)
      (Brick.new 0 0 BrickType.unbreakable 1) = Brick.new 0 0 BrickType.unbreakable 1 :=
  ((hit_unbreakable (Brick.new (0 : ℚ) 0 BrickType.unbreakable 1) rfl).2 [1, 2, 100]).1

/-- C7: a hit with `damage ≥ 0` on a brick that is not `unbreakable` lowers `hitPoints` by
`damage`.  When the new value is `≤ 0` the brick becomes destroyed and the call returns
`destroyed = true` with the score of the brick's type; otherwise the call returns
`destroyed = false`, score 0 and no special effect, and the destroyed flag is unchanged. -/
theorem hit_breakable (b : Brick α) (damage : α) (h : b.type ≠ BrickType.unbreakable)
    (hd : 0 ≤ damage)
    (hs : b.properties.score = (Brick.getBrickProperties b.type b.maxHitPoints).score) :
    (b.hit damage).1.hitPoints = b.hitPoints - damage ∧
    (b.hit damage).1.hitPoints ≤ b.hitPoints ∧
    (b.hitPoints - damage ≤ 0 →
      (b.hit damage).2.destroyed = true ∧ (b.hit damage).1.destroyed = true ∧
      (b.hit damage).2.score =
        (match b.type with
          | BrickType.normal => 10
          | BrickType.strong => 25
          | BrickType.metal => 50
          | BrickType.explosive => 30
          | BrickType.regenerating => 40
          | BrickType.moving => 35
          | BrickType.unbreakable => 0)) ∧
    (0 < b.hitPoints - damage →
      (b.hit damage).2 = { destroyed := false, score := 0, special := none } ∧
      (b.hit damage).1.destroyed = b.destroyed) := by
  have hsc : b.properties.score =
      (match b.type with
          | BrickType.normal => 10
          | BrickType.strong => 25
          | BrickType.metal => 50
          | BrickType.explosive => 30
          | BrickType.regenerating => 40
          | BrickType.moving => 35
          | BrickType.unbreakable => 0) := by
    rw [hs]
    cases b.type <;> rfl
  by_cases hp : 0 < b.hitPoints - damage
  · have e : b.hit damage =
        ({ b with hitPoints := b.hitPoints - damage, shakeIntensity := 3,
                  properties := { b.properties with
                    currentColor := min (b.hitPoints - damage - 1) (3 - 1) } },
          { destroyed := false, score := 0, special := none }) := by
      simp only [Brick.hit, h, if_false, gt_iff_lt, hp, if_true, not_le.mpr hp]
    rw [e]
    exact ⟨rfl, by simp only []; linarith, fun hle => absurd hp (not_lt.mpr hle),
      fun _ => ⟨rfl, rfl⟩⟩
  · have hle : b.hitPoints - damage ≤ 0 := not_lt.mp hp
    have e : b.hit damage =
        Brick.destroy { b with hitPoints := b.hitPoints - damage, shakeIntensity := 3 } := by
      simp only [Brick.hit, h, if_false, gt_iff_lt, hp, hle, if_true]
    rw [e]
    refine ⟨?_, ?_, fun _ => ?_, fun hlt => absurd hlt hp⟩
    · simp only [Brick.destroy]; split_ifs <;> rfl
    · simp only [Brick.destroy]; split_ifs <;> simp only [] <;> linarith
    · simp only [Brick.destroy]
      split_ifs <;> exact ⟨rfl, rfl, hsc⟩

/-- C7, witness: a `strong` brick with 2 hit points takes one hit and survives with 1. -/
theorem hit_breakable_witness :
    ((Brick.new (0 : ℚ) 0 BrickType.strong 2).hit 1).1.hitPoints = 2 - 1 ∧
    ((Brick.new (0 : ℚ) 0 BrickType.strong 2).hit 1).2 =
      { destroyed := false, score := 0, special := none } :=
  have h := hit_breakable (Brick.new (0 : ℚ) 0 BrickType.strong 2) 1 (by decide)
    (by norm_num) rfl
  ⟨h.1, (h.2.2.2 (by norm_num [Brick.new])).1⟩

end BrickHits

section ActiveEffects

variable {α : Type} [LinearOrderedField α]

/-- One decrement pass: subtract 16 everywhere, keep the positive results. -/
theorem tickActive_eq_filter_map {β : Type} (l : List (ActiveEffect β)) :
    PowerUpManager.tickActive l =
      (l.map (fun e => { e with duration := e.duration - 16 })).filter
        (fun e => decide (e.duration > 0)) := by
  induction l with
  | nil => rfl
  | cons e l ih =>
    unfold PowerUpManager.tickActive at ih ⊢
    rw [List.filterMap_cons, List.map_cons, List.filter_cons, ← ih]
    by_cases h1 : e.duration > 0
    · by_cases h2 : e.duration - 16 > 0
      · simp only [h1, h2, if_true, decide_True]
      · simp only [h1, h2, if_true, if_false, decide_False, Bool.false_eq_true]
    · have h2 : ¬ e.duration - 16 > 0 := by omega
      simp only [h1, h2, if_false, decide_False, Bool.false_eq_true]

/-- A decrement pass keeps the kinds in order, dropping some. -/
theorem tickActive_kinds_sublist {β : Type} (l : List (ActiveEffect β)) :
    ((PowerUpManager.tickActive l).map ActiveEffect.type).Sublist (l.map ActiveEffect.type) := by
  rw [tickActive_eq_filter_map]
  have h : l.map ActiveEffect.type =
      (l.map (fun e => { e with duration := e.duration - 16 })).map ActiveEffect.type := by
    rw [List.map_map]; rfl
  rw [h]
  exact List.Sublist.map _ (List.filter_sublist _)

/-- Every effect that survives a decrement pass has a positive duration. -/
theorem tickActive_positive {β : Type} (l : List (ActiveEffect β)) :
    ∀ e ∈ PowerUpManager.tickActive l, 0 < e.duration := by
  intro e he
  rw [tickActive_eq_filter_map] at he
  have := (List.mem_filter.mp he).2
  exact of_decide_eq_true this

/-- No catalogue entry has a negative duration. -/
theorem catalogue_duration_nonneg (t : PowerUpType) :
    0 ≤ (PowerUp.getPowerUpProperties t : PowerUpProperties α).duration := by
  cases t <;> simp only [PowerUp.getPowerUpProperties] <;> norm_num

/-- The active list after `collectPowerUp` of a durable power-up. -/
theorem collectPowerUp_durable (m : PowerUpManager α) (p : PowerUp α)
    (hd : p.properties.duration ≠ 0) :
    (m.collectPowerUp p).1.activePowerUps =
      m.activePowerUps.filter (fun active => decide (active.type ≠ p.properties.effect)) ++
        [{ type := p.properties.effect, value := p.properties.value,
           duration := p.properties.duration, name := p.properties.name }] := by
  simp only [PowerUpManager.collectPowerUp, hd, if_false]

/-- `collectPowerUp` of an instant power-up leaves the manager as it was. -/
theorem collectPowerUp_instant (m : PowerUpManager α) (p : PowerUp α)
    (hd : p.properties.duration = 0) : (m.collectPowerUp p).1 = m := by
  simp only [PowerUpManager.collectPowerUp, hd, if_true]

/-- `collectPowerUp` keeps the kinds distinct and the durations positive. -/
theorem collectPowerUp_invariant (m : PowerUpManager α) (p : PowerUp α)
    (h1 : (m.activePowerUps.map ActiveEffect.type).Nodup)
    (h2 : ∀ e ∈ m.activePowerUps, 0 < e.duration) :
    ((m.collectPowerUp p).1.activePowerUps.map ActiveEffect.type).Nodup ∧
    ∀ e ∈ (m.collectPowerUp p).1.activePowerUps, 0 < e.duration := by
  by_cases hd : p.properties.duration = 0
  · rw [collectPowerUp_instant m p hd]; exact ⟨h1, h2⟩
  · rw [collectPowerUp_durable m p hd]
    constructor
    · rw [List.map_append, List.map_singleton]
      refine List.Nodup.append (h1.sublist (List.Sublist.map _ (List.filter_sublist _)))
        (List.nodup_singleton _) ?_
      intro k hk1 hk2
      rw [List.mem_singleton] at hk2
      obtain ⟨e, he, rfl⟩ := List.mem_map.mp hk1
      have := of_decide_eq_true (List.mem_filter.mp he).2
      exact this hk2
    · intro e he
      rcases List.mem_append.mp he with h | h
      · exact h2 e (List.mem_filter.mp h).1
      · rw [List.mem_singleton] at h
        rw [h]
        exact lt_of_le_of_ne (catalogue_duration_nonneg p.type) (Ne.symm hd)

/-- The falling-power-up phase of `update` keeps the kinds distinct and the durations
positive. -/
theorem updateFalling_invariant (paddle : Paddle α) (canvasHeight : α)
    (fl : List (PowerUp α)) :
    ∀ (m : PowerUpManager α) (inst : List (ActiveEffect α)),
      (m.activePowerUps.map ActiveEffect.type).Nodup →
      (∀ e ∈ m.activePowerUps, 0 < e.duration) →
      (((PowerUpManager.updateFalling paddle canvasHeight fl m inst).2.1.activePowerUps.map
          ActiveEffect.type).Nodup ∧
        ∀ e ∈ (PowerUpManager.updateFalling paddle canvasHeight fl m inst).2.1.activePowerUps,
          0 < e.duration) := by
  induction fl with
  | nil => intro m inst h1 h2; exact ⟨h1, h2⟩
  | cons p rest ih =>
    intro m inst h1 h2
    unfold PowerUpManager.updateFalling
    cases hc : p.update.checkCollision paddle
    · cases ho : p.update.isOffScreen canvasHeight
      · simp only [hc, ho, Bool.false_eq_true, if_false]; exact ih m inst h1 h2
      · simp only [hc, ho, Bool.false_eq_true, if_false, if_true]; exact ih m inst h1 h2
    · simp only [hc, if_true]
      obtain ⟨c1, c2⟩ := collectPowerUp_invariant m p.update h1 h2
      exact ih _ _ c1 c2

/-- In every reachable manager the active effects have pairwise distinct kinds and positive
durations. -/
theorem reachable_invariant (m : PowerUpManager α) (hm : PowerUpManager.Reachable m) :
    (m.activePowerUps.map ActiveEffect.type).Nodup ∧
    ∀ e ∈ m.activePowerUps, 0 < e.duration := by
  induction hm with
  | new => exact ⟨List.nodup_nil, fun e he => absurd he (List.not_mem_nil e)⟩
  | spawn m x y r1 r2 _ ih =>
    unfold PowerUpManager.spawnPowerUp
    split_ifs
    · exact ih
    · exact ih
  | collect m p _ ih => exact collectPowerUp_invariant m p ih.1 ih.2
  | update m paddle canvasHeight _ ih =>
    obtain ⟨u1, u2⟩ := updateFalling_invariant paddle canvasHeight m.fallingPowerUps m [] ih.1 ih.2
    unfold PowerUpManager.update
    exact ⟨u1.sublist (tickActive_kinds_sublist _), tickActive_positive _⟩
  | clear m _ _ => exact ⟨List.nodup_nil, fun e he => absurd he (List.not_mem_nil e)⟩

/-- C8: in every manager reachable from the empty one the kinds of the active effects are
pairwise distinct, and right after a durable power-up is collected the only active effect of
its kind is the new one, with the value and the full duration of the catalogue entry, whatever
was active before; `enlarge` and `shrink` share the kind `paddle_size`, `speed_up` and
`slow_down` the kind `ball_speed`. -/
theorem activePowerUps_kinds_distinct (m : PowerUpManager α)
    (hm : PowerUpManager.Reachable m) :
    (m.activePowerUps.map ActiveEffect.type).Nodup ∧
    (∀ p : PowerUp α, p.properties.duration ≠ 0 →
      (m.collectPowerUp p).1.activePowerUps.filter
          (fun e => decide (e.type = p.properties.effect)) =
        [{ type := p.properties.effect, value := p.properties.value,
           duration := (PowerUp.getPowerUpProperties p.type : PowerUpProperties α).duration,
           name := p.properties.name }]) ∧
    (PowerUp.getPowerUpProperties PowerUpType.enlarge : PowerUpProperties α).effect =
      EffectKind.paddle_size ∧
    (PowerUp.getPowerUpProperties PowerUpType.shrink : PowerUpProperties α).effect =
      EffectKind.paddle_size ∧
    (PowerUp.getPowerUpProperties PowerUpType.speed_up : PowerUpProperties α).effect =
      EffectKind.ball_speed ∧
    (PowerUp.getPowerUpProperties PowerUpType.slow_down : PowerUpProperties α).effect =
      EffectKind.ball_speed := by
  refine ⟨(reachable_invariant m hm).1, fun p hd => ?_, rfl, rfl, rfl, rfl⟩
  rw [collectPowerUp_durable m p hd, List.filter_append]
  have h1 : (m.activePowerUps.filter
      (fun active => decide (active.type ≠ p.properties.effect))).filter
      (fun e => decide (e.type = p.properties.effect)) = [] := by
    rw [List.filter_eq_nil_iff]
    intro e he
    have := of_decide_eq_true (List.mem_filter.mp he).2
    simpa using this
  rw [h1, List.nil_append]
  simp only [List.filter_cons, decide_True, if_true, List.filter_nil]
  rfl

/-- C8, witness: `enlarge` collected and then `shrink`: one `paddle_size` effect remains. -/
theorem activePowerUps_kinds_distinct_witness :
    ((((PowerUpManager.new : PowerUpManager ℚ).collectPowerUp
        (PowerUp.new 0 0 PowerUpType.enlarge)).1.collectPowerUp
        (PowerUp.new 0 0 PowerUpType.shrink)).1.activePowerUps.map ActiveEffect.type).Nodup :=
  (activePowerUps_kinds_distinct _
    (PowerUpManager.Reachable.collect _ _
      (PowerUpManager.Reachable.collect _ _ PowerUpManager.Reachable.new))).1

/-- Membership after one decrement pass. -/
theorem mem_tickActive {β : Type} (l : List (ActiveEffect β)) (e' : ActiveEffect β) :
    e' ∈ PowerUpManager.tickActive l ↔
      ∃ e ∈ l, e' = { e with duration := e.duration - 16 } ∧ 0 < e.duration - 16 := by
  rw [tickActive_eq_filter_map, List.mem_filter, List.mem_map]
  constructor
  · rintro ⟨⟨e, he, rfl⟩, hpos⟩
    exact ⟨e, he, rfl, of_decide_eq_true hpos⟩
  · rintro ⟨e, he, rfl, hpos⟩
    exact ⟨⟨e, he, rfl⟩, decide_eq_true hpos⟩

/-- Membership after `n + 1` decrement passes. -/
theorem mem_tickActive_iterate {β : Type} (l : List (ActiveEffect β)) (n : ℕ)
    (e' : ActiveEffect β) :
    e' ∈ PowerUpManager.tickActive^[n + 1] l ↔
      ∃ e ∈ l, e' = { e with duration := e.duration - 16 * ((n : ℤ) + 1) } ∧
        0 < e.duration - 16 * ((n : ℤ) + 1) := by
  induction n generalizing e' with
  | zero =>
    rw [Function.iterate_one, mem_tickActive]
    simp only [Nat.cast_zero, zero_add, mul_one]
  | succ k ih =>
    rw [Function.iterate_succ_apply', mem_tickActive]
    constructor
    · rintro ⟨e1, he1, rfl, hpos⟩
      obtain ⟨e, he, rfl, _⟩ := (ih e1).mp he1
      refine ⟨e, he, ?_, ?_⟩
      · simp only [Nat.cast_add, Nat.cast_one, ActiveEffect.mk.injEq, true_and]
        ring_nf
        trivial
      · simp only [Nat.cast_add, Nat.cast_one] at hpos ⊢
        linarith
    · rintro ⟨e, he, rfl, hpos⟩
      refine ⟨{ e with duration := e.duration - 16 * ((k : ℤ) + 1) }, (ih _).mpr
        ⟨e, he, rfl, ?_⟩, ?_, ?_⟩
      · simp only [Nat.cast_add, Nat.cast_one] at hpos
        linarith
      · simp only [Nat.cast_add, Nat.cast_one, ActiveEffect.mk.injEq, true_and]
        ring_nf
        trivial
      · simp only [Nat.cast_add, Nat.cast_one] at hpos ⊢
        linarith

/-- C9: in a reachable manager every tracked effect has a positive duration.  The decrement
pass of `update` subtracts 16 from every duration and keeps exactly the effects whose new
duration is positive; `collectPowerUp` of a duration-0 power-up (`multi_ball`, `extra_life`)
leaves the manager unchanged.  An effect with duration `d` is still tracked, with duration
`d - 16 * n`, after `n` decrement passes when `16 * n < d`, and no effect of its kind is left
when `d ≤ 16 * n`: it survives `⌈d / 16⌉ - 1` passes and is gone after `⌈d / 16⌉`. -/
theorem activePowerUps_lifetime (m : PowerUpManager α) (hm : PowerUpManager.Reachable m) :
    (∀ e ∈ m.activePowerUps, 0 < e.duration) ∧
    (∀ (paddle : Paddle α) (canvasHeight : α),
      (m.update paddle canvasHeight).1.activePowerUps =
        ((PowerUpManager.updateFalling paddle canvasHeight m.fallingPowerUps m
            []).2.1.activePowerUps.map
          (fun e => { e with duration := e.duration - 16 })).filter
          (fun e => decide (e.duration > 0))) ∧
    (∀ p : PowerUp α, p.properties.duration = 0 → (m.collectPowerUp p).1 = m) ∧
    (PowerUp.getPowerUpProperties PowerUpType.multi_ball : PowerUpProperties α).duration = 0 ∧
    (PowerUp.getPowerUpProperties PowerUpType.extra_life : PowerUpProperties α).duration = 0 ∧
    (∀ e ∈ m.activePowerUps, ∀ n : ℕ,
      (16 * (n : ℤ) < e.duration →
        { e with duration := e.duration - 16 * (n : ℤ) } ∈
          PowerUpManager.tickActive^[n] m.activePowerUps) ∧
      (e.duration ≤ 16 * (n : ℤ) →
        ∀ e' ∈ PowerUpManager.tickActive^[n] m.activePowerUps, e'.type ≠ e.type)) ∧
    (∀ e ∈ m.activePowerUps,
      { e with duration := e.duration - 16 * (⌈(e.duration : ℚ) / 16⌉ - 1) } ∈
        PowerUpManager.tickActive^[(⌈(e.duration : ℚ) / 16⌉ - 1).toNat] m.activePowerUps ∧
      ∀ e' ∈ PowerUpManager.tickActive^[(⌈(e.duration : ℚ) / 16⌉).toNat] m.activePowerUps,
        e'.type ≠ e.type) := by
  obtain ⟨hnd, hpos⟩ := reachable_invariant m hm
  have hlife : ∀ e ∈ m.activePowerUps, ∀ n : ℕ,
      (16 * (n : ℤ) < e.duration →
        { e with duration := e.duration - 16 * (n : ℤ) } ∈
          PowerUpManager.tickActive^[n] m.activePowerUps) ∧
      (e.duration ≤ 16 * (n : ℤ) →
        ∀ e' ∈ PowerUpManager.tickActive^[n] m.activePowerUps, e'.type ≠ e.type) := by
    intro e he n
    cases n with
    | zero =>
      refine ⟨fun _ => ?_, fun hle => ?_⟩
      · simp only [Nat.cast_zero, mul_zero, sub_zero, Function.iterate_zero, id_eq]
        exact he
      · have := hpos e he
        simp only [Nat.cast_zero, mul_zero] at hle
        omega
    | succ k =>
      refine ⟨fun hlt => ?_, fun hle e' he' heq => ?_⟩
      · refine (mem_tickActive_iterate _ k _).mpr ⟨e, he, ?_, ?_⟩
        · simp only [Nat.cast_add, Nat.cast_one]
        · simp only [Nat.cast_add, Nat.cast_one] at hlt
          linarith
      · obtain ⟨e0, he0, rfl, h0⟩ := (mem_tickActive_iterate _ k _).mp he'
        have hsame : e0 = e := List.inj_on_of_nodup_map hnd he0 he heq
        rw [hsame] at h0
        simp only [Nat.cast_add, Nat.cast_one] at hle
        linarith
  refine ⟨hpos, fun paddle canvasHeight => ?_, fun p hd => collectPowerUp_instant m p hd,
    rfl, rfl, hlife, fun e he => ?_⟩
  · simp only [PowerUpManager.update]
    exact tickActive_eq_filter_map _
  · have hd := hpos e he
    have hq : (0 : ℚ) < (e.duration : ℚ) / 16 := by
      have : (0 : ℚ) < (e.duration : ℚ) := by exact_mod_cast hd
      positivity
    have hc1 : 1 ≤ ⌈(e.duration : ℚ) / 16⌉ := Int.one_le_ceil_iff.mpr hq
    have hc2 : (e.duration : ℚ) / 16 ≤ (⌈(e.duration : ℚ) / 16⌉ : ℚ) := Int.le_ceil _
    have hc3 : ((⌈(e.duration : ℚ) / 16⌉ : ℤ) : ℚ) < (e.duration : ℚ) / 16 + 1 :=
      Int.ceil_lt_add_one _
    have hle : e.duration ≤ 16 * ⌈(e.duration : ℚ) / 16⌉ := by
      have : (e.duration : ℚ) ≤ 16 * (⌈(e.duration : ℚ) / 16⌉ : ℚ) := by linarith
      exact_mod_cast this
    have hlt : 16 * (⌈(e.duration : ℚ) / 16⌉ - 1) < e.duration := by
      have : 16 * ((⌈(e.duration : ℚ) / 16⌉ : ℚ) - 1) < (e.duration : ℚ) := by linarith
      exact_mod_cast this
    have t1 : (((⌈(e.duration : ℚ) / 16⌉ - 1).toNat : ℕ) : ℤ) = ⌈(e.duration : ℚ) / 16⌉ - 1 :=
      Int.toNat_of_nonneg (by omega)
    have t2 : (((⌈(e.duration : ℚ) / 16⌉).toNat : ℕ) : ℤ) = ⌈(e.duration : ℚ) / 16⌉ :=
      Int.toNat_of_nonneg (by omega)
    constructor
    · have := (hlife e he (⌈(e.duration : ℚ) / 16⌉ - 1).toNat).1 (by rw [t1]; exact hlt)
      rw [t1] at this
      exact this
    · exact (hlife e he (⌈(e.duration : ℚ) / 16⌉).toNat).2 (by rw [t2]; exact hle)

/-- C9, witness: an `enlarge` effect (10000 ms) is tracked with 16 ms left after 624
decrement passes, and no `paddle_size` effect is left after the 625th. -/
theorem activePowerUps_lifetime_witness :
    ({ type := EffectKind.paddle_size, value := EffectValue.num (3 / 2),
       duration := 10000 - 16 * ((624 : ℕ) : ℤ), name := "Enlarge Paddle" } : ActiveEffect ℚ) ∈
      PowerUpManager.tickActive^[624] ((PowerUpManager.new : PowerUpManager ℚ).collectPowerUp
        (PowerUp.new 0 0 PowerUpType.enlarge)).1.activePowerUps ∧
    ∀ e' ∈ PowerUpManager.tickActive^[625] ((PowerUpManager.new : PowerUpManager ℚ).collectPowerUp
        (PowerUp.new 0 0 PowerUpType.enlarge)).1.activePowerUps,
      e'.type ≠ EffectKind.paddle_size :=
  have h := (activePowerUps_lifetime
    ((PowerUpManager.new : PowerUpManager ℚ).collectPowerUp
      (PowerUp.new 0 0 PowerUpType.enlarge)).1
    (PowerUpManager.Reachable.collect _ _ PowerUpManager.Reachable.new)).2.2.2.2.2.1
    { type := EffectKind.paddle_size, value := EffectValue.num (3 / 2), duration := 10000,
      name := "Enlarge Paddle" } (List.mem_singleton_self _)
  ⟨(h 624).1 (by norm_num), (h 625).2 (by norm_num)⟩

end ActiveEffects

section Scoring

variable {α : Type} [LinearOrderedField α]

/-- C10: with a non-destroyed result `handleBrickDestruction` leaves the game unchanged.  With
a destroyed result it first raises `combo` by one and adds
`result.score * min(5, 1 + floor(combo / 3)) * m` to the score, `combo` being the raised value
and `m` the active `score_multiplier` value (1 when none is active), and only then handles the
special effect and the power-up spawn; when the result carries no explosion these are the
final score and combo.  A score-10 result at raised combo 4 with no multiplier adds 20. -/
theorem handleBrickDestruction_points (sqrt : α → α) (fuel : Nat) (g : Game α)
    (result : HitResult α) (brick : Brick α) :
    (result.destroyed = false →
      Game.handleBrickDestruction sqrt (fuel + 1) g result brick = g) ∧
    ((g.awardPoints result).combo = g.combo + 1 ∧
      (g.awardPoints result).score = g.score +
        (result.score : α) * ((min 5 (1 + (g.combo + 1) / 3) : ℕ) : α) *
          (g.powerUpManager.getEffectValue EffectKind.score_multiplier
            (EffectValue.num 1)).toNumber) ∧
    (g.powerUpManager.hasEffect EffectKind.score_multiplier = false →
      (g.powerUpManager.getEffectValue EffectKind.score_multiplier
        (EffectValue.num 1)).toNumber = 1) ∧
    (result.destroyed = true →
      Game.handleBrickDestruction sqrt (fuel + 1) g result brick =
        Game.spawnPowerUp
          (match result.special with
            | some effect => Game.handleSpecialBrickEffect sqrt fuel (g.awardPoints result)
                effect brick
            | none => g.awardPoints result)
          (brick.x + brick.width / 2) (brick.y + brick.height / 2)) ∧
    (result.destroyed = true → (∀ radius : α, result.special ≠ some (SpecialEffect.explosion radius)) →
      (Game.handleBrickDestruction sqrt (fuel + 1) g result brick).combo = g.combo + 1 ∧
      (Game.handleBrickDestruction sqrt (fuel + 1) g result brick).score = g.score +
        (result.score : α) * ((min 5 (1 + (g.combo + 1) / 3) : ℕ) : α) *
          (g.powerUpManager.getEffectValue EffectKind.score_multiplier
            (EffectValue.num 1)).toNumber) ∧
    (result = { destroyed := true, score := 10, special := none } → g.combo + 1 = 4 →
      g.powerUpManager.hasEffect EffectKind.score_multiplier = false →
      (Game.handleBrickDestruction sqrt (fuel + 1) g result brick).score = g.score + 20) := by
  have hnone : g.powerUpManager.hasEffect EffectKind.score_multiplier = false →
      (g.powerUpManager.getEffectValue EffectKind.score_multiplier
        (EffectValue.num 1)).toNumber = 1 := by
    intro h
    unfold PowerUpManager.hasEffect at h
    unfold PowerUpManager.getEffectValue
    have hf : g.powerUpManager.activePowerUps.find?
        (fun powerUp => decide (powerUp.type = EffectKind.score_multiplier)) = none := by
      rw [List.find?_eq_none]
      intro e he
      have := List.any_eq_false.mp h e he
      simpa using this
    rw [hf]
    rfl
  have hstep : result.destroyed = true →
      Game.handleBrickDestruction sqrt (fuel + 1) g result brick =
        Game.spawnPowerUp
          (match result.special with
            | some effect => Game.handleSpecialBrickEffect sqrt fuel (g.awardPoints result)
                effect brick
            | none => g.awardPoints result)
          (brick.x + brick.width / 2) (brick.y + brick.height / 2) := by
    intro h
    simp only [Game.handleBrickDestruction, h, Bool.not_true, Bool.false_eq_true, if_false,
      Game.handleSpecialBrickEffect]
  have hfinal : result.destroyed = true →
      (∀ radius : α, result.special ≠ some (SpecialEffect.explosion radius)) →
      (Game.handleBrickDestruction sqrt (fuel + 1) g result brick).combo = g.combo + 1 ∧
      (Game.handleBrickDestruction sqrt (fuel + 1) g result brick).score = g.score +
        (result.score : α) * ((min 5 (1 + (g.combo + 1) / 3) : ℕ) : α) *
          (g.powerUpManager.getEffectValue EffectKind.score_multiplier
            (EffectValue.num 1)).toNumber := by
    intro h hne
    rw [hstep h]
    cases hsp : result.special with
    | none => exact ⟨rfl, rfl⟩
    | some effect =>
      cases effect with
      | explosion radius => exact absurd hsp (hne radius)
      | regenerate => exact ⟨rfl, rfl⟩
  refine ⟨fun h => ?_, ⟨rfl, rfl⟩, hnone, hstep, hfinal, fun hr hc hm => ?_⟩
  · simp only [Game.handleBrickDestruction, h, Bool.not_false, if_true]
  · have h1 : result.destroyed = true := by rw [hr]
    have h2 : ∀ radius : α, result.special ≠ some (SpecialEffect.explosion radius) := by
      intro radius; rw [hr]; exact fun h => Option.noConfusion h
    rw [(hfinal h1 h2).2, hnone hm, hc, hr]
    norm_num

/-- C10, witness: at combo 3 and score 100 with no active effect, destroying a normal brick
with one hit raises the score to 120. -/
theorem handleBrickDestruction_points_witness :
    (Game.handleBrickDestruction (fun v : ℚ => v) (0 + 1)
      { canvasWidth := 800, canvasHeight := 600, state := GameState.playing, score := 100,
        lives := 3, level := 1, combo := 3, maxCombo := 3, paddle := Paddle.new 325 540 150 22,
        balls := [], bricks := [Brick.new 0 0 BrickType.normal 1],
        powerUpManager := PowerUpManager.new, paddleController := PaddleController.new 800,
        levelConfig := { rows := 5, cols := 10, brickTypes := [BrickType.normal],
                         specialChance := 1 / 10, ballSpeed := 5 },
        bricksRemaining := 1, highScores := [], random := fun _ => 1 / 2, randomIndex := 0,
        overlay := none, dateString := "" }
      ((Brick.new (0 : ℚ) 0 BrickType.normal 1).hit 1).2
      ((Brick.new (0 : ℚ) 0 BrickType.normal 1).hit 1).1).score = 100 + 20 :=
  (handleBrickDestruction_points (fun v : ℚ => v) 0 _ _ _).2.2.2.2.2
    (by simp [Brick.hit, Brick.new, Brick.destroy, Brick.getBrickProperties]) rfl rfl

end Scoring

section PaddleBounds

variable {α : Type} [LinearOrderedField α]

/-- `Utils.clamp` lands in `[lo, hi]` when `lo ≤ hi`. -/
theorem clamp_mem (v lo hi : α) (h : lo ≤ hi) :
    lo ≤ Utils.clamp v lo hi ∧ Utils.clamp v lo hi ≤ hi := by
  unfold Utils.clamp
  exact ⟨le_min (le_max_right _ _) h, min_le_right _ _⟩

/-- Without an active effect of the kind, `getEffectValue` returns the default. -/
theorem getEffectValue_default {β : Type} (pm : PowerUpManager β) (k : EffectKind)
    (d : EffectValue β) (h : pm.hasEffect k = false) : pm.getEffectValue k d = d := by
  unfold PowerUpManager.hasEffect at h
  unfold PowerUpManager.getEffectValue
  have hf : pm.activePowerUps.find? (fun powerUp => decide (powerUp.type = k)) = none := by
    rw [List.find?_eq_none]
    intro e he
    have := List.any_eq_false.mp h e he
    simpa using this
  rw [hf]

/-- The width that `Paddle.update` leaves. -/
theorem update_width (p : Paddle α) (canvasWidth : α) (pm : PowerUpManager α) :
    (p.update canvasWidth pm).width =
      p.defaultWidth * (pm.getEffectValue EffectKind.paddle_size (EffectValue.num 1)).toNumber := by
  simp only [Paddle.update, Paddle.updateLasers, Paddle.applyPowerUpEffects, Paddle.updateGlow]
  split_ifs <;> rfl

/-- C15: `Paddle.update` recomputes the width as `defaultWidth` times the active `paddle_size`
value (1 when none is active) and clamps `x` with that new width; when the canvas is at least
as wide as the width used by the clamp, `update`, `move` and `setPosition` each leave
`0 ≤ x ≤ canvasWidth - width`. -/
theorem paddle_within_canvas (p : Paddle α) (canvasWidth : α) :
    (∀ pm : PowerUpManager α,
      (p.update canvasWidth pm).width =
        p.defaultWidth *
          (pm.getEffectValue EffectKind.paddle_size (EffectValue.num 1)).toNumber ∧
      (pm.hasEffect EffectKind.paddle_size = false →
        (p.update canvasWidth pm).width = p.defaultWidth) ∧
      ((p.update canvasWidth pm).width ≤ canvasWidth →
        0 ≤ (p.update canvasWidth pm).x ∧
        (p.update canvasWidth pm).x ≤ canvasWidth - (p.update canvasWidth pm).width)) ∧
    (p.width ≤ canvasWidth → ∀ direction : α,
      (p.move direction canvasWidth).width = p.width ∧
      0 ≤ (p.move direction canvasWidth).x ∧
      (p.move direction canvasWidth).x ≤ canvasWidth - (p.move direction canvasWidth).width) ∧
    (p.width ≤ canvasWidth → ∀ x : α,
      (p.setPosition x canvasWidth).width = p.width ∧
      0 ≤ (p.setPosition x canvasWidth).x ∧
      (p.setPosition x canvasWidth).x ≤
        canvasWidth - (p.setPosition x canvasWidth).width) := by
  refine ⟨fun pm => ⟨update_width p canvasWidth pm, fun h => ?_, fun h => ?_⟩,
    fun h direction => ⟨rfl, ?_⟩, fun h x => ⟨rfl, ?_⟩⟩
  · rw [update_width, getEffectValue_default pm _ _ h]
    simp only [EffectValue.toNumber, mul_one]
  · have hx : (p.update canvasWidth pm).x =
        Utils.clamp (((p.updateGlow).applyPowerUpEffects pm).updateLasers).x 0
          (canvasWidth - (p.update canvasWidth pm).width) := rfl
    rw [hx]
    exact clamp_mem _ _ _ (by linarith)
  · exact clamp_mem _ _ _ (by simp only []; linarith)
  · exact clamp_mem _ _ _ (by linarith)

/-- C15, witness: a paddle of width 150 moved left of an 800 wide canvas stops at `x = 0`,
and dragged far right stops at `x = 650`. -/
theorem paddle_within_canvas_witness :
    0 ≤ ((Paddle.new (3 : ℚ) 540 150 22).move (-1) 800).x ∧
    ((Paddle.new (3 : ℚ) 540 150 22).setPosition 2000 800).x ≤ 800 - 150 :=
  have h := paddle_within_canvas (Paddle.new (3 : ℚ) 540 150 22) 800
  ⟨((h.2.1 (by norm_num [Paddle.new])) (-1)).2.1,
    ((h.2.2 (by norm_num [Paddle.new])) 2000).2.2⟩

end PaddleBounds

section LaserCollisions

variable {α : Type} [LinearOrderedField α]

/-- The inner loop started at index `k` returns `k + j` for the first position `j` of a brick
that is not destroyed and overlaps the laser. -/
theorem firstLaserHit_eq_some (laser : Rect α) (l : List (Brick α)) :
    ∀ (k i : Nat), Paddle.firstLaserHit laser l k = some i ↔
      ∃ j, i = k + j ∧
        (∃ b, l.get? j = some b ∧ b.destroyed = false ∧
          Utils.rectIntersect laser b.getBounds = true) ∧
        ∀ j', j' < j → ∀ b, l.get? j' = some b →
          ¬ (b.destroyed = false ∧ Utils.rectIntersect laser b.getBounds = true) := by
  induction l with
  | nil =>
    intro k i
    simp only [Paddle.firstLaserHit, List.get?_nil]
    constructor
    · intro h; exact absurd h (by simp)
    · rintro ⟨j, _, ⟨b, hb, _⟩, _⟩; exact absurd hb (by simp)
  | cons brick rest ih =>
    intro k i
    by_cases hhit : brick.destroyed = false ∧ Utils.rectIntersect laser brick.getBounds = true
    · have e : Paddle.firstLaserHit laser (brick :: rest) k = some k := by
        simp only [Paddle.firstLaserHit, hhit.1, hhit.2, Bool.false_eq_true, if_false, if_true]
      rw [e]
      constructor
      · intro h
        have hk : k = i := Option.some.inj h
        exact ⟨0, by omega, ⟨brick, rfl, hhit.1, hhit.2⟩, fun j' hj' => absurd hj' (by omega)⟩
      · rintro ⟨j, hij, _, hfirst⟩
        cases j with
        | zero => rw [hij]; rfl
        | succ j => exact absurd hhit (hfirst 0 (by omega) brick rfl)
    · have e : Paddle.firstLaserHit laser (brick :: rest) k =
          Paddle.firstLaserHit laser rest (k + 1) := by
        by_cases hd : brick.destroyed = true
        · simp only [Paddle.firstLaserHit, hd, if_true]
        · have hd' : brick.destroyed = false := by simpa using hd
          have hi : ¬ Utils.rectIntersect laser brick.getBounds = true := fun h => hhit ⟨hd', h⟩
          simp only [Paddle.firstLaserHit, hd', hi, Bool.false_eq_true, if_false]
      rw [e, ih (k + 1) i]
      constructor
      · rintro ⟨j, hij, ⟨b, hb, hb1, hb2⟩, hfirst⟩
        refine ⟨j + 1, by omega, ⟨b, hb, hb1, hb2⟩, fun j' hj' b' hb' => ?_⟩
        cases j' with
        | zero =>
          have : brick = b' := Option.some.inj hb'
          rw [← this]; exact hhit
        | succ j' => exact hfirst j' (by omega) b' hb'
      · rintro ⟨j, hij, ⟨b, hb, hb1, hb2⟩, hfirst⟩
        cases j with
        | zero =>
          have : brick = b := Option.some.inj hb
          rw [← this] at hb1 hb2
          exact absurd ⟨hb1, hb2⟩ hhit
        | succ j =>
          exact ⟨j, by omega, ⟨b, hb, hb1, hb2⟩,
            fun j' hj' b' hb' => hfirst (j' + 1) (by omega) b' hb'⟩

/-- The inner loop returns nothing exactly when no brick is both not destroyed and overlapped
by the laser. -/
theorem firstLaserHit_eq_none (laser : Rect α) (l : List (Brick α)) :
    ∀ k : Nat, Paddle.firstLaserHit laser l k = none ↔
      ∀ b ∈ l, ¬ (b.destroyed = false ∧ Utils.rectIntersect laser b.getBounds = true) := by
  induction l with
  | nil => intro k; simp [Paddle.firstLaserHit]
  | cons brick rest ih =>
    intro k
    by_cases hhit : brick.destroyed = false ∧ Utils.rectIntersect laser brick.getBounds = true
    · have e : Paddle.firstLaserHit laser (brick :: rest) k = some k := by
        simp only [Paddle.firstLaserHit, hhit.1, hhit.2, Bool.false_eq_true, if_false, if_true]
      rw [e]
      constructor
      · intro h; exact absurd h (by simp)
      · intro h; exact absurd hhit (h brick (List.mem_cons_self _ _))
    · have e : Paddle.firstLaserHit laser (brick :: rest) k =
          Paddle.firstLaserHit laser rest (k + 1) := by
        by_cases hd : brick.destroyed = true
        · simp only [Paddle.firstLaserHit, hd, if_true]
        · have hd' : brick.destroyed = false := by simpa using hd
          have hi : ¬ Utils.rectIntersect laser brick.getBounds = true := fun h => hhit ⟨hd', h⟩
          simp only [Paddle.firstLaserHit, hd', hi, Bool.false_eq_true, if_false]
      rw [e, ih (k + 1)]
      constructor
      · intro h b hb
        rcases List.mem_cons.mp hb with rfl | hb'
        · exact hhit
        · exact h b hb'
      · intro h b hb
        exact h b (List.mem_cons_of_mem _ hb)

/-- The accumulating loop over the lasers is a `filter` and a `filterMap`. -/
theorem laserFold_eq (bricks : List (Brick α)) (lasers : List (Rect α)) :
    ∀ (kept : List (Rect α)) (hit : List Nat),
      lasers.foldl
        (fun (acc : List (Rect α) × List Nat) laser =>
          match Paddle.firstLaserHit laser bricks 0 with
          | some i => (acc.1, acc.2 ++ [i])
          | none => (acc.1 ++ [laser], acc.2))
        (kept, hit) =
      (kept ++ lasers.filter (fun laser => (Paddle.firstLaserHit laser bricks 0).isNone),
        hit ++ lasers.filterMap (fun laser => Paddle.firstLaserHit laser bricks 0)) := by
  induction lasers with
  | nil => intro kept hit; simp
  | cons laser rest ih =>
    intro kept hit
    rw [List.foldl_cons]
    cases h : Paddle.firstLaserHit laser bricks 0 with
    | none =>
      simp only [h]
      rw [ih]
      simp [List.filter_cons, List.filterMap_cons, h]
    | some i =>
      simp only [h]
      rw [ih]
      simp [List.filter_cons, List.filterMap_cons, h]

/-- C16: `checkLaserCollisions` only reads the bricks.  It keeps, in order, exactly the lasers
that overlap no brick that is not destroyed, and returns, in laser order, one entry for each
removed laser: the index of the first brick in list order that is not destroyed and overlaps
it.  The rest of the paddle is unchanged. -/
theorem checkLaserCollisions_spec (p : Paddle α) (bricks : List (Brick α)) :
    (p.checkLaserCollisions bricks).1 =
      { p with lasers :=
          p.lasers.filter (fun laser => (Paddle.firstLaserHit laser bricks 0).isNone) } ∧
    (p.checkLaserCollisions bricks).2 =
      p.lasers.filterMap (fun laser => Paddle.firstLaserHit laser bricks 0) ∧
    (∀ laser : Rect α, (Paddle.firstLaserHit laser bricks 0).isNone = true ↔
      ∀ b ∈ bricks,
        ¬ (b.destroyed = false ∧ Utils.rectIntersect laser b.getBounds = true)) ∧
    (∀ (laser : Rect α) (i : Nat), Paddle.firstLaserHit laser bricks 0 = some i ↔
      (∃ b, bricks.get? i = some b ∧ b.destroyed = false ∧
        Utils.rectIntersect laser b.getBounds = true) ∧
      ∀ j, j < i → ∀ b, bricks.get? j = some b →
        ¬ (b.destroyed = false ∧ Utils.rectIntersect laser b.getBounds = true)) := by
  have hfold := laserFold_eq bricks p.lasers [] []
  simp only [List.nil_append] at hfold
  refine ⟨?_, ?_, fun laser => ?_, fun laser i => ?_⟩
  · simp only [Paddle.checkLaserCollisions, hfold]
  · simp only [Paddle.checkLaserCollisions, hfold]
  · rw [Option.isNone_iff_eq_none]
    exact firstLaserHit_eq_none laser bricks 0
  · rw [firstLaserHit_eq_some laser bricks 0 i]
    constructor
    · rintro ⟨j, hij, hb, hfirst⟩
      have : i = j := by omega
      rw [this]
      exact ⟨hb, hfirst⟩
    · rintro ⟨hb, hfirst⟩
      exact ⟨i, by omega, hb, hfirst⟩

/-- C16, witness: two lasers and two bricks, the first brick destroyed: the laser over the
bricks is removed and recorded against brick 1, the other laser stays. -/
theorem checkLaserCollisions_spec_witness :
    (({ Paddle.new (0 : ℚ) 540 150 22 with
          lasers := [{ x := 10, y := 20, width := 4, height := 15 },
                     { x := 400, y := 300, width := 4, height := 15 }] } :
        Paddle ℚ).checkLaserCollisions
      [{ Brick.new (0 : ℚ) 10 BrickType.normal 1 with destroyed := true },
       Brick.new (0 : ℚ) 10 BrickType.strong 2]).2 = [1] :=
  (checkLaserCollisions_spec _ _).2.1.trans
    (by norm_num [List.filterMap_cons, Paddle.firstLaserHit, Paddle.new, Brick.new,
      Brick.getBounds, Utils.rectIntersect, Brick.getBrickProperties])

end LaserCollisions

section BrickCollision

variable {α : Type} [LinearOrderedField α]

/-- `Brick.checkCollision` is the circle-rectangle test on a brick that is not destroyed or is
of the regenerating type. -/
theorem checkCollision_iff (brick : Brick α) (ball : Ball α) :
    brick.checkCollision ball = true ↔
      Utils.circleRectIntersect { x := ball.x, y := ball.y, radius := ball.radius }
        brick.getBounds = true ∧
      (brick.destroyed = false ∨ brick.type = BrickType.regenerating) := by
  unfold Brick.checkCollision Brick.getBounds
  cases hd : brick.destroyed
  · simp
  · by_cases ht : brick.type = BrickType.regenerating
    · simp [ht]
    · simp [ht]

/-- The result of `handleBrickCollision` on a colliding brick. -/
theorem handleBrickCollision_of_collision (ball : Ball α) (brick : Brick α)
    (hc : brick.checkCollision ball = true) :
    ball.handleBrickCollision brick =
      (if !ball.penetrating then
          Ball.moveOutOfBrick
            (match brick.getCollisionSide ball with
              | Side.left => { ball with vx := -ball.vx }
              | Side.right => { ball with vx := -ball.vx }
              | Side.top => { ball with vy := -ball.vy }
              | Side.bottom => { ball with vy := -ball.vy })
            brick (brick.getCollisionSide ball)
        else ball,
        (brick.hit 1).1, some (brick.hit 1).2) := by
  simp only [Ball.handleBrickCollision, hc, Bool.not_true, Bool.false_eq_true, if_false]

/-- C17: without a collision (`brick.checkCollision(ball)` false, in particular whenever the
circle does not meet the rectangle) `handleBrickCollision` returns `null` and leaves ball and
brick as they were; with a collision the brick takes exactly one `hit()` (damage 1) and its
result is returned, penetrating or not, and a penetrating ball is left unchanged. -/
theorem handleBrickCollision_frame (ball : Ball α) (brick : Brick α) :
    (brick.checkCollision ball = false →
      ball.handleBrickCollision brick = (ball, brick, none)) ∧
    (Utils.circleRectIntersect { x := ball.x, y := ball.y, radius := ball.radius }
        brick.getBounds = false → brick.checkCollision ball = false) ∧
    (brick.checkCollision ball = true ↔
      Utils.circleRectIntersect { x := ball.x, y := ball.y, radius := ball.radius }
        brick.getBounds = true ∧
      (brick.destroyed = false ∨ brick.type = BrickType.regenerating)) ∧
    (brick.checkCollision ball = true →
      (ball.handleBrickCollision brick).2.1 = (brick.hit 1).1 ∧
      (ball.handleBrickCollision brick).2.2 = some (brick.hit 1).2 ∧
      (ball.penetrating = true → (ball.handleBrickCollision brick).1 = ball)) := by
  refine ⟨fun h => ?_, fun h => ?_, checkCollision_iff brick ball, fun h => ?_⟩
  · simp only [Ball.handleBrickCollision, h, Bool.not_false, if_true]
  · cases hcc : brick.checkCollision ball
    · rfl
    · have := ((checkCollision_iff brick ball).mp hcc).1
      rw [h] at this
      exact absurd this (by simp)
  · rw [handleBrickCollision_of_collision ball brick h]
    refine ⟨rfl, rfl, fun hp => ?_⟩
    simp only [hp, Bool.not_true, Bool.false_eq_true, if_false]

/-- C17, witness: a penetrating ball inside a `strong` brick: the brick loses one hit point,
the ball is unchanged. -/
theorem handleBrickCollision_frame_witness :
    (({ Ball.new (140 : ℚ) 115 8 with penetrating := true } : Ball ℚ).handleBrickCollision
      (Brick.new 100 100 BrickType.strong 2)).2.1 =
        ((Brick.new (100 : ℚ) 100 BrickType.strong 2).hit 1).1 ∧
    (({ Ball.new (140 : ℚ) 115 8 with penetrating := true } : Ball ℚ).handleBrickCollision
      (Brick.new 100 100 BrickType.strong 2)).1 =
        { Ball.new (140 : ℚ) 115 8 with penetrating := true } :=
  have h := (handleBrickCollision_frame
    ({ Ball.new (140 : ℚ) 115 8 with penetrating := true } : Ball ℚ)
    (Brick.new 100 100 BrickType.strong 2)).2.2.2
    (by norm_num [Brick.checkCollision, Brick.new, Ball.new, Utils.circleRectIntersect])
  ⟨h.1, h.2.2 rfl⟩

/-- C18: on a collision of a ball that is not penetrating, with `(dx, dy)` the ball centre
minus the brick centre: when `|dx| / halfWidth > |dy| / halfHeight` the side is `right` for
`dx > 0` and `left` otherwise, `vx` is negated, `vy` and `y` are kept and `x` becomes
`brick.x + width + radius` or `brick.x - radius`; otherwise the side is `bottom` for `dy > 0`
and `top` otherwise (so also for `dy = 0`), `vy` is negated, `vx` and `x` are kept and `y`
becomes `brick.y + height + radius` or `brick.y - radius`. -/
theorem handleBrickCollision_reflect (ball : Ball α) (brick : Brick α)
    (hc : brick.checkCollision ball = true) (hp : ball.penetrating = false) :
    (|ball.x - (brick.x + brick.width / 2)| / (brick.width / 2) >
        |ball.y - (brick.y + brick.height / 2)| / (brick.height / 2) →
      (0 < ball.x - (brick.x + brick.width / 2) →
        brick.getCollisionSide ball = Side.right ∧
        (ball.handleBrickCollision brick).1.vx = -ball.vx ∧
        (ball.handleBrickCollision brick).1.vy = ball.vy ∧
        (ball.handleBrickCollision brick).1.x = brick.x + brick.width + ball.radius ∧
        (ball.handleBrickCollision brick).1.y = ball.y) ∧
      (ball.x - (brick.x + brick.width / 2) ≤ 0 →
        brick.getCollisionSide ball = Side.left ∧
        (ball.handleBrickCollision brick).1.vx = -ball.vx ∧
        (ball.handleBrickCollision brick).1.vy = ball.vy ∧
        (ball.handleBrickCollision brick).1.x = brick.x - ball.radius ∧
        (ball.handleBrickCollision brick).1.y = ball.y)) ∧
    (¬ |ball.x - (brick.x + brick.width / 2)| / (brick.width / 2) >
        |ball.y - (brick.y + brick.height / 2)| / (brick.height / 2) →
      (0 < ball.y - (brick.y + brick.height / 2) →
        brick.getCollisionSide ball = Side.bottom ∧
        (ball.handleBrickCollision brick).1.vy = -ball.vy ∧
        (ball.handleBrickCollision brick).1.vx = ball.vx ∧
        (ball.handleBrickCollision brick).1.y = brick.y + brick.height + ball.radius ∧
        (ball.handleBrickCollision brick).1.x = ball.x) ∧
      (ball.y - (brick.y + brick.height / 2) ≤ 0 →
        brick.getCollisionSide ball = Side.top ∧
        (ball.handleBrickCollision brick).1.vy = -ball.vy ∧
        (ball.handleBrickCollision brick).1.vx = ball.vx ∧
        (ball.handleBrickCollision brick).1.y = brick.y - ball.radius ∧
        (ball.handleBrickCollision brick).1.x = ball.x)) := by
  rw [handleBrickCollision_of_collision ball brick hc]
  simp only [hp, Bool.not_false, if_true]
  refine ⟨fun hr => ⟨fun hd => ?_, fun hd => ?_⟩, fun hr => ⟨fun hd => ?_, fun hd => ?_⟩⟩
  · have hs : brick.getCollisionSide ball = Side.right := by
      simp only [Brick.getCollisionSide, Utils.getCollisionSide, hr, gt_iff_lt, hd, if_true]
    rw [hs]
    exact ⟨rfl, rfl, rfl, rfl, rfl⟩
  · have hs : brick.getCollisionSide ball = Side.left := by
      simp only [Brick.getCollisionSide, Utils.getCollisionSide, hr, gt_iff_lt,
        not_lt.mpr hd, if_true, if_false]
    rw [hs]
    exact ⟨rfl, rfl, rfl, rfl, rfl⟩
  · have hs : brick.getCollisionSide ball = Side.bottom := by
      simp only [Brick.getCollisionSide, Utils.getCollisionSide, hr, gt_iff_lt, hd, if_true,
        if_false]
    rw [hs]
    exact ⟨rfl, rfl, rfl, rfl, rfl⟩
  · have hs : brick.getCollisionSide ball = Side.top := by
      simp only [Brick.getCollisionSide, Utils.getCollisionSide, hr, gt_iff_lt,
        not_lt.mpr hd, if_false]
    rw [hs]
    exact ⟨rfl, rfl, rfl, rfl, rfl⟩

/-- C18, witness: a ball of radius 8 at (95, 115) in a brick at (100, 100): `dx = -45`,
`dy = 0`, the side is `left` and the ball is put at `x = 100 - 8`. -/
theorem handleBrickCollision_reflect_witness :
    (Brick.new (100 : ℚ) 100 BrickType.normal 1).getCollisionSide
      { Ball.new (95 : ℚ) 115 8 with vx := 3, vy := -4 } = Side.left ∧
    (({ Ball.new (95 : ℚ) 115 8 with vx := 3, vy := -4 } : Ball ℚ).handleBrickCollision
      (Brick.new 100 100 BrickType.normal 1)).1.x = 100 - 8 ∧
    (({ Ball.new (95 : ℚ) 115 8 with vx := 3, vy := -4 } : Ball ℚ).handleBrickCollision
      (Brick.new 100 100 BrickType.normal 1)).1.vx = -3 :=
  have h := ((handleBrickCollision_reflect
    ({ Ball.new (95 : ℚ) 115 8 with vx := 3, vy := -4 } : Ball ℚ)
    (Brick.new 100 100 BrickType.normal 1)
    (by norm_num [Brick.checkCollision, Brick.new, Ball.new, Utils.circleRectIntersect,
      abs_le])
    rfl).1 (by norm_num [Brick.new, Ball.new])).2 (by norm_num [Brick.new, Ball.new])
  ⟨h.1, h.2.2.2.1, h.2.1⟩

/-- C19, evaluated: a ball of radius 8 at (93, 128) moving straight up with speed 9 (it was
clear of the brick at (93, 137)) meets the left face of a `strong` brick at (100, 100).  The
side is `left`, the ball is put at `x = 92`, one radius from the left face, and the brick
survives with one hit point; but
`brick.checkCollision(ball)` is still true, and after the next `update` of the ball the brick
is hit again and destroyed. -/
theorem moveOutOfBrick_still_colliding :
    (Brick.new (100 : ℝ) 100 BrickType.strong 2).checkCollision
      { Ball.new (93 : ℝ) 128 8 with vy := -9, launched := true } = true ∧
    (({ Ball.new (93 : ℝ) 128 8 with vy := -9, launched := true } : Ball ℝ).handleBrickCollision
      (Brick.new 100 100 BrickType.strong 2)).1.x = 100 - 8 ∧
    (({ Ball.new (93 : ℝ) 128 8 with vy := -9, launched := true } : Ball ℝ).handleBrickCollision
      (Brick.new 100 100 BrickType.strong 2)).2.1.destroyed = false ∧
    (({ Ball.new (93 : ℝ) 128 8 with vy := -9, launched := true } : Ball ℝ).handleBrickCollision
      (Brick.new 100 100 BrickType.strong 2)).2.1.checkCollision
      (({ Ball.new (93 : ℝ) 128 8 with vy := -9, launched := true } :
        Ball ℝ).handleBrickCollision (Brick.new 100 100 BrickType.strong 2)).1 = true ∧
    (((({ Ball.new (93 : ℝ) 128 8 with vy := -9, launched := true } :
        Ball ℝ).handleBrickCollision (Brick.new 100 100 BrickType.strong 2)).1.update
        Real.sqrt 800 600 PowerUpManager.new).handleBrickCollision
      (({ Ball.new (93 : ℝ) 128 8 with vy := -9, launched := true } :
        Ball ℝ).handleBrickCollision (Brick.new 100 100 BrickType.strong 2)).2.1).2.2 =
      some { destroyed := true, score := 25, special := none } := by
  have h81 : Real.sqrt 81 = 9 :=
    (Real.sqrt_eq_iff_mul_self_eq_of_pos (by norm_num)).mpr (by norm_num)
  have hc : (Brick.new (100 : ℝ) 100 BrickType.strong 2).checkCollision
      { Ball.new (93 : ℝ) 128 8 with vy := -9, launched := true } = true := by
    norm_num [Brick.checkCollision, Brick.new, Ball.new, Utils.circleRectIntersect, abs_le]
  have hr : ({ Ball.new (93 : ℝ) 128 8 with vy := -9, launched := true } :
      Ball ℝ).handleBrickCollision (Brick.new 100 100 BrickType.strong 2) =
      ({ Ball.new (92 : ℝ) 128 8 with vy := -9, launched := true },
        { Brick.new (100 : ℝ) 100 BrickType.strong 2 with
            hitPoints := 1, shakeIntensity := 3,
            properties := { (Brick.new (100 : ℝ) 100 BrickType.strong 2).properties with
              currentColor := 0 } },
        some { destroyed := false, score := 0, special := none }) := by
    rw [handleBrickCollision_of_collision _ _ hc]
    have hs : (Brick.new (100 : ℝ) 100 BrickType.strong 2).getCollisionSide
        { Ball.new (93 : ℝ) 128 8 with vy := -9, launched := true } = Side.left := by
      norm_num [Brick.getCollisionSide, Utils.getCollisionSide, Brick.new, Ball.new]
    rw [hs]
    simp [Ball.moveOutOfBrick, Brick.getBounds, Brick.hit, Brick.new, Ball.new,
      Brick.getBrickProperties]
    norm_num
  have hu : ({ Ball.new (92 : ℝ) 128 8 with vy := -9, launched := true } : Ball ℝ).update
      Real.sqrt 800 600 PowerUpManager.new =
      { Ball.new (92 : ℝ) 119 8 with
          vy := -9, launched := true, trail := [(92, 119)], glowIntensity := 5 / 100 } := by
    norm_num [Ball.update, Ball.advance, Ball.new, Ball.limitSpeed, Ball.rescaleSpeed,
      Ball.preventHorizontal, Ball.currentSpeed, Ball.handleWallCollisions, Ball.wallLeft,
      Ball.wallRight, Ball.wallTop, Ball.updateTrail, Ball.updateGlow, PowerUpManager.new,
      PowerUpManager.getEffectValue, PowerUpManager.hasEffect, EffectValue.toNumber, h81,
      abs_lt]
  rw [hr]
  refine ⟨hc, by norm_num [Ball.new], rfl, ?_, ?_⟩
  · norm_num [Brick.checkCollision, Brick.new, Ball.new, Utils.circleRectIntersect, abs_le]
  · simp only []
    rw [hu]
    simp [Ball.handleBrickCollision, Brick.checkCollision, Brick.new, Ball.new,
      Utils.circleRectIntersect, abs_le, Brick.hit, Brick.destroy, Brick.getBrickProperties]
    norm_num

end BrickCollision

section WinCondition

variable {α : Type} [LinearOrderedField α]

/-- C12: `checkWinCondition` calls `levelComplete` (state `levelComplete`, level bonus added)
when every brick is destroyed or of the type `unbreakable`, and returns the game unchanged
when some brick is neither; so unbreakable bricks never block completion, and a destroyed
regenerating brick counts as destroyed whatever its timer says. -/
theorem checkWinCondition_spec (g : Game α) :
    ((∀ b ∈ g.bricks, b.destroyed = true ∨ b.type = BrickType.unbreakable) →
      g.checkWinCondition = g.levelComplete) ∧
    ((∃ b ∈ g.bricks, b.destroyed = false ∧ b.type ≠ BrickType.unbreakable) →
      g.checkWinCondition = g) ∧
    g.levelComplete.state = GameState.levelComplete ∧
    g.levelComplete.score = g.score + ((g.level : α) * 100 + (g.maxCombo : α) * 50) ∧
    g.levelComplete.bricks = g.bricks := by
  refine ⟨fun h => ?_, fun h => ?_, rfl, rfl, rfl⟩
  · have hf : g.bricks.filter
        (fun brick => !brick.destroyed && decide (brick.type ≠ BrickType.unbreakable)) = [] := by
      rw [List.filter_eq_nil_iff]
      intro b hb
      rcases h b hb with hd | ht
      · simp [hd]
      · simp [ht]
    simp only [Game.checkWinCondition, hf, List.length_nil, if_true]
  · obtain ⟨b, hb, hd, ht⟩ := h
    have hmem : b ∈ g.bricks.filter
        (fun brick => !brick.destroyed && decide (brick.type ≠ BrickType.unbreakable)) := by
      rw [List.mem_filter]
      exact ⟨hb, by simp [hd, ht]⟩
    have hlen : (g.bricks.filter
        (fun brick => !brick.destroyed && decide (brick.type ≠ BrickType.unbreakable))).length
          ≠ 0 := by
      intro h0
      rw [List.length_eq_zero] at h0
      rw [h0] at hmem
      exact absurd hmem (List.not_mem_nil b)
    simp only [Game.checkWinCondition, hlen, if_false]

/-- C12, witness: an intact unbreakable brick and a destroyed regenerating brick with a running
timer: the level is complete. -/
theorem checkWinCondition_spec_witness :
    (Game.checkWinCondition
      (Scenario.playing (Paddle.new (325 : ℚ) 540 150 22) []
        [Brick.new 0 0 BrickType.unbreakable 1,
         { Brick.new 0 35 BrickType.regenerating 1 with
             destroyed := true, regenerateTimer := some 4000 }] 3)).state =
      GameState.levelComplete :=
  have h := (checkWinCondition_spec
      (Scenario.playing (Paddle.new (325 : ℚ) 540 150 22) []
        [Brick.new 0 0 BrickType.unbreakable 1,
         { Brick.new 0 35 BrickType.regenerating 1 with
             destroyed := true, regenerateTimer := some 4000 }] 3)).1
    (by simp [Scenario.playing, Brick.new])
  h ▸ rfl

end WinCondition

section BrickLoop

variable {α : Type} [LinearOrderedField α]

/-- A brick that is destroyed and not regenerating never collides. -/
theorem checkCollision_destroyed (brick : Brick α) (ball : Ball α)
    (hd : brick.destroyed = true) (ht : brick.type ≠ BrickType.regenerating) :
    brick.checkCollision ball = false := by
  simp [Brick.checkCollision, hd, ht]

/-- One step of the loop at a brick the ball does not collide with. -/
theorem loop_skip (sqrt : α → α) (fuel : Nat) (i : Nat) (rest : List Nat) (g : Game α)
    (ball : Ball α)
    (h : ∀ b, g.bricks.get? i = some b → b.checkCollision ball = false) :
    Game.handleBrickCollisionsLoop sqrt fuel (i :: rest) g ball =
      Game.handleBrickCollisionsLoop sqrt fuel rest g ball := by
  cases hb : g.bricks.get? i with
  | none => simp only [Game.handleBrickCollisionsLoop, hb]
  | some brick =>
    have hc := h brick hb
    simp only [Game.handleBrickCollisionsLoop, hb, Ball.handleBrickCollision, hc,
      Bool.not_false, if_true, ite_self]

/-- One step of the loop at a brick the ball collides with. -/
theorem loop_hit (sqrt : α → α) (fuel : Nat) (i : Nat) (rest : List Nat) (g : Game α)
    (ball : Ball α) (brick : Brick α) (hb : g.bricks.get? i = some brick)
    (hc : brick.checkCollision ball = true) :
    Game.handleBrickCollisionsLoop sqrt fuel (i :: rest) g ball =
      if !ball.penetrating then
        (Game.handleBrickDestruction sqrt fuel
            { g with bricks := g.bricks.set i (brick.hit 1).1 } (brick.hit 1).2 (brick.hit 1).1,
          (ball.handleBrickCollision brick).1)
      else
        Game.handleBrickCollisionsLoop sqrt fuel rest
          (Game.handleBrickDestruction sqrt fuel
            { g with bricks := g.bricks.set i (brick.hit 1).1 } (brick.hit 1).2 (brick.hit 1).1)
          ball := by
  have hnd : (brick.destroyed && decide (brick.type ≠ BrickType.regenerating)) = false := by
    rcases ((checkCollision_iff brick ball).mp hc).2 with h | h
    · simp [h]
    · simp [h]
  have hr := handleBrickCollision_of_collision ball brick hc
  have hpen : (ball.handleBrickCollision brick).1.penetrating = ball.penetrating := by
    rw [hr]
    cases hp : ball.penetrating
    · simp only [Bool.not_false, if_true, Ball.moveOutOfBrick]
      cases brick.getCollisionSide ball <;> rfl
    · simp only [Bool.not_true, Bool.false_eq_true, if_false, hp]
  have hball : ball.penetrating = true → (ball.handleBrickCollision brick).1 = ball := by
    intro hp
    rw [hr]
    simp only [hp, Bool.not_true, Bool.false_eq_true, if_false]
  have h21 : (ball.handleBrickCollision brick).2.1 = (brick.hit 1).1 := by rw [hr]
  have h22 : (ball.handleBrickCollision brick).2.2 = some (brick.hit 1).2 := by rw [hr]
  simp only [Game.handleBrickCollisionsLoop, hb, hnd, Bool.false_eq_true, if_false, h22, h21,
    hpen]
  cases hp : ball.penetrating
  · simp only [Bool.not_false, if_true]
  · simp only [Bool.not_true, Bool.false_eq_true, if_false, hball hp]

/-- The loop over indices of bricks the ball does not collide with changes nothing. -/
theorem loop_no_collision (sqrt : α → α) (fuel : Nat) (g : Game α) (ball : Ball α)
    (is : List Nat)
    (h : ∀ i ∈ is, ∀ b, g.bricks.get? i = some b → b.checkCollision ball = false) :
    Game.handleBrickCollisionsLoop sqrt fuel is g ball = (g, ball) := by
  induction is with
  | nil => rfl
  | cons i rest ih =>
    rw [loop_skip sqrt fuel i rest g ball (h i (List.mem_cons_self _ _))]
    exact ih (fun j hj => h j (List.mem_cons_of_mem _ hj))

/-- The loop of a ball that is not penetrating ends at the first brick it collides with. -/
theorem loop_first_collision (sqrt : α → α) (fuel : Nat) (g : Game α) (ball : Ball α)
    (hp : ball.penetrating = false) (i : Nat) (brick : Brick α) (rest : List Nat)
    (hb : g.bricks.get? i = some brick) (hc : brick.checkCollision ball = true)
    (pre : List Nat)
    (h : ∀ j ∈ pre, ∀ b, g.bricks.get? j = some b → b.checkCollision ball = false) :
    Game.handleBrickCollisionsLoop sqrt fuel (pre ++ i :: rest) g ball =
      (Game.handleBrickDestruction sqrt fuel
          { g with bricks := g.bricks.set i (brick.hit 1).1 } (brick.hit 1).2 (brick.hit 1).1,
        (ball.handleBrickCollision brick).1) := by
  induction pre with
  | nil =>
    rw [List.nil_append, loop_hit sqrt fuel i rest g ball brick hb hc]
    simp only [hp, Bool.not_false, if_true]
  | cons j pre ih =>
    rw [List.cons_append, loop_skip sqrt fuel j _ g ball (h j (List.mem_cons_self _ _))]
    exact ih (fun k hk => h k (List.mem_cons_of_mem _ hk))

/-- The indices below `n` are those below `i`, then `i`, then the rest. -/
theorem range_split (i n : Nat) (h : i < n) :
    ∃ rest, List.range n = List.range i ++ i :: rest := by
  induction n with
  | zero => omega
  | succ n ih =>
    rw [List.range_succ]
    by_cases hi : i = n
    · exact ⟨[], by rw [hi]⟩
    · obtain ⟨rest, hr⟩ := ih (by omega)
      exact ⟨rest ++ [n], by rw [hr, List.append_assoc, List.cons_append]⟩

/-- C20: `handleBrickCollisions` visits the bricks in list order.  A destroyed brick that is
not regenerating never counts as a collision.  When the ball collides with no brick nothing
changes.  For a ball that is not penetrating, only the first brick it collides with is struck:
that brick takes one `hit()`, its result goes to `handleBrickDestruction`, and the loop stops.
For a penetrating ball the loop goes on with the remaining bricks after every strike. -/
theorem handleBrickCollisions_first_hit (sqrt : α → α) (fuel : Nat) (g : Game α)
    (ball : Ball α) :
    (∀ brick : Brick α, brick.destroyed = true → brick.type ≠ BrickType.regenerating →
      brick.checkCollision ball = false) ∧
    ((∀ b ∈ g.bricks, b.checkCollision ball = false) →
      Game.handleBrickCollisions sqrt fuel g ball = (g, ball)) ∧
    (ball.penetrating = false → ∀ (i : Nat) (brick : Brick α),
      g.bricks.get? i = some brick → brick.checkCollision ball = true →
      (∀ j, j < i → ∀ b, g.bricks.get? j = some b → b.checkCollision ball = false) →
      Game.handleBrickCollisions sqrt fuel g ball =
        (Game.handleBrickDestruction sqrt fuel
            { g with bricks := g.bricks.set i (brick.hit 1).1 } (brick.hit 1).2 (brick.hit 1).1,
          (ball.handleBrickCollision brick).1)) ∧
    (ball.penetrating = true → ∀ (i : Nat) (rest : List Nat) (brick : Brick α),
      g.bricks.get? i = some brick → brick.checkCollision ball = true →
      Game.handleBrickCollisionsLoop sqrt fuel (i :: rest) g ball =
        Game.handleBrickCollisionsLoop sqrt fuel rest
          (Game.handleBrickDestruction sqrt fuel
            { g with bricks := g.bricks.set i (brick.hit 1).1 } (brick.hit 1).2 (brick.hit 1).1)
          ball) := by
  refine ⟨fun brick hd ht => checkCollision_destroyed brick ball hd ht, fun h => ?_,
    fun hp i brick hb hc hfirst => ?_, fun hp i rest brick hb hc => ?_⟩
  · unfold Game.handleBrickCollisions
    refine loop_no_collision sqrt fuel g ball _ (fun i _ b hb => h b ?_)
    exact List.get?_mem hb
  · have hlt : i < g.bricks.length := by
      by_contra hge
      rw [List.get?_eq_none.mpr (by omega)] at hb
      exact absurd hb (by simp)
    obtain ⟨rest, hr⟩ := range_split i g.bricks.length hlt
    unfold Game.handleBrickCollisions
    rw [hr]
    refine loop_first_collision sqrt fuel g ball hp i brick rest hb hc _ (fun j hj b hjb => ?_)
    exact hfirst j (List.mem_range.mp hj) b hjb
  · rw [loop_hit sqrt fuel i rest g ball brick hb hc]
    simp only [hp, Bool.not_true, Bool.false_eq_true, if_false]

/-- C20, witness: a ball of radius 8 at (140, 132) touches two `normal` bricks, at (100, 100)
and at (100, 135).  Not penetrating, it destroys the first and leaves the second; penetrating,
it destroys both in the same call. -/
theorem handleBrickCollisions_first_hit_witness :
    ((Game.handleBrickCollisions (fun v : ℚ => v) 3
        (Scenario.playing (Paddle.new 325 540 150 22) []
          [Brick.new 100 100 BrickType.normal 1, Brick.new 100 135 BrickType.normal 1] 3)
        (Ball.new 140 132 8)).1.bricks.map Brick.destroyed) = [true, false] ∧
    ((Game.handleBrickCollisions (fun v : ℚ => v) 3
        (Scenario.playing (Paddle.new 325 540 150 22) []
          [Brick.new 100 100 BrickType.normal 1, Brick.new 100 135 BrickType.normal 1] 3)
        { Ball.new 140 132 8 with penetrating := true }).1.bricks.map Brick.destroyed) =
      [true, true] := by
  constructor
  · rw [(handleBrickCollisions_first_hit (fun v : ℚ => v) 3
        (Scenario.playing (Paddle.new 325 540 150 22) []
          [Brick.new 100 100 BrickType.normal 1, Brick.new 100 135 BrickType.normal 1] 3)
        (Ball.new 140 132 8)).2.2.1 rfl 0 (Brick.new 100 100 BrickType.normal 1) rfl
        (by norm_num [Brick.checkCollision, Brick.new, Ball.new, Utils.circleRectIntersect,
          abs_le])
        (fun j hj => absurd hj (by omega))]
    simp [Game.handleBrickDestruction, Game.awardPoints, Game.spawnPowerUp,
      PowerUpManager.spawnPowerUp, Scenario.playing, Brick.hit, Brick.destroy, Brick.new,
      Brick.getBrickProperties]
  · simp [Game.handleBrickCollisions, Game.handleBrickCollisionsLoop, List.range,
      List.range.loop, Ball.handleBrickCollision, Brick.checkCollision,
      Utils.circleRectIntersect, Game.handleBrickDestruction, Game.awardPoints,
      Game.spawnPowerUp, PowerUpManager.spawnPowerUp, Scenario.playing, Brick.hit,
      Brick.destroy, Brick.new, Ball.new, Brick.getBrickProperties, abs_le]
    norm_num
    simp

end BrickLoop

section Explosion

variable {α : Type} [LinearOrderedField α]

/-- A hit never changes the type of a brick. -/
theorem hit_type (b : Brick α) (damage : α) : (b.hit damage).1.type = b.type := by
  simp only [Brick.hit, Brick.destroy]
  split_ifs <;> rfl

/-- Only a brick of the type `explosive` is destroyed with an explosion. -/
theorem destroy_special_explosion {β : Type} (b : Brick β) (radius : β)
    (h : (b.destroy).2.special = some (SpecialEffect.explosion radius)) :
    b.type = BrickType.explosive := by
  by_contra hne
  by_cases hr : b.type = BrickType.regenerating
  · simp [Brick.destroy, hr] at h
  · simp [Brick.destroy, hne, hr] at h

/-- Only a brick of the type `explosive` returns an explosion. -/
theorem hit_special_explosion (b : Brick α) (damage radius : α)
    (h : (b.hit damage).2.special = some (SpecialEffect.explosion radius)) :
    b.type = BrickType.explosive := by
  by_cases hu : b.type = BrickType.unbreakable
  · simp [Brick.hit, hu] at h
  · by_cases hp : b.hitPoints - damage > 0
    · simp [Brick.hit, hu, hp, not_le.mpr hp] at h
    · have hle : b.hitPoints - damage ≤ 0 := not_lt.mp hp
      have e : b.hit damage =
          Brick.destroy { b with hitPoints := b.hitPoints - damage, shakeIntensity := 3 } := by
        simp only [Brick.hit, hu, if_false, gt_iff_lt, hp, hle, if_true]
      rw [e] at h
      exact destroy_special_explosion
        { b with hitPoints := b.hitPoints - damage, shakeIntensity := 3 } radius h

/-- Without an explosion in the result, `handleBrickDestruction` leaves the bricks alone. -/
theorem handleBrickDestruction_bricks (sqrt : α → α) (fuel : Nat) (g : Game α)
    (result : HitResult α) (brick : Brick α)
    (h : ∀ radius : α, result.special ≠ some (SpecialEffect.explosion radius)) :
    (Game.handleBrickDestruction sqrt fuel g result brick).bricks = g.bricks := by
  cases fuel with
  | zero => rfl
  | succ fuel =>
    cases hd : result.destroyed
    · simp only [Game.handleBrickDestruction, hd, Bool.not_false, if_true]
    · simp only [Game.handleBrickDestruction, hd, Bool.not_true, Bool.false_eq_true, if_false]
      cases hs : result.special with
      | none => rfl
      | some effect =>
        cases effect with
        | explosion radius => exact absurd hs (h radius)
        | regenerate => rfl

/-- The body of the explosion loop at a brick that exists. -/
theorem explodeBrick_eq (sqrt : α → α)
    (destruction : Game α → HitResult α → Brick α → Game α) (x y radius : α) (g : Game α)
    (i : Nat) (brick : Brick α) (hb : g.bricks.get? i = some brick) :
    Game.explodeBrick sqrt destruction x y radius g i =
      if !brick.destroyed && brick.isInExplosionRadius sqrt x y radius then
        (if (brick.hit 2).2.destroyed then
          destruction { g with bricks := g.bricks.set i (brick.hit 2).1 } (brick.hit 2).2
            (brick.hit 2).1
        else { g with bricks := g.bricks.set i (brick.hit 2).1 })
      else g := by
  simp only [Game.explodeBrick, hb]

/-- Without explosive bricks the first `n` steps of the explosion loop have hit exactly the
bricks below `n` that were not destroyed and within the radius. -/
theorem explosion_prefix (sqrt : α → α) (fuel : Nat) (x y radius : α) (g : Game α)
    (hne : ∀ b ∈ g.bricks, b.type ≠ BrickType.explosive) (n : Nat)
    (hn : n ≤ g.bricks.length) :
    ∀ i : Nat,
      ((List.range n).foldl
        (Game.explodeBrick sqrt (Game.handleBrickDestruction sqrt fuel) x y radius)
        g).bricks[i]? =
      if i < n then
        (g.bricks[i]?).map (fun b =>
          if !b.destroyed && b.isInExplosionRadius sqrt x y radius then (b.hit 2).1 else b)
      else g.bricks[i]? := by
  induction n with
  | zero => intro i; simp
  | succ n ih =>
    intro i
    have ihn := ih (by omega)
    rw [List.range_succ, List.foldl_append, List.foldl_cons, List.foldl_nil]
    have hlt : n < g.bricks.length := by omega
    have hbn : g.bricks[n]? = some g.bricks[n] := List.getElem?_eq_getElem hlt
    have hcur : ((List.range n).foldl
        (Game.explodeBrick sqrt (Game.handleBrickDestruction sqrt fuel) x y radius)
        g).bricks.get? n = some g.bricks[n] := by
      rw [List.get?_eq_getElem?, ihn n, if_neg (by omega), hbn]
    have hlen : n < ((List.range n).foldl
        (Game.explodeBrick sqrt (Game.handleBrickDestruction sqrt fuel) x y radius)
        g).bricks.length := by
      by_contra hge
      rw [List.get?_eq_none.mpr (by omega)] at hcur
      exact absurd hcur (by simp)
    rw [explodeBrick_eq sqrt _ x y radius _ n _ hcur]
    by_cases hcond : (!g.bricks[n].destroyed &&
        g.bricks[n].isInExplosionRadius sqrt x y radius) = true
    · have hbricks : (if (g.bricks[n].hit 2).2.destroyed = true then
            Game.handleBrickDestruction sqrt fuel
              { (List.range n).foldl
                  (Game.explodeBrick sqrt (Game.handleBrickDestruction sqrt fuel) x y radius)
                  g with
                bricks := ((List.range n).foldl
                  (Game.explodeBrick sqrt (Game.handleBrickDestruction sqrt fuel) x y radius)
                  g).bricks.set n (g.bricks[n].hit 2).1 }
              (g.bricks[n].hit 2).2 (g.bricks[n].hit 2).1
          else
            { (List.range n).foldl
                (Game.explodeBrick sqrt (Game.handleBrickDestruction sqrt fuel) x y radius)
                g with
              bricks := ((List.range n).foldl
                (Game.explodeBrick sqrt (Game.handleBrickDestruction sqrt fuel) x y radius)
                g).bricks.set n (g.bricks[n].hit 2).1 }).bricks =
          ((List.range n).foldl
            (Game.explodeBrick sqrt (Game.handleBrickDestruction sqrt fuel) x y radius)
            g).bricks.set n (g.bricks[n].hit 2).1 := by
        split_ifs
        · rw [handleBrickDestruction_bricks]
          intro r hr
          exact hne _ (List.getElem_mem hlt) (hit_special_explosion _ _ _ hr)
        · rfl
      rw [if_pos hcond, hbricks, List.getElem?_set]
      by_cases hin : n = i
      · subst hin
        rw [if_pos rfl, if_pos hlen, if_pos (by omega), hbn, Option.map_some', if_pos hcond]
      · rw [if_neg hin, ihn i]
        by_cases hi : i < n
        · rw [if_pos hi, if_pos (by omega)]
        · rw [if_neg hi, if_neg (by omega)]
    · rw [if_neg hcond, ihn i]
      by_cases hin : n = i
      · subst hin
        rw [if_neg (by omega), if_pos (by omega), hbn, Option.map_some', if_neg hcond]
      · by_cases hi : i < n
        · rw [if_pos hi, if_pos (by omega)]
        · rw [if_neg hi, if_neg (by omega)]

/-- Without explosive bricks the length of the brick list is kept by the explosion loop. -/
theorem explosion_bricks (sqrt : α → α) (fuel : Nat) (x y radius : α) (g : Game α)
    (hne : ∀ b ∈ g.bricks, b.type ≠ BrickType.explosive) :
    (Game.handleExplosion sqrt fuel g x y radius).bricks =
      g.bricks.map (fun b =>
        if !b.destroyed && b.isInExplosionRadius sqrt x y radius then (b.hit 2).1 else b) := by
  apply List.ext_getElem?
  intro i
  rw [Game.handleExplosion, Game.handleExplosionWith,
    explosion_prefix sqrt fuel x y radius g hne g.bricks.length le_rfl i, List.getElem?_map]
  by_cases hi : i < g.bricks.length
  · rw [if_pos hi]
  · rw [if_neg hi, List.getElem?_eq_none (by omega)]
    rfl

/-- The radius test compares the Euclidean distance between the brick centre and the explosion
point with the radius, the boundary included. -/
theorem isInExplosionRadius_iff (b : Brick ℝ) (x y radius : ℝ) :
    b.isInExplosionRadius Real.sqrt x y radius = true ↔
      Real.sqrt ((x - (b.x + b.width / 2)) ^ 2 + (y - (b.y + b.height / 2)) ^ 2) ≤ radius := by
  simp only [Brick.isInExplosionRadius, Utils.distance, decide_eq_true_eq, sq]

/-- A hit that destroys an explosive brick reports the explosion effect with the radius of
the brick and leaves the rectangle of the brick as it was. -/
theorem hit_explosive (b : Brick α) (damage radius : α) (ht : b.type = BrickType.explosive)
    (hr : b.properties.explosionRadius = some radius)
    (hd : (b.hit damage).2.destroyed = true) :
    (b.hit damage).2.special = some (SpecialEffect.explosion radius) ∧
    (b.hit damage).1.x = b.x ∧ (b.hit damage).1.y = b.y ∧
    (b.hit damage).1.width = b.width ∧ (b.hit damage).1.height = b.height := by
  by_cases hp : b.hitPoints - damage > 0
  · have hn : ¬ b.hitPoints - damage ≤ 0 := not_le.mpr hp
    simp [Brick.hit, ht, hp, hn] at hd
  · have hn : b.hitPoints - damage ≤ 0 := not_lt.mp hp
    simp [Brick.hit, Brick.destroy, ht, hp, hn, hr]

/-- C11: `Game.handleExplosion(x, y, radius)` visits the bricks once each in list order; the
brick visited takes `hit(2)` exactly when it is not destroyed at that moment and the Euclidean
distance from its centre to `(x, y)` is at most `radius` (the boundary included), and is left as
it was otherwise; when no brick is explosive the resulting bricks are the old ones with
`hit(2)` applied to exactly those; a hit that destroys an explosive brick (radius entry 80, as
built by the constructor) reports an explosion of radius 80, and its destruction runs
`handleExplosion` at the centre of that brick with radius 80. -/
theorem handleExplosion_spec (fuel : Nat) (g : Game ℝ) (x y radius : ℝ) :
    Game.handleExplosion Real.sqrt fuel g x y radius =
      (List.range g.bricks.length).foldl
        (Game.explodeBrick Real.sqrt (Game.handleBrickDestruction Real.sqrt fuel) x y radius)
        g ∧
    (∀ b : Brick ℝ, b.isInExplosionRadius Real.sqrt x y radius = true ↔
      Real.sqrt ((x - (b.x + b.width / 2)) ^ 2 + (y - (b.y + b.height / 2)) ^ 2) ≤ radius) ∧
    (∀ (s : Game ℝ) (i : Nat) (b : Brick ℝ), s.bricks.get? i = some b →
      (b.destroyed = false ∧
        Real.sqrt ((x - (b.x + b.width / 2)) ^ 2 + (y - (b.y + b.height / 2)) ^ 2) ≤ radius →
        Game.explodeBrick Real.sqrt (Game.handleBrickDestruction Real.sqrt fuel) x y radius s i =
          if (b.hit 2).2.destroyed then
            Game.handleBrickDestruction Real.sqrt fuel
              { s with bricks := s.bricks.set i (b.hit 2).1 } (b.hit 2).2 (b.hit 2).1
          else { s with bricks := s.bricks.set i (b.hit 2).1 }) ∧
      (¬ (b.destroyed = false ∧
        Real.sqrt ((x - (b.x + b.width / 2)) ^ 2 + (y - (b.y + b.height / 2)) ^ 2) ≤ radius) →
        Game.explodeBrick Real.sqrt (Game.handleBrickDestruction Real.sqrt fuel) x y radius s i =
          s)) ∧
    ((∀ b ∈ g.bricks, b.type ≠ BrickType.explosive) →
      (Game.handleExplosion Real.sqrt fuel g x y radius).bricks =
        g.bricks.map (fun b =>
          if !b.destroyed && b.isInExplosionRadius Real.sqrt x y radius then (b.hit 2).1
          else b)) ∧
    (∀ (px py hp : ℝ),
      (Brick.new px py BrickType.explosive hp).properties.explosionRadius = some 80) ∧
    (∀ (b : Brick ℝ) (damage : ℝ), b.type = BrickType.explosive →
      b.properties.explosionRadius = some 80 → (b.hit damage).2.destroyed = true →
      (b.hit damage).2.special = some (SpecialEffect.explosion 80) ∧
      Game.handleBrickDestruction Real.sqrt (fuel + 1) g (b.hit damage).2 (b.hit damage).1 =
        (Game.handleExplosion Real.sqrt fuel (g.awardPoints (b.hit damage).2)
          (b.x + b.width / 2) (b.y + b.height / 2) 80).spawnPowerUp
          (b.x + b.width / 2) (b.y + b.height / 2)) := by
  refine ⟨rfl, fun b => isInExplosionRadius_iff b x y radius, fun s i b hb => ⟨fun h => ?_,
    fun h => ?_⟩, explosion_bricks Real.sqrt fuel x y radius g, fun px py hp => rfl,
    fun b damage ht hr hd => ?_⟩
  · rw [explodeBrick_eq Real.sqrt _ x y radius s i b hb, if_pos]
    rw [Bool.and_eq_true, isInExplosionRadius_iff]
    exact ⟨by simp [h.1], h.2⟩
  · rw [explodeBrick_eq Real.sqrt _ x y radius s i b hb, if_neg]
    rw [Bool.and_eq_true, isInExplosionRadius_iff]
    intro hc
    exact h ⟨by simpa using hc.1, hc.2⟩
  · obtain ⟨hs, hx, hy, hw, hh⟩ := hit_explosive b damage 80 ht hr hd
    refine ⟨hs, ?_⟩
    simp only [Game.handleBrickDestruction, hd, hs, Bool.not_true, Bool.false_eq_true,
      if_false, Game.handleSpecialBrickEffectWith, Game.handleExplosion, hx, hy, hw, hh]

/-- C11, witness: an explosion of radius 80 at (140, 115) over three bricks without an
explosive one: the brick centred there and the one centred exactly 80 away take two points of
damage and are destroyed, the one centred 85 away is untouched. -/
theorem handleExplosion_spec_witness :
    (∀ b ∈ (Scenario.playing (Paddle.new 325 540 150 22) []
        [Brick.new 100 100 BrickType.normal 1, Brick.new 180 100 BrickType.strong 2,
          Brick.new 185 100 BrickType.normal 1] 3 : Game ℝ).bricks,
      b.type ≠ BrickType.explosive) ∧
    (Game.handleExplosion Real.sqrt 1
      (Scenario.playing (Paddle.new 325 540 150 22) []
        [Brick.new 100 100 BrickType.normal 1, Brick.new 180 100 BrickType.strong 2,
          Brick.new 185 100 BrickType.normal 1] 3 : Game ℝ)
      140 115 80).bricks.map (fun b => (b.destroyed, b.hitPoints)) =
      [(true, -1), (true, 0), (false, 1)] := by
  have hne : ∀ b ∈ (Scenario.playing (Paddle.new 325 540 150 22) []
        [Brick.new 100 100 BrickType.normal 1, Brick.new 180 100 BrickType.strong 2,
          Brick.new 185 100 BrickType.normal 1] 3 : Game ℝ).bricks,
      b.type ≠ BrickType.explosive := by
    simp [Scenario.playing, Brick.new]
  have h1 : (Brick.new (100 : ℝ) 100 BrickType.normal 1).isInExplosionRadius Real.sqrt
      140 115 80 = true := by
    rw [isInExplosionRadius_iff, Real.sqrt_le_iff]
    norm_num [Brick.new]
  have h2 : (Brick.new (180 : ℝ) 100 BrickType.strong 2).isInExplosionRadius Real.sqrt
      140 115 80 = true := by
    rw [isInExplosionRadius_iff, Real.sqrt_le_iff]
    norm_num [Brick.new]
  have h3 : (Brick.new (185 : ℝ) 100 BrickType.normal 1).isInExplosionRadius Real.sqrt
      140 115 80 = false := by
    rw [Bool.eq_false_iff, Ne, isInExplosionRadius_iff, Real.sqrt_le_iff]
    norm_num [Brick.new]
  refine ⟨hne, ?_⟩
  rw [(handleExplosion_spec 1 _ 140 115 80).2.2.2.1 hne]
  simp only [Scenario.playing, List.map, h1, h2, h3]
  simp [Brick.hit, Brick.destroy, Brick.new]
  norm_num

end Explosion

section SessionStates

/-- The collision stage of the tick from `Scenario.lastLife`: the ball meets neither paddle nor
brick, the laser destroys the brick, which scores 10 and draws no power-up. -/
theorem lastLife_collisions (sin cos : ℝ → ℝ) (atan2 : ℝ → ℝ → ℝ) (floor : ℝ → ℤ)
    (pi infinity : ℝ) :
    Game.handleBallCollisions ⟨Real.sqrt, sin, cos, atan2, floor, pi, infinity⟩
      (Scenario.playing
        { Paddle.new 325 540 150 22 with
            glowIntensity := 3 / 100,
            lasers := [{ x := 104, y := 125, width := 4, height := 15 }] }
        [{ Ball.new 400 570 8 with vy := 5, launched := true }]
        [Brick.new 100 100 BrickType.normal 1] 1)
      { Ball.new 400 575 8 with
          vy := 5, launched := true, trail := [(400, 575)], glowIntensity := 1 / 20 } =
    ({ (Scenario.playing
        { Paddle.new 325 540 150 22 with glowIntensity := 3 / 100 }
        [{ Ball.new 400 570 8 with vy := 5, launched := true }]
        [{ Brick.new 100 100 BrickType.normal 1 with
            hitPoints := 0, shakeIntensity := 3, destroyed := true }] 1 : Game ℝ) with
        score := 10, combo := 1, maxCombo := 1, bricksRemaining := 0, randomIndex := 1 },
      { Ball.new 400 575 8 with
          vy := 5, launched := true, trail := [(400, 575)], glowIntensity := 1 / 20 }) := by
  simp [Scenario.playing, Game.handleBallCollisions, Ball.handlePaddleCollision, Paddle.new,
    Ball.new, Paddle.getBounds, Utils.circleRectIntersect, Utils.clamp]
  norm_num
  simp [Game.handleBrickCollisions, Game.handleBrickCollisionsLoop, Ball.handleBrickCollision,
    Brick.new, Brick.checkCollision, Brick.getBounds, Utils.circleRectIntersect, Utils.clamp]
  norm_num
  simp [Paddle.checkLaserCollisions, Paddle.firstLaserHit, Utils.rectIntersect,
    Brick.getBounds]
  norm_num
  simp [Game.laserHit, Brick.hit, Brick.destroy, Game.handleBrickDestruction, Game.awardPoints,
    Game.spawnPowerUp, PowerUpManager.spawnPowerUp, PowerUpManager.getEffectValue,
    PowerUpManager.new, EffectValue.toNumber, Brick.getBrickProperties]
  norm_num [Scenario.playing, Paddle.new, Ball.new, Brick.new, Brick.getBrickProperties]

/-- `Game.updateBalls` for a single ball that is not stuck after its update: the ball is
removed and a life lost when it is below the paddle, and kept otherwise. -/
theorem updateBalls_single {α : Type} [LinearOrderedField α] (M : MathOps α) (g : Game α)
    (b : Ball α) (hb : g.balls = [b])
    (hs : (b.update M.sqrt g.canvasWidth g.canvasHeight g.powerUpManager).stuck = false) :
    Game.updateBalls M g =
      if (Game.handleBallCollisions M g
          (b.update M.sqrt g.canvasWidth g.canvasHeight g.powerUpManager)).2.isBelowPaddle
          (Game.handleBallCollisions M g
            (b.update M.sqrt g.canvasWidth g.canvasHeight g.powerUpManager)).1.paddle.y then
        Game.loseLife M
          { (Game.handleBallCollisions M g
              (b.update M.sqrt g.canvasWidth g.canvasHeight g.powerUpManager)).1 with
            balls := [] }
      else
        { (Game.handleBallCollisions M g
            (b.update M.sqrt g.canvasWidth g.canvasHeight g.powerUpManager)).1 with
          balls := [(Game.handleBallCollisions M g
            (b.update M.sqrt g.canvasWidth g.canvasHeight g.powerUpManager)).2] } := by
  by_cases h : (Game.handleBallCollisions M g
      (b.update M.sqrt g.canvasWidth g.canvasHeight g.powerUpManager)).2.isBelowPaddle
      (Game.handleBallCollisions M g
        (b.update M.sqrt g.canvasWidth g.canvasHeight g.powerUpManager)).1.paddle.y = true
  · simp [Game.updateBalls, hb, Game.updateBall, hs, h]
  · simp [Game.updateBalls, hb, Game.updateBall, hs, h]

/-- One `Ball.update` of the falling ball of the scenarios: five units down. -/
theorem falling_ball_update :
    Ball.update Real.sqrt ({ Ball.new 400 570 8 with vy := 5, launched := true } : Ball ℝ)
      800 600 PowerUpManager.new =
    { Ball.new 400 575 8 with
        vy := 5, launched := true, trail := [(400, 575)], glowIntensity := 1 / 20 } := by
  have hs : Real.sqrt 25 = 5 :=
    (Real.sqrt_eq_iff_mul_self_eq_of_pos (by norm_num)).mpr (by norm_num)
  simp [Ball.new, Ball.update, Ball.updateTrail, Ball.updateGlow, Ball.advance,
    Ball.handleWallCollisions, Ball.wallLeft, Ball.wallRight, Ball.wallTop, Ball.limitSpeed,
    Ball.currentSpeed, Ball.rescaleSpeed, Ball.preventHorizontal, PowerUpManager.new,
    PowerUpManager.getEffectValue, PowerUpManager.hasEffect, EffectValue.toNumber]
  norm_num [hs]

/-- The ball stage of the tick from `Scenario.lastLife` ends in `gameOver`. -/
theorem lastLife_updateBalls (sin cos : ℝ → ℝ) (atan2 : ℝ → ℝ → ℝ) (floor : ℝ → ℤ)
    (pi infinity : ℝ) :
    Game.updateBalls ⟨Real.sqrt, sin, cos, atan2, floor, pi, infinity⟩
      (Scenario.playing
        { Paddle.new 325 540 150 22 with
            glowIntensity := 3 / 100,
            lasers := [{ x := 104, y := 125, width := 4, height := 15 }] }
        [{ Ball.new 400 570 8 with vy := 5, launched := true }]
        [Brick.new 100 100 BrickType.normal 1] 1) =
    { (Scenario.playing
        { Paddle.new 325 540 150 22 with glowIntensity := 3 / 100 }
        []
        [{ Brick.new 100 100 BrickType.normal 1 with
            hitPoints := 0, shakeIntensity := 3, destroyed := true }] 0 : Game ℝ) with
      state := GameState.gameOver, score := 10, maxCombo := 1, bricksRemaining := 0,
      randomIndex := 1, highScores := [{ score := 10, level := 1, date := "" }],
      overlay := some Overlay.gameOverScreen } := by
  have hb : Ball.update Real.sqrt ({ Ball.new 400 570 8 with vy := 5, launched := true } : Ball ℝ)
      (Scenario.playing
        { Paddle.new 325 540 150 22 with
            glowIntensity := 3 / 100,
            lasers := [{ x := 104, y := 125, width := 4, height := 15 }] }
        [{ Ball.new 400 570 8 with vy := 5, launched := true }]
        [Brick.new 100 100 BrickType.normal 1] 1 : Game ℝ).canvasWidth
      (Scenario.playing
        { Paddle.new 325 540 150 22 with
            glowIntensity := 3 / 100,
            lasers := [{ x := 104, y := 125, width := 4, height := 15 }] }
        [{ Ball.new 400 570 8 with vy := 5, launched := true }]
        [Brick.new 100 100 BrickType.normal 1] 1 : Game ℝ).canvasHeight
      (Scenario.playing
        { Paddle.new 325 540 150 22 with
            glowIntensity := 3 / 100,
            lasers := [{ x := 104, y := 125, width := 4, height := 15 }] }
        [{ Ball.new 400 570 8 with vy := 5, launched := true }]
        [Brick.new 100 100 BrickType.normal 1] 1 : Game ℝ).powerUpManager = _ :=
    falling_ball_update
  rw [updateBalls_single _ _ _ rfl (by rw [hb]; rfl), hb, lastLife_collisions]
  simp [Ball.isBelowPaddle, Ball.new, Paddle.new, Scenario.playing, Game.loseLife,
    Game.gameOver, Game.saveHighScore]
  norm_num


/-- The stages of `Game.update`: paddle, balls, then bricks, power-ups and the win check. -/
theorem update_stages {α : Type} [LinearOrderedField α] (M : MathOps α) (g g2 g3 : Game α)
    (h2 : { g with
              paddleController := (g.paddleController.update g.paddle).1,
              paddle := (g.paddleController.update g.paddle).2.update g.canvasWidth
                g.powerUpManager } = g2)
    (h3 : Game.updateBalls M g2 = g3) :
    Game.update M g =
      Game.checkWinCondition
        ((g3.updateBricks.powerUpManager.update g3.updateBricks.paddle
            g3.updateBricks.canvasHeight).2.foldl (Game.applyInstantEffect M)
          { g3.updateBricks with
            powerUpManager := (g3.updateBricks.powerUpManager.update g3.updateBricks.paddle
              g3.updateBricks.canvasHeight).1 }) := by
  subst h3
  subst h2
  rfl

/-- The paddle stage of the tick from `Scenario.lastLife`: the laser moves up by ten. -/
theorem lastLife_paddle :
    ({ (Scenario.lastLife : Game ℝ) with
        paddleController :=
          ((Scenario.lastLife : Game ℝ).paddleController.update
            (Scenario.lastLife : Game ℝ).paddle).1,
        paddle :=
          ((Scenario.lastLife : Game ℝ).paddleController.update
            (Scenario.lastLife : Game ℝ).paddle).2.update
              (Scenario.lastLife : Game ℝ).canvasWidth
              (Scenario.lastLife : Game ℝ).powerUpManager } : Game ℝ) =
      (Scenario.playing
        { Paddle.new 325 540 150 22 with
            glowIntensity := 3 / 100,
            lasers := [{ x := 104, y := 125, width := 4, height := 15 }] }
        [{ Ball.new 400 570 8 with vy := 5, launched := true }]
        [Brick.new 100 100 BrickType.normal 1] 1 : Game ℝ) := by
  simp [Scenario.lastLife, Scenario.playing, PaddleController.new, PaddleController.update,
    Paddle.new, Paddle.update, Paddle.updateGlow, Paddle.applyPowerUpEffects,
    Paddle.updateLasers, PowerUpManager.new, PowerUpManager.getEffectValue,
    PowerUpManager.hasEffect, Utils.clamp, EffectValue.toNumber]
  norm_num

/-- The session after one pass of the game loop from `Scenario.lastLife`. -/
theorem lastLife_tick (sin cos : ℝ → ℝ) (atan2 : ℝ → ℝ → ℝ) (floor : ℝ → ℤ)
    (pi infinity : ℝ) :
    Game.gameLoop ⟨Real.sqrt, sin, cos, atan2, floor, pi, infinity⟩ Scenario.lastLife =
    { (Scenario.playing
        { Paddle.new 325 540 150 22 with glowIntensity := 3 / 100 }
        []
        [{ Brick.new 100 100 BrickType.normal 1 with
            hitPoints := 0, shakeIntensity := 3, destroyed := true }] 0 : Game ℝ) with
      state := GameState.levelComplete, score := 160, maxCombo := 1, bricksRemaining := 0,
      randomIndex := 1, highScores := [{ score := 10, level := 1, date := "" }],
      overlay := some Overlay.levelCompleteScreen } := by
  have h0 : (Scenario.lastLife : Game ℝ).state = GameState.playing := rfl
  rw [Game.gameLoop, if_pos h0,
    update_stages _ _ _ _ lastLife_paddle (lastLife_updateBalls sin cos atan2 floor pi infinity)]
  simp [Game.updateBricks, Scenario.playing, PowerUpManager.update,
    PowerUpManager.updateFalling, PowerUpManager.tickActive, PowerUpManager.new,
    Game.checkWinCondition, Game.levelComplete, Game.calculateLevelBonus, Brick.new]
  norm_num


/-- The collision stage of the tick from `Scenario.noLifeLeft`: nothing is hit. -/
theorem noLifeLeft_collisions (sin cos : ℝ → ℝ) (atan2 : ℝ → ℝ → ℝ) (floor : ℝ → ℤ)
    (pi infinity : ℝ) :
    Game.handleBallCollisions ⟨Real.sqrt, sin, cos, atan2, floor, pi, infinity⟩
      (Scenario.playing
        { Paddle.new 325 540 150 22 with glowIntensity := 3 / 100 }
        [{ Ball.new 400 570 8 with vy := 5, launched := true }]
        [Brick.new 100 100 BrickType.normal 1] 0)
      { Ball.new 400 575 8 with
          vy := 5, launched := true, trail := [(400, 575)], glowIntensity := 1 / 20 } =
    ((Scenario.playing
        { Paddle.new 325 540 150 22 with glowIntensity := 3 / 100 }
        [{ Ball.new 400 570 8 with vy := 5, launched := true }]
        [Brick.new 100 100 BrickType.normal 1] 0 : Game ℝ),
      { Ball.new 400 575 8 with
          vy := 5, launched := true, trail := [(400, 575)], glowIntensity := 1 / 20 }) := by
  simp [Scenario.playing, Game.handleBallCollisions, Ball.handlePaddleCollision, Paddle.new,
    Ball.new, Paddle.getBounds, Utils.circleRectIntersect, Utils.clamp]
  norm_num
  simp [Game.handleBrickCollisions, Game.handleBrickCollisionsLoop, Ball.handleBrickCollision,
    Brick.new, Brick.checkCollision, Brick.getBounds, Utils.circleRectIntersect, Utils.clamp]
  norm_num
  simp [Paddle.checkLaserCollisions]

/-- The ball stage of the tick from `Scenario.noLifeLeft`: the life counter drops to -1. -/
theorem noLifeLeft_updateBalls (sin cos : ℝ → ℝ) (atan2 : ℝ → ℝ → ℝ) (floor : ℝ → ℤ)
    (pi infinity : ℝ) :
    Game.updateBalls ⟨Real.sqrt, sin, cos, atan2, floor, pi, infinity⟩
      (Scenario.playing
        { Paddle.new 325 540 150 22 with glowIntensity := 3 / 100 }
        [{ Ball.new 400 570 8 with vy := 5, launched := true }]
        [Brick.new 100 100 BrickType.normal 1] 0) =
    { (Scenario.playing
        { Paddle.new 325 540 150 22 with glowIntensity := 3 / 100 }
        []
        [Brick.new 100 100 BrickType.normal 1] (-1) : Game ℝ) with
      state := GameState.gameOver, highScores := [{ score := 0, level := 1, date := "" }],
      overlay := some Overlay.gameOverScreen } := by
  have hb : Ball.update Real.sqrt ({ Ball.new 400 570 8 with vy := 5, launched := true } : Ball ℝ)
      (Scenario.playing
        { Paddle.new 325 540 150 22 with glowIntensity := 3 / 100 }
        [{ Ball.new 400 570 8 with vy := 5, launched := true }]
        [Brick.new 100 100 BrickType.normal 1] 0 : Game ℝ).canvasWidth
      (Scenario.playing
        { Paddle.new 325 540 150 22 with glowIntensity := 3 / 100 }
        [{ Ball.new 400 570 8 with vy := 5, launched := true }]
        [Brick.new 100 100 BrickType.normal 1] 0 : Game ℝ).canvasHeight
      (Scenario.playing
        { Paddle.new 325 540 150 22 with glowIntensity := 3 / 100 }
        [{ Ball.new 400 570 8 with vy := 5, launched := true }]
        [Brick.new 100 100 BrickType.normal 1] 0 : Game ℝ).powerUpManager = _ :=
    falling_ball_update
  rw [updateBalls_single _ _ _ rfl (by rw [hb]; rfl), hb, noLifeLeft_collisions]
  simp [Ball.isBelowPaddle, Ball.new, Paddle.new, Scenario.playing, Game.loseLife,
    Game.gameOver, Game.saveHighScore]
  norm_num

/-- The paddle stage of the tick from `Scenario.noLifeLeft`. -/
theorem noLifeLeft_paddle :
    ({ (Scenario.noLifeLeft : Game ℝ) with
        paddleController :=
          ((Scenario.noLifeLeft : Game ℝ).paddleController.update
            (Scenario.noLifeLeft : Game ℝ).paddle).1,
        paddle :=
          ((Scenario.noLifeLeft : Game ℝ).paddleController.update
            (Scenario.noLifeLeft : Game ℝ).paddle).2.update
              (Scenario.noLifeLeft : Game ℝ).canvasWidth
              (Scenario.noLifeLeft : Game ℝ).powerUpManager } : Game ℝ) =
      (Scenario.playing
        { Paddle.new 325 540 150 22 with glowIntensity := 3 / 100 }
        [{ Ball.new 400 570 8 with vy := 5, launched := true }]
        [Brick.new 100 100 BrickType.normal 1] 0 : Game ℝ) := by
  simp [Scenario.noLifeLeft, Scenario.playing, PaddleController.new, PaddleController.update,
    Paddle.new, Paddle.update, Paddle.updateGlow, Paddle.applyPowerUpEffects,
    Paddle.updateLasers, PowerUpManager.new, PowerUpManager.getEffectValue,
    PowerUpManager.hasEffect, Utils.clamp, EffectValue.toNumber]
  norm_num

/-- One pass of the game loop from `Scenario.noLifeLeft`. -/
theorem noLifeLeft_tick (sin cos : ℝ → ℝ) (atan2 : ℝ → ℝ → ℝ) (floor : ℝ → ℤ)
    (pi infinity : ℝ) :
    (Game.gameLoop ⟨Real.sqrt, sin, cos, atan2, floor, pi, infinity⟩
      Scenario.noLifeLeft).lives = -1 ∧
    (Game.gameLoop ⟨Real.sqrt, sin, cos, atan2, floor, pi, infinity⟩
      Scenario.noLifeLeft).state = GameState.gameOver := by
  have h0 : (Scenario.noLifeLeft : Game ℝ).state = GameState.playing := rfl
  rw [Game.gameLoop, if_pos h0,
    update_stages _ _ _ _ noLifeLeft_paddle
      (noLifeLeft_updateBalls sin cos atan2 floor pi infinity)]
  simp [Game.updateBricks, Scenario.playing, PowerUpManager.update,
    PowerUpManager.updateFalling, PowerUpManager.tickActive, PowerUpManager.new,
    Game.checkWinCondition, Brick.new, Brick.update, Brick.updateGlow, Brick.updateShake,
    Brick.updateMoving, Brick.updateRegenerating]
  norm_num
  simp


/-- C13: the win check at the end of a tick is not guarded by the state.  From
`Scenario.lastLife` (playing, one life, the only ball already under the paddle, a laser about
to destroy the last brick) the ball stage of the tick ends in `gameOver` with score 10, and the
whole pass of the game loop ends in `levelComplete` with the level bonus 150 added, no life
left, the high score 10 stored by `gameOver` and the level-complete screen shown; in general
`checkWinCondition` applied in the `gameOver` state with no breakable brick left enters
`levelComplete` and adds the bonus. -/
theorem gameOver_then_levelComplete (sin cos : ℝ → ℝ) (atan2 : ℝ → ℝ → ℝ) (floor : ℝ → ℤ)
    (pi infinity : ℝ) :
    (Scenario.lastLife : Game ℝ).state = GameState.playing ∧
    (Game.updateBalls ⟨Real.sqrt, sin, cos, atan2, floor, pi, infinity⟩
      { (Scenario.lastLife : Game ℝ) with
        paddle := (Scenario.lastLife : Game ℝ).paddle.update 800 PowerUpManager.new }).state =
      GameState.gameOver ∧
    (Game.gameLoop ⟨Real.sqrt, sin, cos, atan2, floor, pi, infinity⟩
      Scenario.lastLife).state = GameState.levelComplete ∧
    (Game.gameLoop ⟨Real.sqrt, sin, cos, atan2, floor, pi, infinity⟩
      Scenario.lastLife).score = 10 + 150 ∧
    (Game.gameLoop ⟨Real.sqrt, sin, cos, atan2, floor, pi, infinity⟩
      Scenario.lastLife).lives = 0 ∧
    (Game.gameLoop ⟨Real.sqrt, sin, cos, atan2, floor, pi, infinity⟩
      Scenario.lastLife).highScores = [{ score := 10, level := 1, date := "" }] ∧
    (Game.gameLoop ⟨Real.sqrt, sin, cos, atan2, floor, pi, infinity⟩
      Scenario.lastLife).overlay = some Overlay.levelCompleteScreen ∧
    (∀ g : Game ℝ, g.state = GameState.gameOver →
      (g.bricks.filter (fun brick =>
        !brick.destroyed && decide (brick.type ≠ BrickType.unbreakable))).length = 0 →
      g.checkWinCondition.state = GameState.levelComplete ∧
      g.checkWinCondition.score = g.score + g.calculateLevelBonus) := by
  have hp : ({ (Scenario.lastLife : Game ℝ) with
      paddle := (Scenario.lastLife : Game ℝ).paddle.update 800 PowerUpManager.new } : Game ℝ) =
      { (Scenario.lastLife : Game ℝ) with
        paddleController :=
          ((Scenario.lastLife : Game ℝ).paddleController.update
            (Scenario.lastLife : Game ℝ).paddle).1,
        paddle :=
          ((Scenario.lastLife : Game ℝ).paddleController.update
            (Scenario.lastLife : Game ℝ).paddle).2.update
              (Scenario.lastLife : Game ℝ).canvasWidth
              (Scenario.lastLife : Game ℝ).powerUpManager } := by
    simp [Scenario.lastLife, Scenario.playing, PaddleController.new, PaddleController.update]
  rw [hp, lastLife_paddle, lastLife_updateBalls, lastLife_tick]
  refine ⟨rfl, rfl, rfl, ?_, rfl, rfl, rfl, fun g _ hb => ?_⟩
  · norm_num
  · have hc : g.checkWinCondition = g.levelComplete := if_pos hb
    rw [hc]
    exact ⟨rfl, rfl⟩

/-- `Game.nextLevel` resumes play and does not touch the lives. -/
theorem nextLevel_state_lives {α : Type} [LinearOrderedField α] (M : MathOps α) (g : Game α) :
    (Game.nextLevel M g).state = GameState.playing ∧ (Game.nextLevel M g).lives = g.lives :=
  ⟨rfl, rfl⟩

/-- C14: the lives counter can become negative.  After the tick from `Scenario.lastLife` the
level-complete screen is up with no life left, and `nextLevel` resumes play with `lives = 0`;
`loseLife` always subtracts one, whatever the counter holds; and from `Scenario.noLifeLeft`
(playing with `lives = 0`, the only ball under the paddle) one pass of the game loop leaves
`lives = -1`. -/
theorem lives_negative_after_nextLevel (sin cos : ℝ → ℝ) (atan2 : ℝ → ℝ → ℝ)
    (floor : ℝ → ℤ) (pi infinity : ℝ) :
    (Game.nextLevel ⟨Real.sqrt, sin, cos, atan2, floor, pi, infinity⟩
      (Game.gameLoop ⟨Real.sqrt, sin, cos, atan2, floor, pi, infinity⟩
        Scenario.lastLife)).state = GameState.playing ∧
    (Game.nextLevel ⟨Real.sqrt, sin, cos, atan2, floor, pi, infinity⟩
      (Game.gameLoop ⟨Real.sqrt, sin, cos, atan2, floor, pi, infinity⟩
        Scenario.lastLife)).lives = 0 ∧
    (∀ (M : MathOps ℝ) (g : Game ℝ), (Game.loseLife M g).lives = g.lives - 1) ∧
    (Scenario.noLifeLeft : Game ℝ).state = GameState.playing ∧
    (Scenario.noLifeLeft : Game ℝ).lives = 0 ∧
    (Game.gameLoop ⟨Real.sqrt, sin, cos, atan2, floor, pi, infinity⟩
      Scenario.noLifeLeft).lives = -1 := by
  refine ⟨(nextLevel_state_lives _ _).1, ?_, fun M g => ?_, rfl, rfl,
    (noLifeLeft_tick sin cos atan2 floor pi infinity).1⟩
  · rw [(nextLevel_state_lives _ _).2, lastLife_tick]
    rfl
  · by_cases hl : g.lives - 1 ≤ 0
    · simp [Game.loseLife, hl, Game.gameOver, Game.saveHighScore]
    · simp [Game.loseLife, hl, Game.spawnBall]

end SessionStates

section Regeneration

variable {α : Type} [LinearOrderedField α]

/-- The glow and shake animations of `Brick.update` touch none of the fields that the moving
and regenerating behaviours read or that `regenerate` restores. -/
theorem updateGlow_updateShake_frame (b : Brick α) :
    b.updateGlow.updateShake.type = b.type ∧
    b.updateGlow.updateShake.destroyed = b.destroyed ∧
    b.updateGlow.updateShake.regenerateTimer = b.regenerateTimer ∧
    b.updateGlow.updateShake.maxHitPoints = b.maxHitPoints ∧
    b.updateGlow.updateShake.hitPoints = b.hitPoints ∧
    b.updateGlow.updateShake.x = b.x ∧
    b.updateGlow.updateShake.y = b.y ∧
    b.updateGlow.updateShake.width = b.width ∧
    b.updateGlow.updateShake.height = b.height ∧
    b.updateGlow.updateShake.properties = b.properties := by
  simp only [Brick.updateGlow, Brick.updateShake]
  split_ifs <;> simp

/-- One `Brick.update` of a destroyed regenerating brick whose timer is running: the timer
loses 16, and the brick regenerates when the new value is `≤ 0`. -/
theorem update_regenerating (b : Brick α) (t : ℤ) (ht : b.type = BrickType.regenerating)
    (hd : b.destroyed = true) (hT : b.regenerateTimer = some t) (h0 : t ≠ 0) :
    (0 < t - 16 →
      b.update.type = BrickType.regenerating ∧ b.update.destroyed = true ∧
      b.update.regenerateTimer = some (t - 16) ∧ b.update.maxHitPoints = b.maxHitPoints) ∧
    (t - 16 ≤ 0 →
      b.update.destroyed = false ∧ b.update.hitPoints = b.maxHitPoints ∧
      b.update.regenerateTimer = none) := by
  obtain ⟨h1, h2, h3, h4, -⟩ := updateGlow_updateShake_frame b
  have hm : b.updateGlow.updateShake.updateMoving = b.updateGlow.updateShake := by
    simp [Brick.updateMoving, h1, ht]
  constructor
  · intro hpos
    have hn : ¬ t - 16 ≤ 0 := not_le.mpr hpos
    simp [Brick.update, hm, Brick.updateRegenerating, h1, h2, h3, h4, ht, hd, hT, h0, hn]
  · intro hle
    simp [Brick.update, hm, Brick.updateRegenerating, h1, h2, h3, h4, ht, hd, hT, h0, hle,
      Brick.regenerate]

/-- The state of a destroyed regenerating brick after `n ≤ 312` further updates. -/
theorem regenerating_waiting (b : Brick α) (ht : b.type = BrickType.regenerating)
    (hr : b.properties.regenerateTime = some 5000) (n : ℕ) (hn : n ≤ 312) :
    (Brick.update^[n] b.destroy.1).type = BrickType.regenerating ∧
    (Brick.update^[n] b.destroy.1).destroyed = true ∧
    (Brick.update^[n] b.destroy.1).regenerateTimer = some (5000 - 16 * (n : ℤ)) ∧
    (Brick.update^[n] b.destroy.1).maxHitPoints = b.maxHitPoints := by
  induction n with
  | zero => simp [Brick.destroy, ht, hr]
  | succ k ih =>
    obtain ⟨h1, h2, h3, h4⟩ := ih (by omega)
    rw [Function.iterate_succ_apply']
    have hk : (0 : ℤ) < 5000 - 16 * (k : ℤ) - 16 := by omega
    obtain ⟨g1, g2, g3, g4⟩ :=
      (update_regenerating _ _ h1 h2 h3 (by omega)).1 hk
    have hc : (5000 : ℤ) - 16 * (k : ℤ) - 16 = 5000 - 16 * ((k + 1 : ℕ) : ℤ) := by
      push_cast
      ring
    exact ⟨g1, g2, g3.trans (by rw [hc]), g4.trans h4⟩

/-- C21: a regenerating brick (regeneration time 5000, as the constructor sets it) that is
destroyed starts its timer at 5000; each of the next 312 updates leaves it destroyed with the
timer 16 lower, and the 313th update restores it: `destroyed = false`,
`hitPoints = maxHitPoints`, timer cleared. -/
theorem regenerating_restored_at_313 (b : Brick α) (ht : b.type = BrickType.regenerating)
    (hr : b.properties.regenerateTime = some 5000) :
    b.destroy.1.destroyed = true ∧
    b.destroy.1.regenerateTimer = some 5000 ∧
    (∀ n : ℕ, n < 313 →
      (Brick.update^[n] b.destroy.1).destroyed = true ∧
      (Brick.update^[n] b.destroy.1).regenerateTimer = some (5000 - 16 * (n : ℤ))) ∧
    (Brick.update^[313] b.destroy.1).destroyed = false ∧
    (Brick.update^[313] b.destroy.1).hitPoints = b.maxHitPoints ∧
    (Brick.update^[313] b.destroy.1).regenerateTimer = none := by
  refine ⟨by simp [Brick.destroy, ht], by simp [Brick.destroy, ht, hr], fun n hn => ?_, ?_⟩
  · obtain ⟨-, h2, h3, -⟩ := regenerating_waiting b ht hr n (by omega)
    exact ⟨h2, h3⟩
  · obtain ⟨h1, h2, h3, h4⟩ := regenerating_waiting b ht hr 312 le_rfl
    have hstep : Brick.update^[313] b.destroy.1 = (Brick.update^[312] b.destroy.1).update :=
      Function.iterate_succ_apply' Brick.update 312 b.destroy.1
    rw [hstep]
    obtain ⟨g1, g2, g3⟩ := (update_regenerating _ _ h1 h2 h3 (by norm_num)).2 (by norm_num)
    exact ⟨g1, g2.trans h4, g3⟩

/-- C21, witness: the regenerating brick that `createBricks` builds (one hit point). -/
theorem regenerating_restored_at_313_witness :
    (Brick.update^[313] (Brick.new (100 : ℚ) 60 BrickType.regenerating 1).destroy.1).destroyed
      = false ∧
    (Brick.update^[313] (Brick.new (100 : ℚ) 60 BrickType.regenerating 1).destroy.1).hitPoints
      = 1 ∧
    (Brick.update^[312] (Brick.new (100 : ℚ) 60 BrickType.regenerating 1).destroy.1).destroyed
      = true :=
  have h := regenerating_restored_at_313 (Brick.new (100 : ℚ) 60 BrickType.regenerating 1)
    rfl rfl
  ⟨h.2.2.2.1, h.2.2.2.2.1, (h.2.2.1 312 (by norm_num)).1⟩

end Regeneration

section HighScores

variable {α : Type} [LinearOrderedField α]

/-- Inserting an entry into a list keeps, for every score, the order of the entries with that
score, the inserted entry coming first among its equals. -/
theorem filter_orderedInsert (a : HighScore α) (l : List (HighScore α)) (v : α) :
    (l.orderedInsert (fun a b => a.score ≥ b.score) a).filter (fun e => decide (e.score = v)) =
      (a :: l).filter (fun e => decide (e.score = v)) := by
  induction l with
  | nil => rfl
  | cons b l ih =>
    by_cases hab : a.score ≥ b.score
    · simp only [List.orderedInsert, hab, if_true]
    · have hne : b.score ≠ a.score := fun h => hab (by rw [h])
      simp only [List.orderedInsert, hab, if_false]
      by_cases hav : a.score = v
      · have hbv : ¬ b.score = v := fun h => hne (h.trans hav.symm)
        rw [List.filter_cons_of_neg (by simpa using hbv), ih,
          List.filter_cons_of_pos (by simpa using hav),
          List.filter_cons_of_pos (by simpa using hav),
          List.filter_cons_of_neg (by simpa using hbv)]
      · by_cases hbv : b.score = v
        · rw [List.filter_cons_of_pos (by simpa using hbv), ih,
            List.filter_cons_of_neg (by simpa using hav),
            List.filter_cons_of_neg (by simpa using hav),
            List.filter_cons_of_pos (by simpa using hbv)]
        · rw [List.filter_cons_of_neg (by simpa using hbv), ih,
            List.filter_cons_of_neg (by simpa using hav),
            List.filter_cons_of_neg (by simpa using hav),
            List.filter_cons_of_neg (by simpa using hbv)]

/-- The sort of `saveHighScore` is stable: entries with equal scores keep their order. -/
theorem filter_insertionSort (l : List (HighScore α)) (v : α) :
    (l.insertionSort (fun a b => a.score ≥ b.score)).filter (fun e => decide (e.score = v)) =
      l.filter (fun e => decide (e.score = v)) := by
  induction l with
  | nil => rfl
  | cons a l ih =>
    rw [List.insertionSort, filter_orderedInsert]
    by_cases hav : a.score = v
    · rw [List.filter_cons_of_pos (by simpa using hav), ih,
        List.filter_cons_of_pos (by simpa using hav)]
    · rw [List.filter_cons_of_neg (by simpa using hav), ih,
        List.filter_cons_of_neg (by simpa using hav)]

/-- Loading what `saveToStorage` has just stored under the same key gives the data back, when
the encoding succeeds, is not the empty string and is decoded to the data. -/
theorem loadFromStorage_saveToStorage {δ : Type} (stringify : δ → Option String)
    (parse : String → Option δ) (storage : String → Option String) (key text : String)
    (data defaultValue : δ) (hs : stringify data = some text) (hne : text ≠ "")
    (hp : parse text = some data) :
    Utils.loadFromStorage parse (Utils.saveToStorage stringify storage key data) key
      defaultValue = data := by
  simp [Utils.loadFromStorage, Utils.saveToStorage, hs, hne, hp]

/-- C22: after `saveHighScore` the list is sorted by descending score and has at most ten
entries; it is the first ten of the stable descending sort of the previous entries followed by
the new `(score, level, date)` entry, i.e. of the one arrangement of these entries that is
sorted and keeps entries of equal score in their previous order with the new entry last; and
loading the key `highScores` after the write that ends `saveHighScore` gives the same list back
whenever the encoding of the list succeeds, is not empty and decodes to the list. -/
theorem saveHighScore_spec (g : Game α) :
    g.saveHighScore.highScores.Sorted (fun a b => a.score ≥ b.score) ∧
    g.saveHighScore.highScores.length ≤ 10 ∧
    (∃ sorted : List (HighScore α),
      sorted.Perm
        (g.highScores ++
          [({ score := g.score, level := g.level, date := g.dateString } : HighScore α)]) ∧
      sorted.Sorted (fun a b => a.score ≥ b.score) ∧
      (∀ v : α, sorted.filter (fun e => decide (e.score = v)) =
        (g.highScores ++
          [({ score := g.score, level := g.level, date := g.dateString } : HighScore α)]).filter
          (fun e => decide (e.score = v))) ∧
      g.saveHighScore.highScores = sorted.take 10) ∧
    (∀ (stringify : List (HighScore α) → Option String)
      (parse : String → Option (List (HighScore α))) (storage : String → Option String)
      (text : String), stringify g.saveHighScore.highScores = some text → text ≠ "" →
      parse text = some g.saveHighScore.highScores →
      Game.loadHighScores parse (g.saveHighScore.storeHighScores stringify storage) =
        g.saveHighScore.highScores) := by
  haveI : IsTotal (HighScore α) (fun a b => a.score ≥ b.score) :=
    ⟨fun a b => le_total b.score a.score⟩
  haveI : IsTrans (HighScore α) (fun a b => a.score ≥ b.score) :=
    ⟨fun a b c hab hbc => ge_trans hab hbc⟩
  have hsorted := List.sorted_insertionSort (fun a b : HighScore α => a.score ≥ b.score)
    (g.highScores ++
          [({ score := g.score, level := g.level, date := g.dateString } : HighScore α)])
  refine ⟨?_, ?_, ⟨_, List.perm_insertionSort _ _, hsorted, fun v => filter_insertionSort _ v,
    rfl⟩, fun stringify parse storage text hs hne hp => ?_⟩
  · exact List.Pairwise.sublist (List.take_sublist 10 _) hsorted
  · exact List.length_take_le 10 _
  · exact loadFromStorage_saveToStorage stringify parse storage "highScores" text _ [] hs hne hp

/-- C22, witness: a score of 10 at level 2 saved over the entries 30 and 10 goes last, behind
the older entry with the same score, and the list survives the round trip through a storage
whose encoding of it is the text `x`. -/
theorem saveHighScore_spec_witness :
    ({ (Scenario.playing (Paddle.new 325 540 150 22) [] [] 0 : Game ℚ) with
        score := 10, level := 2,
        highScores := [{ score := 30, level := 3, date := "a" },
          { score := 10, level := 1, date := "b" }] } : Game ℚ).saveHighScore.highScores =
      [{ score := 30, level := 3, date := "a" }, { score := 10, level := 1, date := "b" },
        { score := 10, level := 2, date := "" }] ∧
    Game.loadHighScores
      (fun _ => some ([{ score := 30, level := 3, date := "a" },
        { score := 10, level := 1, date := "b" }, { score := 10, level := 2, date := "" }] :
        List (HighScore ℚ)))
      (({ (Scenario.playing (Paddle.new 325 540 150 22) [] [] 0 : Game ℚ) with
        score := 10, level := 2,
        highScores := [{ score := 30, level := 3, date := "a" },
          { score := 10, level := 1, date := "b" }] } : Game ℚ).saveHighScore.storeHighScores
        (fun _ => some "x") (fun _ => none)) =
      [{ score := 30, level := 3, date := "a" }, { score := 10, level := 1, date := "b" },
        { score := 10, level := 2, date := "" }] := by
  have hv : ({ (Scenario.playing (Paddle.new 325 540 150 22) [] [] 0 : Game ℚ) with
        score := 10, level := 2,
        highScores := [{ score := 30, level := 3, date := "a" },
          { score := 10, level := 1, date := "b" }] } : Game ℚ).saveHighScore.highScores =
      [{ score := 30, level := 3, date := "a" }, { score := 10, level := 1, date := "b" },
        { score := 10, level := 2, date := "" }] := by
    simp [Game.saveHighScore, Scenario.playing, List.insertionSort, List.orderedInsert]
    norm_num
  refine ⟨hv, ?_⟩
  have h := (saveHighScore_spec
    ({ (Scenario.playing (Paddle.new 325 540 150 22) [] [] 0 : Game ℚ) with
        score := 10, level := 2,
        highScores := [{ score := 30, level := 3, date := "a" },
          { score := 10, level := 1, date := "b" }] } : Game ℚ)).2.2.2
    (fun _ => some "x")
    (fun _ => some [{ score := 30, level := 3, date := "a" },
      { score := 10, level := 1, date := "b" }, { score := 10, level := 2, date := "" }])
    (fun _ => none) "x" rfl (by decide) (by rw [hv])
  exact h.trans hv

end HighScores

section CircleRect

/-- On a segment `[lo, lo + len]` the point nearest to `c` is at distance
`max (|c - lo - len / 2| - len / 2) 0` from it. -/
theorem segment_nearest (c lo len : ℝ) (hlen : 0 ≤ len) :
    (∃ p : ℝ, lo ≤ p ∧ p ≤ lo + len ∧ |p - c| = max (|c - lo - len / 2| - len / 2) 0) ∧
    (∀ p : ℝ, lo ≤ p → p ≤ lo + len → max (|c - lo - len / 2| - len / 2) 0 ≤ |p - c|) := by
  constructor
  · rcases le_total c lo with h1 | h1
    · refine ⟨lo, le_rfl, by linarith, ?_⟩
      rw [abs_of_nonneg (by linarith), abs_of_nonpos (by linarith), max_eq_left (by linarith)]
      ring
    · rcases le_total c (lo + len) with h2 | h2
      · refine ⟨c, h1, h2, ?_⟩
        rw [sub_self, abs_zero, max_eq_right]
        rw [sub_nonpos, abs_le]
        constructor <;> linarith
      · refine ⟨lo + len, by linarith, le_rfl, ?_⟩
        rw [abs_of_nonpos (by linarith), abs_of_nonneg (by linarith),
          max_eq_left (by linarith)]
        ring
  · intro p hp1 hp2
    apply max_le _ (abs_nonneg _)
    rcases abs_cases (c - lo - len / 2) with ⟨h, _⟩ | ⟨h, _⟩ <;>
      rcases abs_cases (p - c) with ⟨h', _⟩ | ⟨h', _⟩ <;> rw [h, h'] <;> linarith

/-- The chain of tests of `Utils.circleRectIntersect`, for the two centre offsets `A`, `B` and
the half extents `a`, `b`: it holds exactly when the gaps `max (A - a) 0`, `max (B - b) 0` are
the two legs of a triangle whose hypotenuse is at most `R`. -/
theorem gap_test (A B a b R : ℝ) (hR : 0 ≤ R) :
    (if A > a + R then false
      else if B > b + R then false
      else if A ≤ a then true
      else if B ≤ b then true
      else decide ((A - a) * (A - a) + (B - b) * (B - b) ≤ R * R)) = true ↔
      max (A - a) 0 ^ 2 + max (B - b) 0 ^ 2 ≤ R ^ 2 := by
  have hu := le_max_right (A - a) 0
  have hv := le_max_right (B - b) 0
  by_cases h1 : A > a + R
  · rw [if_pos h1]
    simp only [Bool.false_eq_true, false_iff, not_le]
    rw [max_eq_left (by linarith : (0 : ℝ) ≤ A - a)]
    nlinarith [mul_pos (by linarith : (0 : ℝ) < A - a - R) (by linarith : (0 : ℝ) < A - a + R),
      sq_nonneg (max (B - b) 0)]
  · rw [if_neg h1]
    by_cases h2 : B > b + R
    · rw [if_pos h2]
      simp only [Bool.false_eq_true, false_iff, not_le]
      rw [max_eq_left (by linarith : (0 : ℝ) ≤ B - b)]
      nlinarith [mul_pos (by linarith : (0 : ℝ) < B - b - R)
        (by linarith : (0 : ℝ) < B - b + R), sq_nonneg (max (A - a) 0)]
    · rw [if_neg h2]
      push_neg at h1 h2
      have hvR : max (B - b) 0 ≤ R := max_le (by linarith) hR
      have huR : max (A - a) 0 ≤ R := max_le (by linarith) hR
      by_cases h3 : A ≤ a
      · rw [if_pos h3]
        simp only [true_iff]
        rw [max_eq_right (by linarith : A - a ≤ 0)]
        nlinarith
      · rw [if_neg h3]
        by_cases h4 : B ≤ b
        · rw [if_pos h4]
          simp only [true_iff]
          rw [max_eq_right (by linarith : B - b ≤ 0)]
          nlinarith
        · rw [if_neg h4, decide_eq_true_eq]
          push_neg at h3 h4
          rw [max_eq_left (by linarith : (0 : ℝ) ≤ A - a),
            max_eq_left (by linarith : (0 : ℝ) ≤ B - b)]
          constructor <;> intro h <;> nlinarith

/-- The test of `Utils.circleRectIntersect` compares the squared distance from the centre to
the nearest point of the rectangle with the squared radius. -/
theorem circleRectIntersect_gap (c : Circle ℝ) (r : Rect ℝ) (hr : 0 ≤ c.radius) :
    Utils.circleRectIntersect c r = true ↔
      max (|c.x - r.x - r.width / 2| - r.width / 2) 0 ^ 2 +
        max (|c.y - r.y - r.height / 2| - r.height / 2) 0 ^ 2 ≤ c.radius ^ 2 :=
  gap_test _ _ _ _ _ hr

/-- C23: for a radius, width and height that are not negative, `Utils.circleRectIntersect`
is true exactly when some point of the closed rectangle lies at Euclidean distance at most the
radius from the centre of the circle; touching counts. -/
theorem circleRectIntersect_iff (c : Circle ℝ) (r : Rect ℝ) (hr : 0 ≤ c.radius)
    (hw : 0 ≤ r.width) (hh : 0 ≤ r.height) :
    Utils.circleRectIntersect c r = true ↔
      ∃ px py : ℝ, r.x ≤ px ∧ px ≤ r.x + r.width ∧ r.y ≤ py ∧ py ≤ r.y + r.height ∧
        Real.sqrt ((px - c.x) ^ 2 + (py - c.y) ^ 2) ≤ c.radius := by
  rw [circleRectIntersect_gap c r hr]
  constructor
  · intro h
    obtain ⟨px, hx1, hx2, hx⟩ := (segment_nearest c.x r.x r.width hw).1
    obtain ⟨py, hy1, hy2, hy⟩ := (segment_nearest c.y r.y r.height hh).1
    refine ⟨px, py, hx1, hx2, hy1, hy2, ?_⟩
    rw [Real.sqrt_le_iff]
    refine ⟨hr, ?_⟩
    rw [← sq_abs (px - c.x), ← sq_abs (py - c.y), hx, hy]
    exact h
  · rintro ⟨px, py, hx1, hx2, hy1, hy2, h⟩
    rw [Real.sqrt_le_iff] at h
    have hx := (segment_nearest c.x r.x r.width hw).2 px hx1 hx2
    have hy := (segment_nearest c.y r.y r.height hh).2 py hy1 hy2
    have hx2 := pow_le_pow_left₀ (le_max_right _ _) hx 2
    have hy2 := pow_le_pow_left₀ (le_max_right _ _) hy 2
    rw [sq_abs] at hx2 hy2
    linarith [h.2]

/-- C23, witness: the circle of radius 5 centred at (13, 14) touches the corner (10, 10) of
the rectangle `[0, 10] x [0, 10]`, which is at distance exactly 5, and the test is true. -/
theorem circleRectIntersect_iff_witness :
    Utils.circleRectIntersect ({ x := 13, y := 14, radius := 5 } : Circle ℝ)
      { x := 0, y := 0, width := 10, height := 10 } = true :=
  (circleRectIntersect_iff { x := 13, y := 14, radius := 5 }
    { x := 0, y := 0, width := 10, height := 10 } (by norm_num) (by norm_num)
    (by norm_num)).mpr
    ⟨10, 10, by norm_num, by norm_num, by norm_num, by norm_num, by
      rw [Real.sqrt_le_iff]
      norm_num⟩

end CircleRect

section MovingBricks

variable {α : Type} [LinearOrderedField α]

/-- One `Brick.update` of a moving brick that is not destroyed: `x` shifts by
`moveSpeed * moveDirection`, and the direction is negated exactly when the new `x` is `≤ 0` or
the new right edge is `≥ 800`. -/
theorem update_moving (b : Brick α) (s d : α) (ht : b.type = BrickType.moving)
    (hd : b.destroyed = false) (hs : b.properties.moveSpeed = some s)
    (hdir : b.properties.moveDirection = some d) :
    b.update.x = b.x + s * d ∧
    b.update.properties.moveDirection =
      some (if b.x + s * d ≤ 0 ∨ b.x + s * d + b.width ≥ 800 then d * -1 else d) ∧
    b.update.properties.moveSpeed = some s ∧
    b.update.type = BrickType.moving ∧ b.update.destroyed = false ∧
    b.update.width = b.width := by
  obtain ⟨h1, h2, -, -, -, h6, -, h8, -, h10⟩ := updateGlow_updateShake_frame b
  have hr : ∀ c : Brick α, c.type = BrickType.moving → c.updateRegenerating = c := by
    intro c hc
    simp only [Brick.updateRegenerating, hc]
    split <;> simp
  simp only [Brick.update]
  by_cases hc : b.x + s * d ≤ 0 ∨ b.x + s * d + b.width ≥ 800
  · rw [hr _ (by simp [Brick.updateMoving, h1, h2, h6, h8, h10, ht, hd, hs, hdir, hc])]
    simp [Brick.updateMoving, h1, h2, h6, h8, h10, ht, hd, hs, hdir, hc]
  · rw [hr _ (by simp [Brick.updateMoving, h1, h2, h6, h8, h10, ht, hd, hs, hdir, hc])]
    simp [Brick.updateMoving, h1, h2, h6, h8, h10, ht, hd, hs, hdir, hc]

/-- The invariant of a moving brick of width 80 and speed 1 that started strictly inside
`0 < x < 720`: it is still there, or it has just stepped over the left edge and turned right,
or it has just reached the right edge and turned left. -/
theorem moving_invariant (b : Brick α) (d : α) (ht : b.type = BrickType.moving)
    (hd : b.destroyed = false) (hw : b.width = 80) (hs : b.properties.moveSpeed = some 1)
    (hdir : b.properties.moveDirection = some d)
    (hx : (0 < b.x ∧ b.x < 720 ∧ (d = 1 ∨ d = -1)) ∨ (-1 < b.x ∧ b.x ≤ 0 ∧ d = 1) ∨
      (720 ≤ b.x ∧ b.x < 721 ∧ d = -1)) (n : ℕ) :
    ∃ d' : α, (Brick.update^[n] b).type = BrickType.moving ∧
      (Brick.update^[n] b).destroyed = false ∧ (Brick.update^[n] b).width = 80 ∧
      (Brick.update^[n] b).properties.moveSpeed = some 1 ∧
      (Brick.update^[n] b).properties.moveDirection = some d' ∧
      ((0 < (Brick.update^[n] b).x ∧ (Brick.update^[n] b).x < 720 ∧ (d' = 1 ∨ d' = -1)) ∨
        (-1 < (Brick.update^[n] b).x ∧ (Brick.update^[n] b).x ≤ 0 ∧ d' = 1) ∨
        (720 ≤ (Brick.update^[n] b).x ∧ (Brick.update^[n] b).x < 721 ∧ d' = -1)) := by
  induction n with
  | zero => exact ⟨d, ht, hd, hw, hs, hdir, hx⟩
  | succ k ih =>
    obtain ⟨e, h1, h2, h3, h4, h5, h6⟩ := ih
    rw [Function.iterate_succ_apply']
    obtain ⟨g1, g2, g3, g4, g5, g6⟩ := update_moving _ 1 e h1 h2 h4 h5
    rw [h3] at g2 g6
    rw [one_mul] at g1 g2
    rcases h6 with ⟨ha, hb, rfl | rfl⟩ | ⟨ha, hb, rfl⟩ | ⟨ha, hb, rfl⟩
    · by_cases hc : (Brick.update^[k] b).x + 1 ≤ 0 ∨ (Brick.update^[k] b).x + 1 + 80 ≥ 800
      · rw [if_pos hc] at g2
        refine ⟨_, g4, g5, g6, g3, g2, Or.inr (Or.inr ⟨?_, ?_, by ring⟩)⟩
        · rw [g1]
          rcases hc with hc | hc <;> linarith
        · rw [g1]
          linarith
      · rw [if_neg hc] at g2
        push_neg at hc
        refine ⟨_, g4, g5, g6, g3, g2, Or.inl ⟨?_, ?_, Or.inl rfl⟩⟩
        · rw [g1]
          linarith
        · rw [g1]
          linarith [hc.2]
    · by_cases hc : (Brick.update^[k] b).x + -1 ≤ 0 ∨ (Brick.update^[k] b).x + -1 + 80 ≥ 800
      · rw [if_pos hc] at g2
        refine ⟨_, g4, g5, g6, g3, g2, Or.inr (Or.inl ⟨?_, ?_, by ring⟩)⟩
        · rw [g1]
          linarith
        · rw [g1]
          rcases hc with hc | hc <;> linarith
      · rw [if_neg hc] at g2
        push_neg at hc
        refine ⟨_, g4, g5, g6, g3, g2, Or.inl ⟨?_, ?_, Or.inr rfl⟩⟩
        · rw [g1]
          linarith [hc.1]
        · rw [g1]
          linarith
    · have hc : ¬ ((Brick.update^[k] b).x + 1 ≤ 0 ∨ (Brick.update^[k] b).x + 1 + 80 ≥ 800) := by
        push_neg
        constructor <;> linarith
      rw [if_neg hc] at g2
      refine ⟨_, g4, g5, g6, g3, g2, Or.inl ⟨?_, ?_, Or.inl rfl⟩⟩
      · rw [g1]
        linarith
      · rw [g1]
        linarith
    · have hc : ¬ ((Brick.update^[k] b).x + -1 ≤ 0 ∨
          (Brick.update^[k] b).x + -1 + 80 ≥ 800) := by
        push_neg
        constructor <;> linarith
      rw [if_neg hc] at g2
      refine ⟨_, g4, g5, g6, g3, g2, Or.inl ⟨?_, ?_, Or.inr rfl⟩⟩
      · rw [g1]
        linarith
      · rw [g1]
        linarith

/-- C24: each `Brick.update` of a moving brick that is not destroyed shifts `x` by
`moveSpeed * moveDirection` and negates the direction exactly when the new `x` is `≤ 0` or the
new `x + width` is `≥ 800`; with width 80 and speed 1 (the constructor values), a direction of
1 or -1 and `0 < x < 720` at the start, `-1 < x < 721` holds after any number of updates. -/
theorem moving_brick_bounds (b : Brick α) (ht : b.type = BrickType.moving)
    (hd : b.destroyed = false) :
    (∀ s d : α, b.properties.moveSpeed = some s → b.properties.moveDirection = some d →
      b.update.x = b.x + s * d ∧
      b.update.properties.moveDirection =
        some (if b.x + s * d ≤ 0 ∨ b.x + s * d + b.width ≥ 800 then d * -1 else d)) ∧
    (b.width = 80 → b.properties.moveSpeed = some 1 →
      ∀ d : α, b.properties.moveDirection = some d → d = 1 ∨ d = -1 → 0 < b.x → b.x < 720 →
      ∀ n : ℕ, -1 < (Brick.update^[n] b).x ∧ (Brick.update^[n] b).x < 721) := by
  refine ⟨fun s d hs hdir => ?_, fun hw hs d hdir hd1 hx0 hx1 n => ?_⟩
  · obtain ⟨g1, g2, -⟩ := update_moving b s d ht hd hs hdir
    exact ⟨g1, g2⟩
  · obtain ⟨e, -, -, -, -, -, h⟩ :=
      moving_invariant b d ht hd hw hs hdir (Or.inl ⟨hx0, hx1, hd1⟩) n
    rcases h with ⟨ha, hb, -⟩ | ⟨ha, hb, -⟩ | ⟨ha, hb, -⟩ <;> constructor <;> linarith

/-- C24, witness: the moving brick built by the constructor at `x = 719` is at `x = 720` after
one update, heading left, and within `-1 < x < 721` after a thousand updates. -/
theorem moving_brick_bounds_witness :
    (Brick.new (719 : ℚ) 60 BrickType.moving 1).update.x = 719 + 1 * 1 ∧
    (Brick.new (719 : ℚ) 60 BrickType.moving 1).update.properties.moveDirection =
      some (if (719 : ℚ) + 1 * 1 ≤ 0 ∨
        (719 : ℚ) + 1 * 1 + (Brick.new (719 : ℚ) 60 BrickType.moving 1).width ≥ 800
        then 1 * -1 else 1) ∧
    -1 < (Brick.update^[1000] (Brick.new (719 : ℚ) 60 BrickType.moving 1)).x ∧
    (Brick.update^[1000] (Brick.new (719 : ℚ) 60 BrickType.moving 1)).x < 721 :=
  have h := moving_brick_bounds (Brick.new (719 : ℚ) 60 BrickType.moving 1) rfl rfl
  ⟨(h.1 1 1 rfl rfl).1, (h.1 1 1 rfl rfl).2,
    h.2 rfl rfl 1 rfl (Or.inl rfl) (by norm_num [Brick.new]) (by norm_num [Brick.new]) 1000⟩

end MovingBricks

section RandomType

variable {α : Type} [LinearOrderedField α]

/-- The selection loop of `getRandomType` as a chain of comparisons of `100 * r` with the
cumulative weights. -/
theorem getRandomType_eq (r : α) :
    PowerUp.getRandomType r =
      if 100 * r ≤ 15 then PowerUpType.enlarge
      else if 100 * r ≤ 25 then PowerUpType.shrink
      else if 100 * r ≤ 37 then PowerUpType.speed_up
      else if 100 * r ≤ 52 then PowerUpType.slow_down
      else if 100 * r ≤ 60 then PowerUpType.multi_ball
      else if 100 * r ≤ 70 then PowerUpType.laser
      else if 100 * r ≤ 75 then PowerUpType.extra_life
      else if 100 * r ≤ 87 then PowerUpType.score_boost
      else if 100 * r ≤ 95 then PowerUpType.sticky_paddle
      else if 100 * r ≤ 100 then PowerUpType.penetrating_ball
      else PowerUpType.enlarge := by
  have e1 : r * 100 - 15 ≤ 0 ↔ 100 * r ≤ 15 := by constructor <;> intro h <;> linarith
  have e2 : r * 100 - 15 - 10 ≤ 0 ↔ 100 * r ≤ 25 := by constructor <;> intro h <;> linarith
  have e3 : r * 100 - 15 - 10 - 12 ≤ 0 ↔ 100 * r ≤ 37 := by
    constructor <;> intro h <;> linarith
  have e4 : r * 100 - 15 - 10 - 12 - 15 ≤ 0 ↔ 100 * r ≤ 52 := by
    constructor <;> intro h <;> linarith
  have e5 : r * 100 - 15 - 10 - 12 - 15 - 8 ≤ 0 ↔ 100 * r ≤ 60 := by
    constructor <;> intro h <;> linarith
  have e6 : r * 100 - 15 - 10 - 12 - 15 - 8 - 10 ≤ 0 ↔ 100 * r ≤ 70 := by
    constructor <;> intro h <;> linarith
  have e7 : r * 100 - 15 - 10 - 12 - 15 - 8 - 10 - 5 ≤ 0 ↔ 100 * r ≤ 75 := by
    constructor <;> intro h <;> linarith
  have e8 : r * 100 - 15 - 10 - 12 - 15 - 8 - 10 - 5 - 12 ≤ 0 ↔ 100 * r ≤ 87 := by
    constructor <;> intro h <;> linarith
  have e9 : r * 100 - 15 - 10 - 12 - 15 - 8 - 10 - 5 - 12 - 8 ≤ 0 ↔ 100 * r ≤ 95 := by
    constructor <;> intro h <;> linarith
  have e10 : r * 100 - 15 - 10 - 12 - 15 - 8 - 10 - 5 - 12 - 8 - 5 ≤ 0 ↔ 100 * r ≤ 100 := by
    constructor <;> intro h <;> linarith
  have ht : ((PowerUp.types.map PowerUp.weights).foldl (fun sum weight => sum + weight)
      (0 : α)) = 100 := by
    simp only [PowerUp.types, List.map, List.foldl, PowerUp.weights]
    norm_num
  simp only [PowerUp.getRandomType, ht]
  simp only [PowerUp.types, PowerUp.getRandomTypeLoop, PowerUp.weights, e1, e2, e3, e4, e5, e6,
    e7, e8, e9, e10]

/-- The draw lies in the interval of exactly one kind, which is the kind returned. -/
theorem getRandomType_cases (r : α) (hr : 100 * r ≤ 100) :
    (100 * r ≤ 15 ∧ PowerUp.getRandomType r = PowerUpType.enlarge) ∨
    (15 < 100 * r ∧ 100 * r ≤ 25 ∧ PowerUp.getRandomType r = PowerUpType.shrink) ∨
    (25 < 100 * r ∧ 100 * r ≤ 37 ∧ PowerUp.getRandomType r = PowerUpType.speed_up) ∨
    (37 < 100 * r ∧ 100 * r ≤ 52 ∧ PowerUp.getRandomType r = PowerUpType.slow_down) ∨
    (52 < 100 * r ∧ 100 * r ≤ 60 ∧ PowerUp.getRandomType r = PowerUpType.multi_ball) ∨
    (60 < 100 * r ∧ 100 * r ≤ 70 ∧ PowerUp.getRandomType r = PowerUpType.laser) ∨
    (70 < 100 * r ∧ 100 * r ≤ 75 ∧ PowerUp.getRandomType r = PowerUpType.extra_life) ∨
    (75 < 100 * r ∧ 100 * r ≤ 87 ∧ PowerUp.getRandomType r = PowerUpType.score_boost) ∨
    (87 < 100 * r ∧ 100 * r ≤ 95 ∧ PowerUp.getRandomType r = PowerUpType.sticky_paddle) ∨
    (95 < 100 * r ∧ 100 * r ≤ 100 ∧ PowerUp.getRandomType r = PowerUpType.penetrating_ball) := by
  rw [getRandomType_eq]
  by_cases h15 : 100 * r ≤ 15
  · rw [if_pos h15]
    exact Or.inl ⟨h15, rfl⟩
  · rw [if_neg h15]
    by_cases h25 : 100 * r ≤ 25
    · rw [if_pos h25]
      exact Or.inr (Or.inl ⟨not_le.mp h15, h25, rfl⟩)
    · rw [if_neg h25]
      by_cases h37 : 100 * r ≤ 37
      · rw [if_pos h37]
        exact Or.inr (Or.inr (Or.inl ⟨not_le.mp h25, h37, rfl⟩))
      · rw [if_neg h37]
        by_cases h52 : 100 * r ≤ 52
        · rw [if_pos h52]
          exact Or.inr (Or.inr (Or.inr (Or.inl ⟨not_le.mp h37, h52, rfl⟩)))
        · rw [if_neg h52]
          by_cases h60 : 100 * r ≤ 60
          · rw [if_pos h60]
            exact Or.inr (Or.inr (Or.inr (Or.inr (Or.inl ⟨not_le.mp h52, h60, rfl⟩))))
          · rw [if_neg h60]
            by_cases h70 : 100 * r ≤ 70
            · rw [if_pos h70]
              exact Or.inr (Or.inr (Or.inr (Or.inr (Or.inr (Or.inl ⟨not_le.mp h60, h70, rfl⟩)))))
            · rw [if_neg h70]
              by_cases h75 : 100 * r ≤ 75
              · rw [if_pos h75]
                exact Or.inr (Or.inr (Or.inr (Or.inr (Or.inr (Or.inr (Or.inl ⟨not_le.mp h70, h75,
                  rfl⟩))))))
              · rw [if_neg h75]
                by_cases h87 : 100 * r ≤ 87
                · rw [if_pos h87]
                  exact Or.inr (Or.inr (Or.inr (Or.inr (Or.inr (Or.inr (Or.inr (Or.inl ⟨not_le.mp
                    h75, h87, rfl⟩)))))))
                · rw [if_neg h87]
                  by_cases h95 : 100 * r ≤ 95
                  · rw [if_pos h95]
                    exact Or.inr (Or.inr (Or.inr (Or.inr (Or.inr (Or.inr (Or.inr (Or.inr (Or.inl
                      ⟨not_le.mp h87, h95, rfl⟩))))))))
                  · rw [if_neg h95]
                    rw [if_pos hr]
                    exact Or.inr (Or.inr (Or.inr (Or.inr (Or.inr (Or.inr (Or.inr (Or.inr (Or.inr
                      (⟨not_le.mp h95, hr, rfl⟩)))))))))

/-- The draws on which `getRandomType` returns `enlarge`. -/
theorem getRandomType_enlarge (r : α) (hr : 100 * r ≤ 100) :
    PowerUp.getRandomType r = PowerUpType.enlarge ↔ 100 * r ≤ 15 := by
  constructor
  · intro h
    rcases getRandomType_cases r hr with
      ⟨h1, hv⟩ | ⟨h1, h2, hv⟩ | ⟨h1, h2, hv⟩ | ⟨h1, h2, hv⟩ | ⟨h1, h2, hv⟩ | ⟨h1, h2, hv⟩ | ⟨h1,
        h2, hv⟩ | ⟨h1, h2, hv⟩ | ⟨h1, h2, hv⟩ | ⟨h1, h2, hv⟩
    · exact h1
    · rw [hv] at h
      cases h
    · rw [hv] at h
      cases h
    · rw [hv] at h
      cases h
    · rw [hv] at h
      cases h
    · rw [hv] at h
      cases h
    · rw [hv] at h
      cases h
    · rw [hv] at h
      cases h
    · rw [hv] at h
      cases h
    · rw [hv] at h
      cases h
  · intro h
    have hb := h
    rw [getRandomType_eq, if_pos hb]

/-- The draws on which `getRandomType` returns `shrink`. -/
theorem getRandomType_shrink (r : α) (hr : 100 * r ≤ 100) :
    PowerUp.getRandomType r = PowerUpType.shrink ↔ 15 < 100 * r ∧ 100 * r ≤ 25 := by
  constructor
  · intro h
    rcases getRandomType_cases r hr with
      ⟨h1, hv⟩ | ⟨h1, h2, hv⟩ | ⟨h1, h2, hv⟩ | ⟨h1, h2, hv⟩ | ⟨h1, h2, hv⟩ | ⟨h1, h2, hv⟩ | ⟨h1,
        h2, hv⟩ | ⟨h1, h2, hv⟩ | ⟨h1, h2, hv⟩ | ⟨h1, h2, hv⟩
    · rw [hv] at h
      cases h
    · exact ⟨h1, h2⟩
    · rw [hv] at h
      cases h
    · rw [hv] at h
      cases h
    · rw [hv] at h
      cases h
    · rw [hv] at h
      cases h
    · rw [hv] at h
      cases h
    · rw [hv] at h
      cases h
    · rw [hv] at h
      cases h
    · rw [hv] at h
      cases h
  · intro h
    obtain ⟨ha, hb⟩ := h
    have n15 : ¬ 100 * r ≤ 15 := by linarith
    rw [getRandomType_eq, if_neg n15, if_pos hb]

/-- The draws on which `getRandomType` returns `speed_up`. -/
theorem getRandomType_speed_up (r : α) (hr : 100 * r ≤ 100) :
    PowerUp.getRandomType r = PowerUpType.speed_up ↔ 25 < 100 * r ∧ 100 * r ≤ 37 := by
  constructor
  · intro h
    rcases getRandomType_cases r hr with
      ⟨h1, hv⟩ | ⟨h1, h2, hv⟩ | ⟨h1, h2, hv⟩ | ⟨h1, h2, hv⟩ | ⟨h1, h2, hv⟩ | ⟨h1, h2, hv⟩ | ⟨h1,
        h2, hv⟩ | ⟨h1, h2, hv⟩ | ⟨h1, h2, hv⟩ | ⟨h1, h2, hv⟩
    · rw [hv] at h
      cases h
    · rw [hv] at h
      cases h
    · exact ⟨h1, h2⟩
    · rw [hv] at h
      cases h
    · rw [hv] at h
      cases h
    · rw [hv] at h
      cases h
    · rw [hv] at h
      cases h
    · rw [hv] at h
      cases h
    · rw [hv] at h
      cases h
    · rw [hv] at h
      cases h
  · intro h
    obtain ⟨ha, hb⟩ := h
    have n15 : ¬ 100 * r ≤ 15 := by linarith
    have n25 : ¬ 100 * r ≤ 25 := by linarith
    rw [getRandomType_eq, if_neg n15, if_neg n25, if_pos hb]

/-- The draws on which `getRandomType` returns `slow_down`. -/
theorem getRandomType_slow_down (r : α) (hr : 100 * r ≤ 100) :
    PowerUp.getRandomType r = PowerUpType.slow_down ↔ 37 < 100 * r ∧ 100 * r ≤ 52 := by
  constructor
  · intro h
    rcases getRandomType_cases r hr with
      ⟨h1, hv⟩ | ⟨h1, h2, hv⟩ | ⟨h1, h2, hv⟩ | ⟨h1, h2, hv⟩ | ⟨h1, h2, hv⟩ | ⟨h1, h2, hv⟩ | ⟨h1,
        h2, hv⟩ | ⟨h1, h2, hv⟩ | ⟨h1, h2, hv⟩ | ⟨h1, h2, hv⟩
    · rw [hv] at h
      cases h
    · rw [hv] at h
      cases h
    · rw [hv] at h
      cases h
    · exact ⟨h1, h2⟩
    · rw [hv] at h
      cases h
    · rw [hv] at h
      cases h
    · rw [hv] at h
      cases h
    · rw [hv] at h
      cases h
    · rw [hv] at h
      cases h
    · rw [hv] at h
      cases h
  · intro h
    obtain ⟨ha, hb⟩ := h
    have n15 : ¬ 100 * r ≤ 15 := by linarith
    have n25 : ¬ 100 * r ≤ 25 := by linarith
    have n37 : ¬ 100 * r ≤ 37 := by linarith
    rw [getRandomType_eq, if_neg n15, if_neg n25, if_neg n37, if_pos hb]

/-- The draws on which `getRandomType` returns `multi_ball`. -/
theorem getRandomType_multi_ball (r : α) (hr : 100 * r ≤ 100) :
    PowerUp.getRandomType r = PowerUpType.multi_ball ↔ 52 < 100 * r ∧ 100 * r ≤ 60 := by
  constructor
  · intro h
    rcases getRandomType_cases r hr with
      ⟨h1, hv⟩ | ⟨h1, h2, hv⟩ | ⟨h1, h2, hv⟩ | ⟨h1, h2, hv⟩ | ⟨h1, h2, hv⟩ | ⟨h1, h2, hv⟩ | ⟨h1,
        h2, hv⟩ | ⟨h1, h2, hv⟩ | ⟨h1, h2, hv⟩ | ⟨h1, h2, hv⟩
    · rw [hv] at h
      cases h
    · rw [hv] at h
      cases h
    · rw [hv] at h
      cases h
    · rw [hv] at h
      cases h
    · exact ⟨h1, h2⟩
    · rw [hv] at h
      cases h
    · rw [hv] at h
      cases h
    · rw [hv] at h
      cases h
    · rw [hv] at h
      cases h
    · rw [hv] at h
      cases h
  · intro h
    obtain ⟨ha, hb⟩ := h
    have n15 : ¬ 100 * r ≤ 15 := by linarith
    have n25 : ¬ 100 * r ≤ 25 := by linarith
    have n37 : ¬ 100 * r ≤ 37 := by linarith
    have n52 : ¬ 100 * r ≤ 52 := by linarith
    rw [getRandomType_eq, if_neg n15, if_neg n25, if_neg n37, if_neg n52, if_pos hb]

/-- The draws on which `getRandomType` returns `laser`. -/
theorem getRandomType_laser (r : α) (hr : 100 * r ≤ 100) :
    PowerUp.getRandomType r = PowerUpType.laser ↔ 60 < 100 * r ∧ 100 * r ≤ 70 := by
  constructor
  · intro h
    rcases getRandomType_cases r hr with
      ⟨h1, hv⟩ | ⟨h1, h2, hv⟩ | ⟨h1, h2, hv⟩ | ⟨h1, h2, hv⟩ | ⟨h1, h2, hv⟩ | ⟨h1, h2, hv⟩ | ⟨h1,
        h2, hv⟩ | ⟨h1, h2, hv⟩ | ⟨h1, h2, hv⟩ | ⟨h1, h2, hv⟩
    · rw [hv] at h
      cases h
    · rw [hv] at h
      cases h
    · rw [hv] at h
      cases h
    · rw [hv] at h
      cases h
    · rw [hv] at h
      cases h
    · exact ⟨h1, h2⟩
    · rw [hv] at h
      cases h
    · rw [hv] at h
      cases h
    · rw [hv] at h
      cases h
    · rw [hv] at h
      cases h
  · intro h
    obtain ⟨ha, hb⟩ := h
    have n15 : ¬ 100 * r ≤ 15 := by linarith
    have n25 : ¬ 100 * r ≤ 25 := by linarith
    have n37 : ¬ 100 * r ≤ 37 := by linarith
    have n52 : ¬ 100 * r ≤ 52 := by linarith
    have n60 : ¬ 100 * r ≤ 60 := by linarith
    rw [getRandomType_eq, if_neg n15, if_neg n25, if_neg n37, if_neg n52, if_neg n60, if_pos hb]

/-- The draws on which `getRandomType` returns `extra_life`. -/
theorem getRandomType_extra_life (r : α) (hr : 100 * r ≤ 100) :
    PowerUp.getRandomType r = PowerUpType.extra_life ↔ 70 < 100 * r ∧ 100 * r ≤ 75 := by
  constructor
  · intro h
    rcases getRandomType_cases r hr with
      ⟨h1, hv⟩ | ⟨h1, h2, hv⟩ | ⟨h1, h2, hv⟩ | ⟨h1, h2, hv⟩ | ⟨h1, h2, hv⟩ | ⟨h1, h2, hv⟩ | ⟨h1,
        h2, hv⟩ | ⟨h1, h2, hv⟩ | ⟨h1, h2, hv⟩ | ⟨h1, h2, hv⟩
    · rw [hv] at h
      cases h
    · rw [hv] at h
      cases h
    · rw [hv] at h
      cases h
    · rw [hv] at h
      cases h
    · rw [hv] at h
      cases h
    · rw [hv] at h
      cases h
    · exact ⟨h1, h2⟩
    · rw [hv] at h
      cases h
    · rw [hv] at h
      cases h
    · rw [hv] at h
      cases h
  · intro h
    obtain ⟨ha, hb⟩ := h
    have n15 : ¬ 100 * r ≤ 15 := by linarith
    have n25 : ¬ 100 * r ≤ 25 := by linarith
    have n37 : ¬ 100 * r ≤ 37 := by linarith
    have n52 : ¬ 100 * r ≤ 52 := by linarith
    have n60 : ¬ 100 * r ≤ 60 := by linarith
    have n70 : ¬ 100 * r ≤ 70 := by linarith
    rw [getRandomType_eq, if_neg n15, if_neg n25, if_neg n37, if_neg n52, if_neg n60, if_neg n70,
      if_pos hb]

/-- The draws on which `getRandomType` returns `score_boost`. -/
theorem getRandomType_score_boost (r : α) (hr : 100 * r ≤ 100) :
    PowerUp.getRandomType r = PowerUpType.score_boost ↔ 75 < 100 * r ∧ 100 * r ≤ 87 := by
  constructor
  · intro h
    rcases getRandomType_cases r hr with
      ⟨h1, hv⟩ | ⟨h1, h2, hv⟩ | ⟨h1, h2, hv⟩ | ⟨h1, h2, hv⟩ | ⟨h1, h2, hv⟩ | ⟨h1, h2, hv⟩ | ⟨h1,
        h2, hv⟩ | ⟨h1, h2, hv⟩ | ⟨h1, h2, hv⟩ | ⟨h1, h2, hv⟩
    · rw [hv] at h
      cases h
    · rw [hv] at h
      cases h
    · rw [hv] at h
      cases h
    · rw [hv] at h
      cases h
    · rw [hv] at h
      cases h
    · rw [hv] at h
      cases h
    · rw [hv] at h
      cases h
    · exact ⟨h1, h2⟩
    · rw [hv] at h
      cases h
    · rw [hv] at h
      cases h
  · intro h
    obtain ⟨ha, hb⟩ := h
    have n15 : ¬ 100 * r ≤ 15 := by linarith
    have n25 : ¬ 100 * r ≤ 25 := by linarith
    have n37 : ¬ 100 * r ≤ 37 := by linarith
    have n52 : ¬ 100 * r ≤ 52 := by linarith
    have n60 : ¬ 100 * r ≤ 60 := by linarith
    have n70 : ¬ 100 * r ≤ 70 := by linarith
    have n75 : ¬ 100 * r ≤ 75 := by linarith
    rw [getRandomType_eq, if_neg n15, if_neg n25, if_neg n37, if_neg n52, if_neg n60, if_neg n70,
      if_neg n75, if_pos hb]

/-- The draws on which `getRandomType` returns `sticky_paddle`. -/
theorem getRandomType_sticky_paddle (r : α) (hr : 100 * r ≤ 100) :
    PowerUp.getRandomType r = PowerUpType.sticky_paddle ↔ 87 < 100 * r ∧ 100 * r ≤ 95 := by
  constructor
  · intro h
    rcases getRandomType_cases r hr with
      ⟨h1, hv⟩ | ⟨h1, h2, hv⟩ | ⟨h1, h2, hv⟩ | ⟨h1, h2, hv⟩ | ⟨h1, h2, hv⟩ | ⟨h1, h2, hv⟩ | ⟨h1,
        h2, hv⟩ | ⟨h1, h2, hv⟩ | ⟨h1, h2, hv⟩ | ⟨h1, h2, hv⟩
    · rw [hv] at h
      cases h
    · rw [hv] at h
      cases h
    · rw [hv] at h
      cases h
    · rw [hv] at h
      cases h
    · rw [hv] at h
      cases h
    · rw [hv] at h
      cases h
    · rw [hv] at h
      cases h
    · rw [hv] at h
      cases h
    · exact ⟨h1, h2⟩
    · rw [hv] at h
      cases h
  · intro h
    obtain ⟨ha, hb⟩ := h
    have n15 : ¬ 100 * r ≤ 15 := by linarith
    have n25 : ¬ 100 * r ≤ 25 := by linarith
    have n37 : ¬ 100 * r ≤ 37 := by linarith
    have n52 : ¬ 100 * r ≤ 52 := by linarith
    have n60 : ¬ 100 * r ≤ 60 := by linarith
    have n70 : ¬ 100 * r ≤ 70 := by linarith
    have n75 : ¬ 100 * r ≤ 75 := by linarith
    have n87 : ¬ 100 * r ≤ 87 := by linarith
    rw [getRandomType_eq, if_neg n15, if_neg n25, if_neg n37, if_neg n52, if_neg n60, if_neg n70,
      if_neg n75, if_neg n87, if_pos hb]

/-- The draws on which `getRandomType` returns `penetrating_ball`. -/
theorem getRandomType_penetrating_ball (r : α) (hr : 100 * r ≤ 100) :
    PowerUp.getRandomType r = PowerUpType.penetrating_ball ↔ 95 < 100 * r ∧ 100 * r ≤ 100 := by
  constructor
  · intro h
    rcases getRandomType_cases r hr with
      ⟨h1, hv⟩ | ⟨h1, h2, hv⟩ | ⟨h1, h2, hv⟩ | ⟨h1, h2, hv⟩ | ⟨h1, h2, hv⟩ | ⟨h1, h2, hv⟩ | ⟨h1,
        h2, hv⟩ | ⟨h1, h2, hv⟩ | ⟨h1, h2, hv⟩ | ⟨h1, h2, hv⟩
    · rw [hv] at h
      cases h
    · rw [hv] at h
      cases h
    · rw [hv] at h
      cases h
    · rw [hv] at h
      cases h
    · rw [hv] at h
      cases h
    · rw [hv] at h
      cases h
    · rw [hv] at h
      cases h
    · rw [hv] at h
      cases h
    · rw [hv] at h
      cases h
    · exact ⟨h1, h2⟩
  · intro h
    obtain ⟨ha, hb⟩ := h
    have n15 : ¬ 100 * r ≤ 15 := by linarith
    have n25 : ¬ 100 * r ≤ 25 := by linarith
    have n37 : ¬ 100 * r ≤ 37 := by linarith
    have n52 : ¬ 100 * r ≤ 52 := by linarith
    have n60 : ¬ 100 * r ≤ 60 := by linarith
    have n70 : ¬ 100 * r ≤ 70 := by linarith
    have n75 : ¬ 100 * r ≤ 75 := by linarith
    have n87 : ¬ 100 * r ≤ 87 := by linarith
    have n95 : ¬ 100 * r ≤ 95 := by linarith
    rw [getRandomType_eq, if_neg n15, if_neg n25, if_neg n37, if_neg n52, if_neg n60, if_neg n70,
      if_neg n75, if_neg n87, if_neg n95, if_pos hb]

/-- C25: the weights total 100, and for a draw `r` in `[0, 1)` `getRandomType` returns the
first kind in catalogue order whose cumulative weight (15, 25, 37, 52, 60, 70, 75, 87, 95, 100)
is at least `100 * r`, so each kind is returned on an interval of length weight / 100; the
fallback after the loop is taken only for `100 * r > 100`. -/
theorem getRandomType_intervals (r : α) (h0 : 0 ≤ r) (h1 : r < 1) :
    (PowerUp.types.map PowerUp.weights).foldl (fun sum weight => sum + weight) (0 : α) = 100 ∧
    0 ≤ 100 * r ∧ 100 * r < 100 ∧
    (PowerUp.getRandomType r = PowerUpType.enlarge ↔ 100 * r ≤ 15) ∧
    (PowerUp.getRandomType r = PowerUpType.shrink ↔ 15 < 100 * r ∧ 100 * r ≤ 25) ∧
    (PowerUp.getRandomType r = PowerUpType.speed_up ↔ 25 < 100 * r ∧ 100 * r ≤ 37) ∧
    (PowerUp.getRandomType r = PowerUpType.slow_down ↔ 37 < 100 * r ∧ 100 * r ≤ 52) ∧
    (PowerUp.getRandomType r = PowerUpType.multi_ball ↔ 52 < 100 * r ∧ 100 * r ≤ 60) ∧
    (PowerUp.getRandomType r = PowerUpType.laser ↔ 60 < 100 * r ∧ 100 * r ≤ 70) ∧
    (PowerUp.getRandomType r = PowerUpType.extra_life ↔ 70 < 100 * r ∧ 100 * r ≤ 75) ∧
    (PowerUp.getRandomType r = PowerUpType.score_boost ↔ 75 < 100 * r ∧ 100 * r ≤ 87) ∧
    (PowerUp.getRandomType r = PowerUpType.sticky_paddle ↔ 87 < 100 * r ∧ 100 * r ≤ 95) ∧
    (PowerUp.getRandomType r = PowerUpType.penetrating_ball ↔
      95 < 100 * r ∧ 100 * r ≤ 100) ∧
    (∀ q : α, 100 < 100 * q →
      PowerUp.getRandomType q = PowerUp.getRandomTypeLoop (q * 100 - 100) []) := by
  have ht : ((PowerUp.types.map PowerUp.weights).foldl (fun sum weight => sum + weight)
      (0 : α)) = 100 := by
    simp only [PowerUp.types, List.map, List.foldl, PowerUp.weights]
    norm_num
  have hr : 100 * r ≤ 100 := by linarith
  refine ⟨ht, by linarith, by linarith, getRandomType_enlarge r hr, getRandomType_shrink r hr,
    getRandomType_speed_up r hr, getRandomType_slow_down r hr, getRandomType_multi_ball r hr,
    getRandomType_laser r hr, getRandomType_extra_life r hr, getRandomType_score_boost r hr,
    getRandomType_sticky_paddle r hr, getRandomType_penetrating_ball r hr, fun q hq => ?_⟩
  rw [getRandomType_eq]
  have hn : ∀ c : α, c ≤ 100 → ¬ 100 * q ≤ c := fun c hc h => by linarith
  rw [if_neg (hn 15 (by norm_num)), if_neg (hn 25 (by norm_num)),
    if_neg (hn 37 (by norm_num)), if_neg (hn 52 (by norm_num)),
    if_neg (hn 60 (by norm_num)), if_neg (hn 70 (by norm_num)),
    if_neg (hn 75 (by norm_num)), if_neg (hn 87 (by norm_num)),
    if_neg (hn 95 (by norm_num)), if_neg (hn 100 le_rfl)]
  rfl

/-- C25, witness: the draw 0.2 gives `100 * r = 20`, in the interval `(15, 25]` of `shrink`. -/
theorem getRandomType_intervals_witness :
    PowerUp.getRandomType (1 / 5 : ℚ) = PowerUpType.shrink :=
  (getRandomType_intervals (1 / 5 : ℚ) (by norm_num) (by norm_num)).2.2.2.2.1.mpr
    ⟨by norm_num, by norm_num⟩

end RandomType

section HitAgain

variable {α : Type} [LinearOrderedField α]

/-- A hit on a breakable brick without hit points left ends in `destroy`, whatever the
`destroyed` flag holds. -/
theorem hit_of_no_hitPoints (b : Brick α) (damage : α) (hu : b.type ≠ BrickType.unbreakable)
    (hp : b.hitPoints ≤ 0) (hdm : 0 ≤ damage) :
    b.hit damage = ({ b with hitPoints := b.hitPoints - damage, shakeIntensity := 3 }).destroy := by
  have h1 : ¬ b.hitPoints - damage > 0 := by
    rw [not_lt]
    linarith
  have h2 : b.hitPoints - damage ≤ 0 := by linarith
  simp [Brick.hit, hu, h1, h2]

/-- The destruction of a brick whose result carries no explosion: the points are awarded, a
regenerating brick is counted back in, and a power-up may spawn. -/
theorem handleBrickDestruction_plain (sqrt : α → α) (fuel : Nat) (g : Game α)
    (result : HitResult α) (brick : Brick α) (hd : result.destroyed = true)
    (h : ∀ radius : α, result.special ≠ some (SpecialEffect.explosion radius)) :
    (Game.handleBrickDestruction sqrt (fuel + 1) g result brick).combo = g.combo + 1 ∧
    (Game.handleBrickDestruction sqrt (fuel + 1) g result brick).score =
      (g.awardPoints result).score := by
  cases hs : result.special with
  | none =>
    simp [Game.handleBrickDestruction, hd, hs, Game.spawnPowerUp, Game.awardPoints]
  | some effect =>
    cases effect with
    | explosion radius => exact absurd hs (h radius)
    | regenerate =>
      simp [Game.handleBrickDestruction, hd, hs, Game.spawnPowerUp, Game.awardPoints,
        Game.handleSpecialBrickEffectWith]

/-- C27: `Brick.hit` never reads `destroyed`.  A breakable brick whose hit points are already
`≤ 0` answers `hit()` with `destroyed = true` and its full score, and stays destroyed.  For a
regenerating brick the timer is set back to the regeneration time (5000 in the constructor),
the result carries the regenerate effect, `checkCollision` is the plain geometric test
whatever `destroyed` holds, and a ball that is not penetrating and meets this brick first
makes `handleBrickCollisions` add one to the combo and the points of the brick to the score. -/
theorem hit_again_scores (b : Brick α) (hu : b.type ≠ BrickType.unbreakable)
    (hp : b.hitPoints ≤ 0) :
    (b.hit 1).2.destroyed = true ∧
    (b.hit 1).2.score = b.properties.score ∧
    (b.hit 1).1.destroyed = true ∧
    (b.type = BrickType.regenerating →
      (b.hit 1).1.regenerateTimer = b.properties.regenerateTime ∧
      (b.hit 1).2.special = some SpecialEffect.regenerate ∧
      (∀ x y hp0 : α,
        (Brick.new x y BrickType.regenerating hp0).properties.regenerateTime = some 5000) ∧
      (∀ ball : Ball α, b.checkCollision ball =
        Utils.circleRectIntersect { x := ball.x, y := ball.y, radius := ball.radius }
          b.getBounds) ∧
      (∀ (sqrt : α → α) (fuel : Nat) (g : Game α) (ball : Ball α) (i : Nat),
        g.bricks.get? i = some b → b.checkCollision ball = true → ball.penetrating = false →
        (∀ j, j < i → ∀ b', g.bricks.get? j = some b' → b'.checkCollision ball = false) →
        (Game.handleBrickCollisions sqrt (fuel + 1) g ball).1.combo = g.combo + 1 ∧
        (Game.handleBrickCollisions sqrt (fuel + 1) g ball).1.score =
          g.score + (b.properties.score : α) * ((min 5 (1 + (g.combo + 1) / 3) : ℕ) : α) *
            (g.powerUpManager.getEffectValue EffectKind.score_multiplier
              (EffectValue.num 1)).toNumber)) := by
  have hh := hit_of_no_hitPoints b 1 hu hp zero_le_one
  refine ⟨?_, ?_, ?_, fun ht => ⟨?_, ?_, fun x y hp0 => rfl, fun ball => ?_,
    fun sqrt fuel g ball i hb hc hpen hfirst => ?_⟩⟩
  · rw [hh]
    simp only [Brick.destroy]
    split_ifs <;> rfl
  · rw [hh]
    simp only [Brick.destroy]
    split_ifs <;> rfl
  · rw [hh]
    simp only [Brick.destroy]
    split_ifs <;> rfl
  · rw [hh]
    simp [Brick.destroy, ht]
  · rw [hh]
    simp [Brick.destroy, ht]
  · simp [Brick.checkCollision, Brick.getBounds, ht]
  · have hlt : i < g.bricks.length := by
      by_contra hge
      rw [List.get?_eq_none.mpr (by omega)] at hb
      exact absurd hb (by simp)
    obtain ⟨rest, hr⟩ := range_split i g.bricks.length hlt
    have hsp : ∀ radius : α, (b.hit 1).2.special ≠ some (SpecialEffect.explosion radius) := by
      intro radius
      rw [hh]
      simp [Brick.destroy, ht]
    have hds : (b.hit 1).2.destroyed = true := by
      rw [hh]
      simp [Brick.destroy, ht]
    have hsc : (b.hit 1).2.score = b.properties.score := by
      rw [hh]
      simp [Brick.destroy, ht]
    unfold Game.handleBrickCollisions
    rw [hr, loop_first_collision sqrt (fuel + 1) g ball hpen i b rest hb hc (List.range i)
      (fun j hj => hfirst j (List.mem_range.mp hj))]
    obtain ⟨h1, h2⟩ := handleBrickDestruction_plain sqrt fuel
      { g with bricks := g.bricks.set i (b.hit 1).1 } (b.hit 1).2 (b.hit 1).1 hds hsp
    refine ⟨h1, ?_⟩
    rw [h2]
    simp [Game.awardPoints, hsc]

/-- C27, witness: a destroyed regenerating brick (no hit point left, timer at 2000) that is
hit again: destroyed once more, score 40, timer back at 5000. -/
theorem hit_again_scores_witness :
    (({ Brick.new (100 : ℚ) 100 BrickType.regenerating 1 with
        hitPoints := 0, destroyed := true, regenerateTimer := some 2000 } : Brick ℚ).hit
      1).2.destroyed = true ∧
    (({ Brick.new (100 : ℚ) 100 BrickType.regenerating 1 with
        hitPoints := 0, destroyed := true, regenerateTimer := some 2000 } : Brick ℚ).hit
      1).2.score = 40 ∧
    (({ Brick.new (100 : ℚ) 100 BrickType.regenerating 1 with
        hitPoints := 0, destroyed := true, regenerateTimer := some 2000 } : Brick ℚ).hit
      1).1.regenerateTimer = some 5000 :=
  have h := hit_again_scores
    ({ Brick.new (100 : ℚ) 100 BrickType.regenerating 1 with
        hitPoints := 0, destroyed := true, regenerateTimer := some 2000 } : Brick ℚ)
    (by simp [Brick.new]) (le_refl (0 : ℚ))
  ⟨h.1, h.2.1, (h.2.2.2 rfl).1⟩

end HitAgain

section LevelBricks

/-- The type list of every level configuration starts with `normal`; from level 2 on it has at
least two entries. -/
theorem brickTypes_head (level : ℕ) :
    BrickType.normal ∈ (Game.generateLevelConfig level : LevelConfig ℝ).brickTypes ∧
    (2 ≤ level → 2 ≤ (Game.generateLevelConfig level : LevelConfig ℝ).brickTypes.length) := by
  by_cases h : level > 5
  · simp [Game.generateLevelConfig, h]
  · have h5 : level ≤ 5 := by omega
    interval_cases level <;> simp [Game.generateLevelConfig]

/-- The entry read from the type list, with the constructor default for `undefined`, is in the
list as soon as `normal` is. -/
theorem brickTypeAt_getD_mem (types : List BrickType) (index : ℤ)
    (h : BrickType.normal ∈ types) :
    (Game.brickTypeAt types index).getD BrickType.normal ∈ types := by
  unfold Game.brickTypeAt
  split_ifs
  · exact h
  · cases hg : types.get? index.toNat with
    | none => exact h
    | some t => exact List.get?_mem hg

/-- One cell of `createBricks` appends one brick whose type is from the type list. -/
theorem createBrick_types (M : MathOps ℝ) (config : LevelConfig ℝ) (canvasWidth : ℝ)
    (random : ℕ → ℝ) (row col : ℕ) (acc : List (Brick ℝ) × ℕ)
    (hn : BrickType.normal ∈ config.brickTypes)
    (hacc : ∀ b ∈ acc.1, b.type ∈ config.brickTypes) :
    ∀ b ∈ (Game.createBrick M config canvasWidth random row col acc).1,
      b.type ∈ config.brickTypes := by
  intro b hb
  simp only [Game.createBrick, List.mem_append, List.mem_singleton] at hb
  rcases hb with hb | hb
  · exact hacc b hb
  · rw [hb]
    simp only [Brick.new]
    split_ifs <;> exact brickTypeAt_getD_mem _ _ hn

/-- A property kept by every step of a left fold holds at its end. -/
theorem foldl_invariant {β γ : Type} (I : β → Prop) (f : β → γ → β)
    (hf : ∀ acc x, I acc → I (f acc x)) (l : List γ) (init : β) (h : I init) :
    I (l.foldl f init) := by
  induction l generalizing init with
  | nil => exact h
  | cons x l ih => exact ih (f init x) (hf init x h)

/-- For a list of `n ≥ 2` types and a draw in `[0, 1)` the index `randomInt(1, n - 1)` lies
in `1 .. n - 1`. -/
theorem randomInt_special_index (n : ℕ) (hn : 2 ≤ n) (r : ℝ) (h0 : 0 ≤ r) (h1 : r < 1) :
    1 ≤ Utils.randomInt (fun v : ℝ => ⌊v⌋) r 1 ((n : ℤ) - 1) ∧
    Utils.randomInt (fun v : ℝ => ⌊v⌋) r 1 ((n : ℤ) - 1) ≤ (n : ℤ) - 1 := by
  have hn1 : (1 : ℝ) ≤ ((n : ℤ) - 1 : ℤ) := by
    have : (2 : ℤ) ≤ (n : ℤ) := by exact_mod_cast hn
    exact_mod_cast (by omega : (1 : ℤ) ≤ (n : ℤ) - 1)
  have hc : (((n : ℤ) - 1 - 1 + 1 : ℤ) : ℝ) = (((n : ℤ) - 1 : ℤ) : ℝ) := by
    congr 1
    ring
  simp only [Utils.randomInt, hc]
  constructor
  · have : 0 ≤ ⌊r * (((n : ℤ) - 1 : ℤ) : ℝ)⌋ :=
      Int.floor_nonneg.mpr (mul_nonneg h0 (by linarith))
    omega
  · have : ⌊r * (((n : ℤ) - 1 : ℤ) : ℝ)⌋ < (n : ℤ) - 1 := by
      rw [Int.floor_lt]
      nlinarith
    omega

/-- C29, at level 1: the type list is `['normal']`, so for every draw the index computed for
a special brick is `randomInt(1, 0) = 1`, past the end of the list; the entry read is
`undefined`. -/
theorem createBricks_level1_index_out_of_range :
    (Game.generateLevelConfig 1 : LevelConfig ℝ).brickTypes = [BrickType.normal] ∧
    Utils.randomInt (fun v : ℝ => ⌊v⌋) (1 / 2) 1
      (((Game.generateLevelConfig 1 : LevelConfig ℝ).brickTypes.length : ℤ) - 1) = 1 ∧
    ¬ (1 < (Game.generateLevelConfig 1 : LevelConfig ℝ).brickTypes.length) ∧
    Game.brickTypeAt (Game.generateLevelConfig 1 : LevelConfig ℝ).brickTypes
      (Utils.randomInt (fun v : ℝ => ⌊v⌋) (1 / 2) 1
        (((Game.generateLevelConfig 1 : LevelConfig ℝ).brickTypes.length : ℤ) - 1)) = none := by
  have hl : (Game.generateLevelConfig 1 : LevelConfig ℝ).brickTypes = [BrickType.normal] := by
    simp [Game.generateLevelConfig]
  have hi : Utils.randomInt (fun v : ℝ => ⌊v⌋) (1 / 2) 1
      (((Game.generateLevelConfig 1 : LevelConfig ℝ).brickTypes.length : ℤ) - 1) = 1 := by
    simp [Utils.randomInt, hl]
  refine ⟨hl, hi, by simp [hl], ?_⟩
  rw [hi, hl]
  simp [Game.brickTypeAt]

/-- C29, amended: from level 2 on, for every draw in `[0, 1)` the index
`randomInt(1, brickTypes.length - 1)` lies in `1 .. length - 1` and reads a type of the list;
at level 1 the index is 1 for every draw and reads nothing, and the constructor default
`normal` is used; at every level each brick made by `createBricks` has a type of the list. -/
theorem createBricks_types (level : ℕ) :
    (2 ≤ level → ∀ r : ℝ, 0 ≤ r → r < 1 →
      1 ≤ Utils.randomInt (fun v : ℝ => ⌊v⌋) r 1
        (((Game.generateLevelConfig level : LevelConfig ℝ).brickTypes.length : ℤ) - 1) ∧
      Utils.randomInt (fun v : ℝ => ⌊v⌋) r 1
        (((Game.generateLevelConfig level : LevelConfig ℝ).brickTypes.length : ℤ) - 1) <
        ((Game.generateLevelConfig level : LevelConfig ℝ).brickTypes.length : ℤ) ∧
      ∃ t, Game.brickTypeAt (Game.generateLevelConfig level : LevelConfig ℝ).brickTypes
        (Utils.randomInt (fun v : ℝ => ⌊v⌋) r 1
          (((Game.generateLevelConfig level : LevelConfig ℝ).brickTypes.length : ℤ) - 1)) =
          some t ∧
        t ∈ (Game.generateLevelConfig level : LevelConfig ℝ).brickTypes) ∧
    (level = 1 → ∀ r : ℝ,
      Utils.randomInt (fun v : ℝ => ⌊v⌋) r 1
        (((Game.generateLevelConfig level : LevelConfig ℝ).brickTypes.length : ℤ) - 1) = 1 ∧
      Game.brickTypeAt (Game.generateLevelConfig level : LevelConfig ℝ).brickTypes 1 = none) ∧
    (∀ (M : MathOps ℝ) (g : Game ℝ), g.levelConfig = Game.generateLevelConfig level →
      ∀ b ∈ (g.createBricks M).bricks,
        b.type ∈ (Game.generateLevelConfig level : LevelConfig ℝ).brickTypes) := by
  refine ⟨fun h2 r h0 h1 => ?_, fun h1 r => ?_, fun M g hg b hb => ?_⟩
  · obtain ⟨ha, hb⟩ := randomInt_special_index _ ((brickTypes_head level).2 h2) r h0 h1
    refine ⟨ha, by omega, ?_⟩
    have hlt : (Utils.randomInt (fun v : ℝ => ⌊v⌋) r 1
        (((Game.generateLevelConfig level : LevelConfig ℝ).brickTypes.length : ℤ) - 1)).toNat <
        (Game.generateLevelConfig level : LevelConfig ℝ).brickTypes.length := by omega
    refine ⟨_, ?_, List.get_mem _ _ hlt⟩
    rw [Game.brickTypeAt, if_neg (by omega), List.get?_eq_get hlt]
  · subst h1
    have hl : (Game.generateLevelConfig 1 : LevelConfig ℝ).brickTypes = [BrickType.normal] := by
      simp [Game.generateLevelConfig]
    rw [hl]
    constructor
    · simp [Utils.randomInt]
    · simp [Game.brickTypeAt]
  · have hn := (brickTypes_head level).1
    rw [← hg] at hn ⊢
    revert b
    simp only [Game.createBricks]
    apply foldl_invariant
      (fun acc : List (Brick ℝ) × ℕ => ∀ b ∈ acc.1, b.type ∈ g.levelConfig.brickTypes)
    · intro acc row hacc
      apply foldl_invariant
        (fun acc : List (Brick ℝ) × ℕ => ∀ b ∈ acc.1, b.type ∈ g.levelConfig.brickTypes)
      · intro acc2 col hacc2
        exact createBrick_types M _ _ _ _ _ acc2 hn hacc2
      · exact hacc
    · intro b hb
      exact absurd hb (List.not_mem_nil b)

/-- C29, witness: at level 3 (types normal, strong, explosive) the draw 0.5 gives index 2, the
type `explosive`. -/
theorem createBricks_types_witness :
    Game.brickTypeAt (Game.generateLevelConfig 3 : LevelConfig ℝ).brickTypes
      (Utils.randomInt (fun v : ℝ => ⌊v⌋) (1 / 2) 1
        (((Game.generateLevelConfig 3 : LevelConfig ℝ).brickTypes.length : ℤ) - 1)) ≠ none := by
  obtain ⟨-, -, t, ht, -⟩ := (createBricks_types 3).1 (by norm_num) (1 / 2) (by norm_num)
    (by norm_num)
  rw [ht]
  simp

end LevelBricks

section ExplosionChains

variable {α : Type} [LinearOrderedField α]

/-- Replacing an entry by one that satisfies `p` only if the old one did cannot raise the
count of entries satisfying `p`. -/
theorem countP_set_le {β : Type} (p : β → Bool) (l : List β) (i : Nat) (b' : β)
    (h : ∀ b, l.get? i = some b → p b' = true → p b = true) :
    (l.set i b').countP p ≤ l.countP p := by
  induction l generalizing i with
  | nil => simp
  | cons a l ih =>
    cases i with
    | zero =>
      simp only [List.set_cons_zero, List.countP_cons]
      have := h a rfl
      by_cases hb : p b' = true
      · simp [hb, this hb]
      · simp [hb]
    | succ j =>
      simp only [List.set_cons_succ, List.countP_cons]
      have := ih j (fun b hb => h b (by simpa using hb))
      omega

/-- Replacing an entry that satisfies `p` by one that does not lowers the count by one. -/
theorem countP_set_lt {β : Type} (p : β → Bool) (l : List β) (i : Nat) (b b' : β)
    (hb : l.get? i = some b) (hp : p b = true) (hp' : p b' = false) :
    (l.set i b').countP p + 1 = l.countP p := by
  induction l generalizing i with
  | nil => simp at hb
  | cons a l ih =>
    cases i with
    | zero =>
      simp only [List.get?_cons_zero, Option.some.injEq] at hb
      subst hb
      simp [List.countP_cons, hp, hp']
    | succ j =>
      simp only [List.set_cons_succ, List.countP_cons]
      have := ih j (by simpa using hb)
      omega

/-- A hit never turns a destroyed brick into one that is not destroyed, and a hit whose result
says `destroyed` leaves the brick destroyed. -/
theorem hit_destroyed (b : Brick α) (damage : α) :
    ((b.hit damage).1.destroyed = false → b.destroyed = false) ∧
    ((b.hit damage).2.destroyed = true → (b.hit damage).1.destroyed = true) := by
  simp only [Brick.hit, Brick.destroy]
  split_ifs <;> simp

/-- Writing the brick left by a hit back into the list does not raise the number of explosive
bricks that are not destroyed. -/
theorem set_hit_count (l : List (Brick α)) (i : Nat) (brick : Brick α) (damage : α)
    (_hb : l.get? i = some brick) :
    (l.set i (brick.hit damage).1).countP
        (fun b => !b.destroyed && decide (b.type = BrickType.explosive)) ≤
      l.countP (fun b => !b.destroyed && decide (b.type = BrickType.explosive)) := by
  apply countP_set_le
  intro b hb hp
  rw [_hb] at hb
  cases hb
  simp only [Bool.and_eq_true, Bool.not_eq_true', decide_eq_true_eq] at hp ⊢
  exact ⟨(hit_destroyed brick damage).1 hp.1, (hit_type brick damage) ▸ hp.2⟩

/-- A hit that sets off an explosion removes one explosive brick from those not destroyed. -/
theorem set_hit_count_explosion (l : List (Brick α)) (i : Nat) (brick : Brick α)
    (damage radius : α) (hb : l.get? i = some brick) (hd : brick.destroyed = false)
    (hres : (brick.hit damage).2.destroyed = true)
    (hs : (brick.hit damage).2.special = some (SpecialEffect.explosion radius)) :
    (l.set i (brick.hit damage).1).countP
        (fun b => !b.destroyed && decide (b.type = BrickType.explosive)) + 1 =
      l.countP (fun b => !b.destroyed && decide (b.type = BrickType.explosive)) := by
  apply countP_set_lt _ l i brick _ hb
  · simp [hd, hit_special_explosion brick damage radius hs]
  · simp [(hit_destroyed brick damage).2 hres]

/-- One step of the explosion loop does not raise the number of explosive bricks that are not
destroyed, when the nested destruction does not. -/
theorem explodeBrick_count (sqrt : α → α)
    (destruction : Game α → HitResult α → Brick α → Game α)
    (hD : ∀ g result brick,
      (destruction g result brick).bricks.countP
          (fun b => !b.destroyed && decide (b.type = BrickType.explosive)) ≤
        g.bricks.countP (fun b => !b.destroyed && decide (b.type = BrickType.explosive)))
    (x y radius : α) (s : Game α) (i : Nat) :
    (Game.explodeBrick sqrt destruction x y radius s i).bricks.countP
        (fun b => !b.destroyed && decide (b.type = BrickType.explosive)) ≤
      s.bricks.countP (fun b => !b.destroyed && decide (b.type = BrickType.explosive)) := by
  cases hb : s.bricks.get? i with
  | none => simp only [Game.explodeBrick, hb, le_refl]
  | some brick =>
    rw [explodeBrick_eq sqrt destruction x y radius s i brick hb]
    split_ifs
    · exact le_trans (hD _ _ _) (set_hit_count s.bricks i brick 2 hb)
    · exact set_hit_count s.bricks i brick 2 hb
    · exact le_refl _

/-- The explosion loop over any list of indices does not raise the number of explosive bricks
that are not destroyed, when the nested destruction does not. -/
theorem explosionLoop_count (sqrt : α → α)
    (destruction : Game α → HitResult α → Brick α → Game α)
    (hD : ∀ g result brick,
      (destruction g result brick).bricks.countP
          (fun b => !b.destroyed && decide (b.type = BrickType.explosive)) ≤
        g.bricks.countP (fun b => !b.destroyed && decide (b.type = BrickType.explosive)))
    (x y radius : α) (l : List Nat) (s : Game α) :
    (l.foldl (Game.explodeBrick sqrt destruction x y radius) s).bricks.countP
        (fun b => !b.destroyed && decide (b.type = BrickType.explosive)) ≤
      s.bricks.countP (fun b => !b.destroyed && decide (b.type = BrickType.explosive)) := by
  induction l generalizing s with
  | nil => exact le_refl _
  | cons i l ih =>
    rw [List.foldl_cons]
    exact le_trans (ih _) (explodeBrick_count sqrt destruction hD x y radius s i)

/-- `handleBrickDestruction` never raises the number of explosive bricks not destroyed. -/
theorem handleBrickDestruction_count (sqrt : α → α) (fuel : Nat) :
    ∀ (g : Game α) (result : HitResult α) (brick : Brick α),
      (Game.handleBrickDestruction sqrt fuel g result brick).bricks.countP
          (fun b => !b.destroyed && decide (b.type = BrickType.explosive)) ≤
        g.bricks.countP (fun b => !b.destroyed && decide (b.type = BrickType.explosive)) := by
  induction fuel with
  | zero => intro g result brick; exact le_refl _
  | succ f ih =>
    intro g result brick
    cases hd : result.destroyed
    · simp only [Game.handleBrickDestruction, hd, Bool.not_false, if_true, le_refl]
    · cases hs : result.special with
      | none =>
        simp only [Game.handleBrickDestruction, hd, hs, Bool.not_true, Bool.false_eq_true,
          if_false, Game.spawnPowerUp, Game.awardPoints, le_refl]
      | some effect =>
        cases effect with
        | regenerate =>
          simp only [Game.handleBrickDestruction, hd, hs, Bool.not_true, Bool.false_eq_true,
            if_false, Game.spawnPowerUp, Game.awardPoints, Game.handleSpecialBrickEffectWith,
            le_refl]
        | explosion radius =>
          simp only [Game.handleBrickDestruction, hd, hs, Bool.not_true, Bool.false_eq_true,
            if_false, Game.spawnPowerUp, Game.handleSpecialBrickEffectWith,
            Game.handleExplosionWith]
          exact explosionLoop_count sqrt _ ih _ _ _ _ (g.awardPoints result)

/-- The explosion loop gives the same result with one more unit of fuel, when the nested
destruction does and the fuel exceeds the number of explosive bricks not destroyed. -/
theorem explosionLoop_stable (sqrt : α → α) (f : Nat)
    (ih : ∀ (g : Game α) (result : HitResult α) (brick : Brick α), 1 ≤ f →
      (∀ radius, result.special = some (SpecialEffect.explosion radius) →
        g.bricks.countP (fun b => !b.destroyed && decide (b.type = BrickType.explosive)) + 2 ≤
          f) →
      Game.handleBrickDestruction sqrt f g result brick =
        Game.handleBrickDestruction sqrt (f + 1) g result brick)
    (x y radius : α) (l : List Nat) (s : Game α)
    (hs : s.bricks.countP (fun b => !b.destroyed && decide (b.type = BrickType.explosive)) + 1 ≤
      f) :
    l.foldl (Game.explodeBrick sqrt (Game.handleBrickDestruction sqrt f) x y radius) s =
      l.foldl (Game.explodeBrick sqrt (Game.handleBrickDestruction sqrt (f + 1)) x y radius)
        s := by
  induction l generalizing s with
  | nil => rfl
  | cons i l ihl =>
    have hstep : Game.explodeBrick sqrt (Game.handleBrickDestruction sqrt f) x y radius s i =
        Game.explodeBrick sqrt (Game.handleBrickDestruction sqrt (f + 1)) x y radius s i := by
      cases hb : s.bricks.get? i with
      | none => simp only [Game.explodeBrick, hb]
      | some brick =>
        rw [explodeBrick_eq sqrt _ x y radius s i brick hb,
          explodeBrick_eq sqrt _ x y radius s i brick hb]
        by_cases hc : (!brick.destroyed && brick.isInExplosionRadius sqrt x y radius) = true
        · rw [if_pos hc, if_pos hc]
          by_cases hr : (brick.hit 2).2.destroyed = true
          · rw [if_pos hr, if_pos hr]
            apply ih _ _ _ (by omega)
            intro r hsp
            have hd : brick.destroyed = false := by
              simp only [Bool.and_eq_true, Bool.not_eq_true'] at hc
              exact hc.1
            have := set_hit_count_explosion s.bricks i brick 2 r hb hd hr hsp
            show (s.bricks.set i (brick.hit 2).1).countP _ + 2 ≤ f
            omega
          · rw [if_neg hr, if_neg hr]
        · rw [if_neg hc, if_neg hc]
    rw [List.foldl_cons, List.foldl_cons, ← hstep]
    apply ihl
    have := explodeBrick_count sqrt (Game.handleBrickDestruction sqrt f)
      (handleBrickDestruction_count sqrt f) x y radius s i
    omega

/-- The destruction of a brick whose result carries an explosion, with one unit of fuel spent:
points, the explosion at the centre of the brick, then the power-up draw. -/
theorem handleBrickDestruction_explosion (sqrt : α → α) (f : Nat) (g : Game α)
    (result : HitResult α) (brick : Brick α) (radius : α) (hd : result.destroyed = true)
    (hs : result.special = some (SpecialEffect.explosion radius)) :
    Game.handleBrickDestruction sqrt (f + 1) g result brick =
      (Game.handleExplosionWith sqrt (Game.handleBrickDestruction sqrt f) (g.awardPoints result)
        (brick.x + brick.width / 2) (brick.y + brick.height / 2) radius).spawnPowerUp
        (brick.x + brick.width / 2) (brick.y + brick.height / 2) := by
  rw [Game.handleBrickDestruction]
  simp only [hd, hs, Bool.not_true, Bool.false_eq_true, if_false,
    Game.handleSpecialBrickEffectWith]

/-- With at least one unit of fuel, and two more than the number of explosive bricks not
destroyed when the result carries an explosion, `handleBrickDestruction` gives the same result
with one more unit. -/
theorem handleBrickDestruction_stable (sqrt : α → α) (f : Nat) :
    ∀ (g : Game α) (result : HitResult α) (brick : Brick α), 1 ≤ f →
      (∀ radius, result.special = some (SpecialEffect.explosion radius) →
        g.bricks.countP (fun b => !b.destroyed && decide (b.type = BrickType.explosive)) + 2 ≤
          f) →
      Game.handleBrickDestruction sqrt f g result brick =
        Game.handleBrickDestruction sqrt (f + 1) g result brick := by
  induction f with
  | zero => intro g result brick h1; omega
  | succ n ih =>
    intro g result brick _ hex
    cases hd : result.destroyed
    · simp only [Game.handleBrickDestruction, hd, Bool.not_false, if_true]
    · cases hs : result.special with
      | none =>
        simp only [Game.handleBrickDestruction, hd, hs, Bool.not_true, Bool.false_eq_true,
          if_false]
      | some effect =>
        cases effect with
        | regenerate =>
          simp only [Game.handleBrickDestruction, hd, hs, Bool.not_true, Bool.false_eq_true,
            if_false, Game.handleSpecialBrickEffectWith]
        | explosion radius =>
          have hcount := hex radius hs
          have hloop := explosionLoop_stable sqrt n ih (brick.x + brick.width / 2)
            (brick.y + brick.height / 2) radius (List.range (g.awardPoints result).bricks.length)
            (g.awardPoints result) (by
              show g.bricks.countP _ + 1 ≤ n
              omega)
          rw [handleBrickDestruction_explosion sqrt n g result brick radius hd hs,
            handleBrickDestruction_explosion sqrt (n + 1) g result brick radius hd hs,
            Game.handleExplosionWith, Game.handleExplosionWith, hloop]

/-- Any amount of extra fuel leaves the result of `handleBrickDestruction` as it is. -/
theorem handleBrickDestruction_fuel (sqrt : α → α) (f k : Nat) (g : Game α)
    (result : HitResult α) (brick : Brick α) (h1 : 1 ≤ f)
    (hex : ∀ radius, result.special = some (SpecialEffect.explosion radius) →
      g.bricks.countP (fun b => !b.destroyed && decide (b.type = BrickType.explosive)) + 2 ≤
        f) :
    Game.handleBrickDestruction sqrt (f + k) g result brick =
      Game.handleBrickDestruction sqrt f g result brick := by
  induction k with
  | zero => rfl
  | succ k ih =>
    rw [← ih, ← Nat.add_assoc]
    exact (handleBrickDestruction_stable sqrt (f + k) g result brick (by omega)
      (fun radius hs => by have := hex radius hs; omega)).symm

/-- Any amount of extra fuel leaves the result of `handleExplosion` as it is. -/
theorem handleExplosion_fuel (sqrt : α → α) (f k : Nat) (g : Game α) (x y radius : α)
    (h : g.bricks.countP (fun b => !b.destroyed && decide (b.type = BrickType.explosive)) + 1 ≤
      f) :
    Game.handleExplosion sqrt (f + k) g x y radius = Game.handleExplosion sqrt f g x y radius := by
  induction k with
  | zero => rfl
  | succ k ih =>
    rw [← ih, ← Nat.add_assoc]
    simp only [Game.handleExplosion, Game.handleExplosionWith]
    exact (explosionLoop_stable sqrt (f + k) (handleBrickDestruction_stable sqrt (f + k)) x y
      radius _ g (by omega)).symm

/-- C26: explosion resolution terminates.  Count the explosive bricks that are not destroyed.
The count is at most the number of bricks, and neither `handleBrickDestruction` nor
`handleExplosion` ever raises it.  A hit that sets off an explosion comes from an explosive
brick that was not destroyed and is destroyed afterwards, so that the state handed to the nested
`handleExplosion` counts one brick fewer.  Hence nesting deeper than the count never happens:
`handleExplosion` gives the same result for every fuel above the count, and
`handleBrickDestruction` for every fuel above the count plus one; in particular the fuel of the
game loop, one more than the number of bricks, is enough for the destruction that follows a
hit. -/
theorem explosion_resolution_terminates (sqrt : α → α) (g : Game α) :
    g.bricks.countP (fun b => !b.destroyed && decide (b.type = BrickType.explosive)) ≤
      g.bricks.length ∧
    (∀ (fuel : Nat) (result : HitResult α) (brick : Brick α),
      (Game.handleBrickDestruction sqrt fuel g result brick).bricks.countP
          (fun b => !b.destroyed && decide (b.type = BrickType.explosive)) ≤
        g.bricks.countP (fun b => !b.destroyed && decide (b.type = BrickType.explosive))) ∧
    (∀ (fuel : Nat) (x y radius : α),
      (Game.handleExplosion sqrt fuel g x y radius).bricks.countP
          (fun b => !b.destroyed && decide (b.type = BrickType.explosive)) ≤
        g.bricks.countP (fun b => !b.destroyed && decide (b.type = BrickType.explosive))) ∧
    (∀ (i : Nat) (brick : Brick α) (damage radius : α), g.bricks.get? i = some brick →
      brick.destroyed = false →
      (brick.hit damage).2.special = some (SpecialEffect.explosion radius) →
      brick.type = BrickType.explosive ∧ (brick.hit damage).1.destroyed = true ∧
      (g.bricks.set i (brick.hit damage).1).countP
          (fun b => !b.destroyed && decide (b.type = BrickType.explosive)) + 1 =
        g.bricks.countP (fun b => !b.destroyed && decide (b.type = BrickType.explosive))) ∧
    (∀ (fuel : Nat) (x y radius : α),
      g.bricks.countP (fun b => !b.destroyed && decide (b.type = BrickType.explosive)) + 1 ≤
        fuel →
      Game.handleExplosion sqrt fuel g x y radius =
        Game.handleExplosion sqrt
          (g.bricks.countP (fun b => !b.destroyed && decide (b.type = BrickType.explosive)) + 1)
          g x y radius) ∧
    (∀ (fuel : Nat) (result : HitResult α) (brick : Brick α),
      g.bricks.countP (fun b => !b.destroyed && decide (b.type = BrickType.explosive)) + 2 ≤
        fuel →
      Game.handleBrickDestruction sqrt fuel g result brick =
        Game.handleBrickDestruction sqrt
          (g.bricks.countP (fun b => !b.destroyed && decide (b.type = BrickType.explosive)) + 2)
          g result brick) ∧
    (∀ (i : Nat) (brick : Brick α) (damage : α) (fuel : Nat), g.bricks.get? i = some brick →
      (brick.destroyed = false ∨ brick.type = BrickType.regenerating) →
      g.bricks.length + 1 ≤ fuel →
      Game.handleBrickDestruction sqrt fuel
          { g with bricks := g.bricks.set i (brick.hit damage).1 } (brick.hit damage).2
          (brick.hit damage).1 =
        Game.handleBrickDestruction sqrt (g.bricks.length + 1)
          { g with bricks := g.bricks.set i (brick.hit damage).1 } (brick.hit damage).2
          (brick.hit damage).1) := by
  have hspecial : ∀ (brick : Brick α) (damage radius : α),
      (brick.hit damage).2.special = some (SpecialEffect.explosion radius) →
      (brick.hit damage).2.destroyed = true := by
    intro brick damage radius
    simp only [Brick.hit, Brick.destroy]
    split_ifs <;> simp
  refine ⟨List.countP_le_length _, fun fuel => handleBrickDestruction_count sqrt fuel g, ?_, ?_,
    ?_, ?_, ?_⟩
  · intro fuel x y radius
    exact explosionLoop_count sqrt _ (handleBrickDestruction_count sqrt fuel) x y radius _ g
  · intro i brick damage radius hb hd hs
    have hres := hspecial brick damage radius hs
    exact ⟨hit_special_explosion brick damage radius hs, (hit_destroyed brick damage).2 hres,
      set_hit_count_explosion g.bricks i brick damage radius hb hd hres hs⟩
  · intro fuel x y radius hf
    obtain ⟨k, rfl⟩ := Nat.exists_eq_add_of_le hf
    exact handleExplosion_fuel sqrt _ k g x y radius le_rfl
  · intro fuel result brick hf
    obtain ⟨k, rfl⟩ := Nat.exists_eq_add_of_le hf
    exact handleBrickDestruction_fuel sqrt _ k g result brick (by omega) (fun _ _ => le_rfl)
  · intro i brick damage fuel hb hcol hf
    obtain ⟨k, rfl⟩ := Nat.exists_eq_add_of_le hf
    apply handleBrickDestruction_fuel sqrt _ k _ _ _ (by omega)
    intro radius hs
    have ht := hit_special_explosion brick damage radius hs
    have hd : brick.destroyed = false := by
      rcases hcol with h | h
      · exact h
      · rw [ht] at h
        exact absurd h (by decide)
    have h1 := set_hit_count_explosion g.bricks i brick damage radius hb hd
      (hspecial brick damage radius hs) hs
    have h2 : g.bricks.countP
        (fun b => !b.destroyed && decide (b.type = BrickType.explosive)) ≤ g.bricks.length :=
      List.countP_le_length _
    show (g.bricks.set i (brick.hit damage).1).countP _ + 2 ≤ g.bricks.length + 1
    omega

/-- C26, witness: with two explosive bricks in play, an explosion resolved with seven units
of fuel gives what three units give. -/
theorem explosion_resolution_terminates_witness :
    Game.handleExplosion Real.sqrt 7
      (Scenario.playing (Paddle.new 325 540 150 22) []
        [Brick.new 100 100 BrickType.explosive 1, Brick.new 100 135 BrickType.explosive 1,
          Brick.new 100 170 BrickType.normal 1] 3 : Game ℝ) 140 115 80 =
    Game.handleExplosion Real.sqrt
      ((Scenario.playing (Paddle.new 325 540 150 22) []
        [Brick.new 100 100 BrickType.explosive 1, Brick.new 100 135 BrickType.explosive 1,
          Brick.new 100 170 BrickType.normal 1] 3 : Game ℝ).bricks.countP
        (fun b => !b.destroyed && decide (b.type = BrickType.explosive)) + 1)
      (Scenario.playing (Paddle.new 325 540 150 22) []
        [Brick.new 100 100 BrickType.explosive 1, Brick.new 100 135 BrickType.explosive 1,
          Brick.new 100 170 BrickType.normal 1] 3 : Game ℝ) 140 115 80 :=
  (explosion_resolution_terminates Real.sqrt
    (Scenario.playing (Paddle.new 325 540 150 22) []
      [Brick.new 100 100 BrickType.explosive 1, Brick.new 100 135 BrickType.explosive 1,
        Brick.new 100 170 BrickType.normal 1] 3 : Game ℝ)).2.2.2.2.1 7 140 115 80
    (by simp [Scenario.playing, Brick.new, List.countP_cons])

end ExplosionChains

section CloneBalls

variable {α : Type} [LinearOrderedField α]

/-- A hit leaves the vertical extent of a brick as it was. -/
theorem hit_vertical (b : Brick α) (damage : α) :
    (b.hit damage).1.y = b.y ∧ (b.hit damage).1.height = b.height := by
  simp only [Brick.hit, Brick.destroy]
  split_ifs <;> exact ⟨rfl, rfl⟩

/-- `Brick.update` leaves the vertical extent of a brick as it was. -/
theorem update_vertical (b : Brick α) : b.update.y = b.y ∧ b.update.height = b.height := by
  obtain ⟨-, -, -, -, -, -, h7, -, h9, -⟩ := updateGlow_updateShake_frame b
  have hm : ∀ c : Brick α, c.updateMoving.y = c.y ∧ c.updateMoving.height = c.height := by
    intro c
    simp only [Brick.updateMoving]
    split_ifs
    · split
      · split_ifs <;> exact ⟨rfl, rfl⟩
      · exact ⟨rfl, rfl⟩
    · exact ⟨rfl, rfl⟩
  have hr : ∀ c : Brick α,
      c.updateRegenerating.y = c.y ∧ c.updateRegenerating.height = c.height := by
    intro c
    simp only [Brick.updateRegenerating]
    split
    · split_ifs <;> exact ⟨rfl, rfl⟩
    · exact ⟨rfl, rfl⟩
  simp only [Brick.update]
  rw [(hr _).1, (hr _).2, (hm _).1, (hm _).2, h7, h9]
  exact ⟨rfl, rfl⟩

/-- One step of the explosion loop keeps paddle, balls, lives and state, and every property of
the bricks that a hit keeps, when the nested destruction does. -/
theorem explodeBrick_frame (Q : Brick α → Prop) (hQ : ∀ b d, Q b → Q (b.hit d).1)
    (sqrt : α → α) (destruction : Game α → HitResult α → Brick α → Game α)
    (hD : ∀ g result brick, (∀ b ∈ g.bricks, Q b) →
      (destruction g result brick).paddle = g.paddle ∧
      (destruction g result brick).balls = g.balls ∧
      (destruction g result brick).lives = g.lives ∧
      (destruction g result brick).state = g.state ∧
      ∀ b ∈ (destruction g result brick).bricks, Q b)
    (x y radius : α) (s : Game α) (i : Nat) (hs : ∀ b ∈ s.bricks, Q b) :
    (Game.explodeBrick sqrt destruction x y radius s i).paddle = s.paddle ∧
    (Game.explodeBrick sqrt destruction x y radius s i).balls = s.balls ∧
    (Game.explodeBrick sqrt destruction x y radius s i).lives = s.lives ∧
    (Game.explodeBrick sqrt destruction x y radius s i).state = s.state ∧
    ∀ b ∈ (Game.explodeBrick sqrt destruction x y radius s i).bricks, Q b := by
  cases hb : s.bricks.get? i with
  | none =>
    have he : Game.explodeBrick sqrt destruction x y radius s i = s := by
      simp only [Game.explodeBrick, hb]
    rw [he]
    exact ⟨rfl, rfl, rfl, rfl, hs⟩
  | some brick =>
    have hset : ∀ b ∈ s.bricks.set i (brick.hit 2).1, Q b := by
      intro b hbm
      rcases List.mem_or_eq_of_mem_set hbm with h | h
      · exact hs b h
      · rw [h]
        exact hQ brick 2 (hs brick (List.get?_mem hb))
    rw [explodeBrick_eq sqrt destruction x y radius s i brick hb]
    split_ifs
    · exact hD { s with bricks := s.bricks.set i (brick.hit 2).1 } _ _ hset
    · exact ⟨rfl, rfl, rfl, rfl, hset⟩
    · exact ⟨rfl, rfl, rfl, rfl, hs⟩

/-- The explosion loop keeps paddle, balls, lives and state, and every property of the bricks
that a hit keeps, when the nested destruction does. -/
theorem explosionLoop_frame (Q : Brick α → Prop) (hQ : ∀ b d, Q b → Q (b.hit d).1)
    (sqrt : α → α) (destruction : Game α → HitResult α → Brick α → Game α)
    (hD : ∀ g result brick, (∀ b ∈ g.bricks, Q b) →
      (destruction g result brick).paddle = g.paddle ∧
      (destruction g result brick).balls = g.balls ∧
      (destruction g result brick).lives = g.lives ∧
      (destruction g result brick).state = g.state ∧
      ∀ b ∈ (destruction g result brick).bricks, Q b)
    (x y radius : α) (l : List Nat) (s : Game α) (hs : ∀ b ∈ s.bricks, Q b) :
    (l.foldl (Game.explodeBrick sqrt destruction x y radius) s).paddle = s.paddle ∧
    (l.foldl (Game.explodeBrick sqrt destruction x y radius) s).balls = s.balls ∧
    (l.foldl (Game.explodeBrick sqrt destruction x y radius) s).lives = s.lives ∧
    (l.foldl (Game.explodeBrick sqrt destruction x y radius) s).state = s.state ∧
    ∀ b ∈ (l.foldl (Game.explodeBrick sqrt destruction x y radius) s).bricks, Q b := by
  induction l generalizing s with
  | nil => exact ⟨rfl, rfl, rfl, rfl, hs⟩
  | cons i l ih =>
    obtain ⟨h1, h2, h3, h4, h5⟩ := explodeBrick_frame Q hQ sqrt destruction hD x y radius s i hs
    obtain ⟨k1, k2, k3, k4, k5⟩ := ih _ h5
    rw [List.foldl_cons]
    exact ⟨k1.trans h1, k2.trans h2, k3.trans h3, k4.trans h4, k5⟩

/-- `handleBrickDestruction` keeps paddle, balls, lives and state, and every property of the
bricks that a hit keeps. -/
theorem handleBrickDestruction_frame (Q : Brick α → Prop) (hQ : ∀ b d, Q b → Q (b.hit d).1)
    (sqrt : α → α) (fuel : Nat) :
    ∀ (g : Game α) (result : HitResult α) (brick : Brick α), (∀ b ∈ g.bricks, Q b) →
      (Game.handleBrickDestruction sqrt fuel g result brick).paddle = g.paddle ∧
      (Game.handleBrickDestruction sqrt fuel g result brick).balls = g.balls ∧
      (Game.handleBrickDestruction sqrt fuel g result brick).lives = g.lives ∧
      (Game.handleBrickDestruction sqrt fuel g result brick).state = g.state ∧
      ∀ b ∈ (Game.handleBrickDestruction sqrt fuel g result brick).bricks, Q b := by
  induction fuel with
  | zero => intro g result brick hg; exact ⟨rfl, rfl, rfl, rfl, hg⟩
  | succ f ih =>
    intro g result brick hg
    cases hd : result.destroyed
    · have he : Game.handleBrickDestruction sqrt (f + 1) g result brick = g := by
        simp only [Game.handleBrickDestruction, hd, Bool.not_false, if_true]
      rw [he]
      exact ⟨rfl, rfl, rfl, rfl, hg⟩
    · cases hs : result.special with
      | none =>
        have he : Game.handleBrickDestruction sqrt (f + 1) g result brick =
            (g.awardPoints result).spawnPowerUp (brick.x + brick.width / 2)
              (brick.y + brick.height / 2) := by
          simp only [Game.handleBrickDestruction, hd, hs, Bool.not_true, Bool.false_eq_true,
            if_false]
        rw [he]
        exact ⟨rfl, rfl, rfl, rfl, hg⟩
      | some effect =>
        cases effect with
        | regenerate =>
          have he : Game.handleBrickDestruction sqrt (f + 1) g result brick =
              Game.spawnPowerUp
                { g.awardPoints result with
                  bricksRemaining := (g.awardPoints result).bricksRemaining + 1 }
                (brick.x + brick.width / 2) (brick.y + brick.height / 2) := by
            simp only [Game.handleBrickDestruction, hd, hs, Bool.not_true, Bool.false_eq_true,
              if_false, Game.handleSpecialBrickEffectWith]
          rw [he]
          exact ⟨rfl, rfl, rfl, rfl, hg⟩
        | explosion radius =>
          rw [handleBrickDestruction_explosion sqrt f g result brick radius hd hs]
          obtain ⟨h1, h2, h3, h4, h5⟩ := explosionLoop_frame Q hQ sqrt _ ih
            (brick.x + brick.width / 2) (brick.y + brick.height / 2) radius
            (List.range (g.awardPoints result).bricks.length) (g.awardPoints result) hg
          exact ⟨h1, h2, h3, h4, h5⟩

/-- Writing the brick left by a hit back into the list keeps every property of the bricks that
a hit keeps. -/
theorem set_hit_all (Q : Brick α → Prop) (hQ : ∀ b d, Q b → Q (b.hit d).1)
    (l : List (Brick α)) (i : Nat) (brick : Brick α) (damage : α)
    (hb : l.get? i = some brick) (hl : ∀ b ∈ l, Q b) :
    ∀ b ∈ l.set i (brick.hit damage).1, Q b := by
  intro b hbm
  rcases List.mem_or_eq_of_mem_set hbm with h | h
  · exact hl b h
  · rw [h]
    exact hQ brick damage (hl brick (List.get?_mem hb))

/-- The brick loop of any ball keeps paddle, balls, lives and state, and every property of
the bricks that a hit keeps. -/
theorem handleBrickCollisionsLoop_frame (Q : Brick α → Prop)
    (hQ : ∀ b d, Q b → Q (b.hit d).1) (sqrt : α → α) (fuel : Nat) (l : List Nat) :
    ∀ (g : Game α) (ball : Ball α), (∀ b ∈ g.bricks, Q b) →
      (Game.handleBrickCollisionsLoop sqrt fuel l g ball).1.paddle = g.paddle ∧
      (Game.handleBrickCollisionsLoop sqrt fuel l g ball).1.balls = g.balls ∧
      (Game.handleBrickCollisionsLoop sqrt fuel l g ball).1.lives = g.lives ∧
      (Game.handleBrickCollisionsLoop sqrt fuel l g ball).1.state = g.state ∧
      ∀ b ∈ (Game.handleBrickCollisionsLoop sqrt fuel l g ball).1.bricks, Q b := by
  induction l with
  | nil => intro g ball hg; exact ⟨rfl, rfl, rfl, rfl, hg⟩
  | cons i l ih =>
    intro g ball hg
    by_cases hc : ∃ brick, g.bricks.get? i = some brick ∧ brick.checkCollision ball = true
    · obtain ⟨brick, hb, hcol⟩ := hc
      obtain ⟨h1, h2, h3, h4, h5⟩ := handleBrickDestruction_frame Q hQ sqrt fuel
        { g with bricks := g.bricks.set i (brick.hit 1).1 } (brick.hit 1).2 (brick.hit 1).1
        (set_hit_all Q hQ g.bricks i brick 1 hb hg)
      rw [loop_hit sqrt fuel i l g ball brick hb hcol]
      split_ifs
      · exact ⟨h1, h2, h3, h4, h5⟩
      · obtain ⟨k1, k2, k3, k4, k5⟩ := ih _ ball h5
        exact ⟨k1.trans h1, k2.trans h2, k3.trans h3, k4.trans h4, k5⟩
    · rw [loop_skip sqrt fuel i l g ball (fun b hb => by
        cases hcb : b.checkCollision ball
        · rfl
        · exact absurd ⟨b, hb, hcb⟩ hc)]
      exact ih g ball hg

/-- The hit of one recorded laser target keeps paddle, balls, lives and state, and every
property of the bricks that a hit keeps. -/
theorem laserHit_frame (Q : Brick α → Prop) (hQ : ∀ b d, Q b → Q (b.hit d).1)
    (sqrt : α → α) (fuel : Nat) (l : List Nat) :
    ∀ (g : Game α), (∀ b ∈ g.bricks, Q b) →
      (l.foldl (Game.laserHit sqrt fuel) g).paddle = g.paddle ∧
      (l.foldl (Game.laserHit sqrt fuel) g).balls = g.balls ∧
      (l.foldl (Game.laserHit sqrt fuel) g).lives = g.lives ∧
      (l.foldl (Game.laserHit sqrt fuel) g).state = g.state ∧
      ∀ b ∈ (l.foldl (Game.laserHit sqrt fuel) g).bricks, Q b := by
  induction l with
  | nil => intro g hg; exact ⟨rfl, rfl, rfl, rfl, hg⟩
  | cons i l ih =>
    intro g hg
    have hstep : (Game.laserHit sqrt fuel g i).paddle = g.paddle ∧
        (Game.laserHit sqrt fuel g i).balls = g.balls ∧
        (Game.laserHit sqrt fuel g i).lives = g.lives ∧
        (Game.laserHit sqrt fuel g i).state = g.state ∧
        ∀ b ∈ (Game.laserHit sqrt fuel g i).bricks, Q b := by
      cases hb : g.bricks.get? i with
      | none =>
        have he : Game.laserHit sqrt fuel g i = g := by simp only [Game.laserHit, hb]
        rw [he]
        exact ⟨rfl, rfl, rfl, rfl, hg⟩
      | some brick =>
        have hset := set_hit_all Q hQ g.bricks i brick 1 hb hg
        have he : Game.laserHit sqrt fuel g i =
            if (brick.hit 1).2.destroyed then
              Game.handleBrickDestruction sqrt fuel
                { g with bricks := g.bricks.set i (brick.hit 1).1 } (brick.hit 1).2
                (brick.hit 1).1
            else { g with bricks := g.bricks.set i (brick.hit 1).1 } := by
          simp only [Game.laserHit, hb]
        rw [he]
        split_ifs
        · exact handleBrickDestruction_frame Q hQ sqrt fuel
            { g with bricks := g.bricks.set i (brick.hit 1).1 } _ _ hset
        · exact ⟨rfl, rfl, rfl, rfl, hset⟩
    obtain ⟨h1, h2, h3, h4, h5⟩ := hstep
    obtain ⟨k1, k2, k3, k4, k5⟩ := ih _ h5
    rw [List.foldl_cons]
    exact ⟨k1.trans h1, k2.trans h2, k3.trans h3, k4.trans h4, k5⟩

/-- The collision stage of any ball keeps the height of the paddle, the balls, lives and state
of the game, and every property of the bricks that a hit keeps. -/
theorem handleBallCollisions_frame (Q : Brick α → Prop) (hQ : ∀ b d, Q b → Q (b.hit d).1)
    (M : MathOps α) (g : Game α) (ball : Ball α) (hg : ∀ b ∈ g.bricks, Q b) :
    (Game.handleBallCollisions M g ball).1.paddle.y = g.paddle.y ∧
    (Game.handleBallCollisions M g ball).1.balls = g.balls ∧
    (Game.handleBallCollisions M g ball).1.lives = g.lives ∧
    (Game.handleBallCollisions M g ball).1.state = g.state ∧
    ∀ b ∈ (Game.handleBallCollisions M g ball).1.bricks, Q b := by
  simp only [Game.handleBallCollisions, Game.handleBrickCollisions]
  generalize ball.handlePaddleCollision M.sqrt M.sin M.cos M.pi g.paddle g.powerUpManager = r
  have hf1 : (if r.2 = true then { g with combo := 0 } else g).paddle = g.paddle ∧
      (if r.2 = true then { g with combo := 0 } else g).balls = g.balls ∧
      (if r.2 = true then { g with combo := 0 } else g).lives = g.lives ∧
      (if r.2 = true then { g with combo := 0 } else g).state = g.state ∧
      ∀ b ∈ (if r.2 = true then { g with combo := 0 } else g).bricks, Q b := by
    split_ifs <;> exact ⟨rfl, rfl, rfl, rfl, hg⟩
  generalize (if r.2 = true then { g with combo := 0 } else g) = g1 at hf1 ⊢
  obtain ⟨f1, f2, f3, f4, f5⟩ := hf1
  have hf2 := handleBrickCollisionsLoop_frame Q hQ M.sqrt (g.bricks.length + 1)
    (List.range g1.bricks.length) g1 r.1 f5
  generalize Game.handleBrickCollisionsLoop M.sqrt (g.bricks.length + 1)
    (List.range g1.bricks.length) g1 r.1 = r2 at hf2 ⊢
  obtain ⟨h1, h2, h3, h4, h5⟩ := hf2
  obtain ⟨k1, k2, k3, k4, k5⟩ := laserHit_frame Q hQ M.sqrt (g.bricks.length + 1)
    (r2.1.paddle.checkLaserCollisions r2.1.bricks).2
    { r2.1 with paddle := (r2.1.paddle.checkLaserCollisions r2.1.bricks).1 } h5
  refine ⟨?_, k2.trans (h2.trans f2), k3.trans (h3.trans f3), k4.trans (h4.trans f4), k5⟩
  rw [k1]
  exact (congrArg Paddle.y h1).trans (congrArg Paddle.y f1)

/-- A brick that lies more than a radius above the centre of a ball does not collide with
it. -/
theorem above_no_collision (brick : Brick α) (c : Ball α)
    (h : brick.y + brick.height + c.radius < c.y) : brick.checkCollision c = false := by
  have hd : |c.y - brick.y - brick.height / 2| > brick.height / 2 + c.radius := by
    have := le_abs_self (c.y - brick.y - brick.height / 2)
    linarith
  simp only [Brick.checkCollision, Brick.getBounds, Utils.circleRectIntersect, hd, if_true]
  split_ifs <;> rfl

/-- The collision stage returns a ball unchanged when it is not moving down and collides with
no brick. -/
theorem handleBallCollisions_idle (M : MathOps α) (g : Game α) (c : Ball α) (hvy : c.vy ≤ 0)
    (hb : ∀ b ∈ g.bricks, b.checkCollision c = false) :
    (Game.handleBallCollisions M g c).2 = c := by
  have hp : c.handlePaddleCollision M.sqrt M.sin M.cos M.pi g.paddle g.powerUpManager =
      (c, false) := by
    simp only [Ball.handlePaddleCollision, hvy, if_true]
    split_ifs <;> rfl
  simp only [Game.handleBallCollisions, Game.handleBrickCollisions, hp, Bool.false_eq_true,
    if_false]
  rw [loop_no_collision M.sqrt (g.bricks.length + 1) g c (List.range g.bricks.length)
    (fun i _ b hbi => hb b (List.get?_mem hbi))]

/-- The ball stage for one ball keeps the height of the paddle, the balls, lives and state of
the game and every property of the bricks that a hit keeps, and drops none of the balls kept so
far. -/
theorem updateBall_frame (Q : Brick α → Prop) (hQ : ∀ b d, Q b → Q (b.hit d).1)
    (M : MathOps α) (acc : Game α × List (Ball α)) (ball : Ball α)
    (hg : ∀ b ∈ acc.1.bricks, Q b) :
    (Game.updateBall M acc ball).1.paddle.y = acc.1.paddle.y ∧
    (Game.updateBall M acc ball).1.balls = acc.1.balls ∧
    (Game.updateBall M acc ball).1.lives = acc.1.lives ∧
    (Game.updateBall M acc ball).1.state = acc.1.state ∧
    (∀ b ∈ (Game.updateBall M acc ball).1.bricks, Q b) ∧
    ∀ x ∈ acc.2, x ∈ (Game.updateBall M acc ball).2 := by
  simp only [Game.updateBall]
  generalize (if (ball.update M.sqrt acc.1.canvasWidth acc.1.canvasHeight
      acc.1.powerUpManager).stuck = true then
      (ball.update M.sqrt acc.1.canvasWidth acc.1.canvasHeight
        acc.1.powerUpManager).updateStuckPosition acc.1.paddle
    else ball.update M.sqrt acc.1.canvasWidth acc.1.canvasHeight acc.1.powerUpManager) = b2
  obtain ⟨h1, h2, h3, h4, h5⟩ := handleBallCollisions_frame Q hQ M acc.1 b2 hg
  split_ifs
  · exact ⟨h1, h2, h3, h4, h5, fun x hx => hx⟩
  · exact ⟨h1, h2, h3, h4, h5, fun x hx => List.mem_append_left _ hx⟩

/-- The ball stage keeps a ball that is neither launched nor stuck, does not move down, has its
lower edge at or above the top of the paddle, and has every brick more than a radius above its
centre. -/
theorem updateBall_idle (M : MathOps α) (acc : Game α × List (Ball α)) (c : Ball α)
    (hl : c.launched = false) (hs : c.stuck = false) (hvy : c.vy ≤ 0)
    (hy : c.y - c.radius ≤ acc.1.paddle.y)
    (hb : ∀ b ∈ acc.1.bricks, b.y + b.height + c.radius < c.y) :
    c ∈ (Game.updateBall M acc c).2 := by
  have hu : c.update M.sqrt acc.1.canvasWidth acc.1.canvasHeight acc.1.powerUpManager = c := by
    simp only [Ball.update, hl, Bool.not_false, Bool.true_or, if_true]
  have h2 := handleBallCollisions_idle M acc.1 c hvy
    (fun b hbm => above_no_collision b c (hb b hbm))
  have h1 := (handleBallCollisions_frame (fun b => b.y + b.height + c.radius < c.y)
    (fun b d hq => by
      show (b.hit d).1.y + (b.hit d).1.height + c.radius < c.y
      rw [(hit_vertical b d).1, (hit_vertical b d).2]
      exact hq) M acc.1 c hb).1
  have hbelow : c.isBelowPaddle (Game.handleBallCollisions M acc.1 c).1.paddle.y = false := by
    rw [h1]
    simp only [Ball.isBelowPaddle, decide_eq_false_iff_not, not_lt]
    exact hy
  simp only [Game.updateBall, hu, hs, Bool.false_eq_true, if_false, h2, hbelow]
  exact List.mem_append_right _ (List.mem_singleton_self c)

/-- The loop of `updateBalls` keeps such a ball once it is among the balls kept or still to
come, and keeps the height of the paddle, lives, state and the position of the bricks above the
ball. -/
theorem updateBallsLoop_idle (M : MathOps α) (c : Ball α) (hl : c.launched = false)
    (hs : c.stuck = false) (hvy : c.vy ≤ 0) (l : List (Ball α)) :
    ∀ acc : Game α × List (Ball α), c.y - c.radius ≤ acc.1.paddle.y →
      (∀ b ∈ acc.1.bricks, b.y + b.height + c.radius < c.y) →
      (l.foldl (Game.updateBall M) acc).1.paddle.y = acc.1.paddle.y ∧
      (l.foldl (Game.updateBall M) acc).1.lives = acc.1.lives ∧
      (l.foldl (Game.updateBall M) acc).1.state = acc.1.state ∧
      (∀ b ∈ (l.foldl (Game.updateBall M) acc).1.bricks, b.y + b.height + c.radius < c.y) ∧
      (∀ x ∈ acc.2, x ∈ (l.foldl (Game.updateBall M) acc).2) ∧
      (c ∈ l → c ∈ (l.foldl (Game.updateBall M) acc).2) := by
  induction l with
  | nil =>
    intro acc _ hb
    exact ⟨rfl, rfl, rfl, hb, fun x hx => hx, fun h => absurd h (List.not_mem_nil c)⟩
  | cons a l ih =>
    intro acc hy hb
    obtain ⟨h1, -, h3, h4, h5, h6⟩ := updateBall_frame
      (fun b => b.y + b.height + c.radius < c.y)
      (fun b d hq => by
        show (b.hit d).1.y + (b.hit d).1.height + c.radius < c.y
        rw [(hit_vertical b d).1, (hit_vertical b d).2]
        exact hq) M acc a hb
    obtain ⟨k1, k3, k4, k5, k6, k7⟩ := ih (Game.updateBall M acc a) (by rw [h1]; exact hy) h5
    rw [List.foldl_cons]
    refine ⟨k1.trans h1, k3.trans h3, k4.trans h4, k5, fun x hx => k6 x (h6 x hx), fun hc => ?_⟩
    rcases List.mem_cons.mp hc with h | h
    · apply k6
      rw [← h]
      exact updateBall_idle M acc c hl hs hvy hy hb
    · exact k7 h

/-- `updateBalls` keeps such a ball, so the list of balls does not become empty and no life is
lost. -/
theorem updateBalls_idle (M : MathOps α) (g : Game α) (c : Ball α) (hc : c ∈ g.balls)
    (hl : c.launched = false) (hs : c.stuck = false) (hvy : c.vy ≤ 0)
    (hy : c.y - c.radius ≤ g.paddle.y)
    (hb : ∀ b ∈ g.bricks, b.y + b.height + c.radius < c.y) :
    c ∈ (Game.updateBalls M g).balls ∧ (Game.updateBalls M g).lives = g.lives ∧
    (Game.updateBalls M g).state = g.state ∧ (Game.updateBalls M g).paddle.y = g.paddle.y ∧
    ∀ b ∈ (Game.updateBalls M g).bricks, b.y + b.height + c.radius < c.y := by
  obtain ⟨h1, h2, h3, h4, -, h6⟩ := updateBallsLoop_idle M c hl hs hvy g.balls
    (g, ([] : List (Ball α))) hy hb
  have hmem := h6 hc
  have hne : ¬ (g.balls.foldl (Game.updateBall M) (g, ([] : List (Ball α)))).2.length = 0 := by
    intro h0
    rw [List.length_eq_zero] at h0
    rw [h0] at hmem
    exact absurd hmem (List.not_mem_nil c)
  simp only [Game.updateBalls, hne, if_false]
  exact ⟨hmem, h2, h3, h1, h4⟩

/-- `PaddleController.update` keeps the height of the paddle. -/
theorem paddleController_update_y (k : PaddleController α) (p : Paddle α) :
    (k.update p).2.y = p.y := by
  simp only [PaddleController.update, Paddle.setPosition, Paddle.move]
  split_ifs <;> rfl

/-- `Paddle.update` keeps the height of the paddle. -/
theorem paddle_update_y (p : Paddle α) (canvasWidth : α) (m : PowerUpManager α) :
    (p.update canvasWidth m).y = p.y := by
  have hg : p.updateGlow.y = p.y := by
    simp only [Paddle.updateGlow]
    split_ifs <;> rfl
  exact hg

/-- The loop of `spawnMultiBalls` only appends balls and advances the random index. -/
theorem spawnClones_frame (M : MathOps α) (o : Ball α) :
    ∀ (n : ℕ) (g : Game α),
      (Game.spawnClones M o n g).paddle = g.paddle ∧
      (Game.spawnClones M o n g).bricks = g.bricks ∧
      (Game.spawnClones M o n g).lives = g.lives ∧
      (Game.spawnClones M o n g).state = g.state ∧
      ∀ x ∈ g.balls, x ∈ (Game.spawnClones M o n g).balls := by
  intro n
  induction n with
  | zero => intro g; exact ⟨rfl, rfl, rfl, rfl, fun x hx => hx⟩
  | succ n ih =>
    intro g
    obtain ⟨h1, h2, h3, h4, h5⟩ := ih
      { g with balls := g.balls ++ [o.clone M.sqrt M.sin M.cos M.atan2 (g.random g.randomIndex)],
               randomIndex := g.randomIndex + 1 }
    simp only [Game.spawnClones]
    exact ⟨h1, h2, h3, h4, fun x hx => h5 x (List.mem_append_left _ hx)⟩

/-- The loop of `spawnMultiBalls` appends the clone made with each of the next `n` draws. -/
theorem spawnClones_mem (M : MathOps α) (o : Ball α) :
    ∀ (n : ℕ) (g : Game α) (i : ℕ), i < n →
      o.clone M.sqrt M.sin M.cos M.atan2 (g.random (g.randomIndex + i)) ∈
        (Game.spawnClones M o n g).balls := by
  intro n
  induction n with
  | zero => intro g i hi; exact absurd hi (Nat.not_lt_zero i)
  | succ n ih =>
    intro g i hi
    simp only [Game.spawnClones]
    cases i with
    | zero =>
      apply (spawnClones_frame M o n _).2.2.2.2
      exact List.mem_append_right _ (List.mem_singleton_self _)
    | succ i =>
      have h := ih
        { g with
            balls := g.balls ++ [o.clone M.sqrt M.sin M.cos M.atan2 (g.random g.randomIndex)],
            randomIndex := g.randomIndex + 1 } i (Nat.lt_of_succ_lt_succ hi)
      have e : g.randomIndex + 1 + i = g.randomIndex + (i + 1) := by omega
      simp only [e] at h
      exact h

/-- An instant effect keeps paddle, bricks and state, removes no ball, and keeps a lower bound
of at most five on the lives. -/
theorem applyInstantEffect_frame (M : MathOps α) (L : ℤ) (hL : L ≤ 5) (g : Game α)
    (effect : ActiveEffect α) (hl : L ≤ g.lives) :
    (Game.applyInstantEffect M g effect).paddle = g.paddle ∧
    (Game.applyInstantEffect M g effect).bricks = g.bricks ∧
    (Game.applyInstantEffect M g effect).state = g.state ∧
    L ≤ (Game.applyInstantEffect M g effect).lives ∧
    ∀ x ∈ g.balls, x ∈ (Game.applyInstantEffect M g effect).balls := by
  simp only [Game.applyInstantEffect]
  split
  · simp only [Game.spawnMultiBalls]
    split
    · exact ⟨rfl, rfl, rfl, hl, fun x hx => hx⟩
    · obtain ⟨h1, h2, h3, h4, h5⟩ := spawnClones_frame M (by assumption)
        (-(M.floor (-effect.value.toNumber))).toNat g
      exact ⟨h1, h2, h4, by rw [h3]; exact hl, h5⟩
  · refine ⟨rfl, rfl, rfl, ?_, fun x hx => hx⟩
    show L ≤ min 5 (g.lives + 1)
    exact le_min hL (by omega)
  · exact ⟨rfl, rfl, rfl, hl, fun x hx => hx⟩

/-- The instant effects of one tick, together. -/
theorem applyInstantEffects_frame (M : MathOps α) (L : ℤ) (hL : L ≤ 5)
    (effects : List (ActiveEffect α)) :
    ∀ g : Game α, L ≤ g.lives →
      (effects.foldl (Game.applyInstantEffect M) g).paddle = g.paddle ∧
      (effects.foldl (Game.applyInstantEffect M) g).bricks = g.bricks ∧
      (effects.foldl (Game.applyInstantEffect M) g).state = g.state ∧
      L ≤ (effects.foldl (Game.applyInstantEffect M) g).lives ∧
      ∀ x ∈ g.balls, x ∈ (effects.foldl (Game.applyInstantEffect M) g).balls := by
  induction effects with
  | nil => intro g hl; exact ⟨rfl, rfl, rfl, hl, fun x hx => hx⟩
  | cons e rest ih =>
    intro g hl
    obtain ⟨h1, h2, h3, h4, h5⟩ := applyInstantEffect_frame M L hL g e hl
    obtain ⟨k1, k2, k3, k4, k5⟩ := ih (Game.applyInstantEffect M g e) h4
    rw [List.foldl_cons]
    exact ⟨k1.trans h1, k2.trans h2, k3.trans h3, k4, fun x hx => k5 x (h5 x hx)⟩

/-- `checkWinCondition` changes the state to `levelComplete` or nothing at all, and in both
cases keeps paddle, bricks, balls and lives. -/
theorem checkWinCondition_frame (g : Game α) :
    g.checkWinCondition.paddle = g.paddle ∧ g.checkWinCondition.bricks = g.bricks ∧
    g.checkWinCondition.balls = g.balls ∧ g.checkWinCondition.lives = g.lives ∧
    (g.checkWinCondition.state = g.state ∨
      g.checkWinCondition.state = GameState.levelComplete) := by
  simp only [Game.checkWinCondition]
  split_ifs
  · exact ⟨rfl, rfl, rfl, rfl, Or.inr rfl⟩
  · exact ⟨rfl, rfl, rfl, rfl, Or.inl rfl⟩

/-- `updateBricks` keeps the vertical extent of every brick. -/
theorem updateBricks_above (g : Game α) (c : Ball α)
    (hb : ∀ b ∈ g.bricks, b.y + b.height + c.radius < c.y) :
    ∀ b ∈ g.updateBricks.bricks, b.y + b.height + c.radius < c.y := by
  intro b hmem
  simp only [Game.updateBricks, List.mem_map] at hmem
  obtain ⟨b0, hb0, rfl⟩ := hmem
  split_ifs
  · rw [(update_vertical b0).1, (update_vertical b0).2]
    exact hb b0 hb0
  · exact hb b0 hb0

/-- One `Game.update` with a ball that is neither launched nor stuck, does not move down, is
not under the paddle and has every brick above it: the ball stays in the list as it is, the
paddle stays at its height, the bricks stay above, no life is lost, and the state is kept or
becomes `levelComplete`. -/
theorem update_idle (M : MathOps α) (L : ℤ) (hL : L ≤ 5) (g : Game α) (c : Ball α)
    (hc : c ∈ g.balls) (hl : c.launched = false) (hs : c.stuck = false) (hvy : c.vy ≤ 0)
    (hy : c.y - c.radius ≤ g.paddle.y)
    (hb : ∀ b ∈ g.bricks, b.y + b.height + c.radius < c.y) (hlives : L ≤ g.lives) :
    c ∈ (g.update M).balls ∧ (g.update M).paddle.y = g.paddle.y ∧
    (∀ b ∈ (g.update M).bricks, b.y + b.height + c.radius < c.y) ∧
    L ≤ (g.update M).lives ∧
    ((g.update M).state = g.state ∨ (g.update M).state = GameState.levelComplete) := by
  let k := g.paddleController.update g.paddle
  let g2 : Game α :=
    { g with paddleController := k.1, paddle := k.2.update g.canvasWidth g.powerUpManager }
  have e2 : g2.paddle.y = g.paddle.y :=
    (paddle_update_y k.2 g.canvasWidth g.powerUpManager).trans
      (paddleController_update_y g.paddleController g.paddle)
  have hy2 : c.y - c.radius ≤ g2.paddle.y := by rw [e2]; exact hy
  obtain ⟨a1, a2, a3, a4, a5⟩ := updateBalls_idle M g2 c hc hl hs hvy hy2 hb
  have b5 := updateBricks_above (Game.updateBalls M g2) c a5
  let g4 := (Game.updateBalls M g2).updateBricks
  let u := g4.powerUpManager.update g4.paddle g4.canvasHeight
  have hl4 : L ≤ ({ g4 with powerUpManager := u.1 } : Game α).lives := by
    show L ≤ (Game.updateBalls M g2).lives
    rw [a2]
    exact hlives
  obtain ⟨c1, c2, c3, c4, c5⟩ := applyInstantEffects_frame M L hL u.2
    { g4 with powerUpManager := u.1 } hl4
  obtain ⟨d1, d2, d3, d4, d5⟩ := checkWinCondition_frame
    (u.2.foldl (Game.applyInstantEffect M) { g4 with powerUpManager := u.1 })
  have hst : (u.2.foldl (Game.applyInstantEffect M) { g4 with powerUpManager := u.1 }).state
      = g.state := c3.trans a3
  have hpy : (u.2.foldl (Game.applyInstantEffect M) { g4 with powerUpManager := u.1 }).paddle.y
      = g.paddle.y := by
    rw [c1]
    exact a4.trans e2
  show c ∈ (u.2.foldl (Game.applyInstantEffect M)
        { g4 with powerUpManager := u.1 }).checkWinCondition.balls ∧
    (u.2.foldl (Game.applyInstantEffect M)
        { g4 with powerUpManager := u.1 }).checkWinCondition.paddle.y = g.paddle.y ∧
    (∀ b ∈ (u.2.foldl (Game.applyInstantEffect M)
        { g4 with powerUpManager := u.1 }).checkWinCondition.bricks,
      b.y + b.height + c.radius < c.y) ∧
    L ≤ (u.2.foldl (Game.applyInstantEffect M)
        { g4 with powerUpManager := u.1 }).checkWinCondition.lives ∧
    ((u.2.foldl (Game.applyInstantEffect M)
        { g4 with powerUpManager := u.1 }).checkWinCondition.state = g.state ∨
      (u.2.foldl (Game.applyInstantEffect M)
        { g4 with powerUpManager := u.1 }).checkWinCondition.state = GameState.levelComplete)
  rw [d1, d2, d3, d4, hpy, c2]
  refine ⟨c5 c a1, rfl, b5, c4, ?_⟩
  rcases d5 with h | h
  · exact Or.inl (h.trans hst)
  · exact Or.inr h

/-- The game loop, run any number of times with such a ball in a session that is not over:
the ball stays in the list as it is, so the list is never empty, the session is never over,
and the lives never drop below the smaller of five and their number at the start. -/
theorem gameLoop_idle (M : MathOps α) (L : ℤ) (hL : L ≤ 5) (c : Ball α)
    (hl : c.launched = false) (hs : c.stuck = false) (hvy : c.vy ≤ 0) (py : α)
    (hy : c.y - c.radius ≤ py) (n : ℕ) :
    ∀ g : Game α, c ∈ g.balls → g.paddle.y = py →
      (∀ b ∈ g.bricks, b.y + b.height + c.radius < c.y) → L ≤ g.lives →
      g.state ≠ GameState.gameOver →
      c ∈ ((Game.gameLoop M)^[n] g).balls ∧ ((Game.gameLoop M)^[n] g).paddle.y = py ∧
      L ≤ ((Game.gameLoop M)^[n] g).lives ∧
      ((Game.gameLoop M)^[n] g).state ≠ GameState.gameOver := by
  induction n with
  | zero =>
    intro g hc hp _ hlives hst
    exact ⟨hc, hp, hlives, hst⟩
  | succ n ih =>
    intro g hc hp hb hlives hst
    rw [Function.iterate_succ_apply]
    by_cases hplay : g.state = GameState.playing
    · obtain ⟨h1, h2, h3, h4, h5⟩ :=
        update_idle M L hL g c hc hl hs hvy (by rw [hp]; exact hy) hb hlives
      have e : Game.gameLoop M g = g.update M := by
        simp only [Game.gameLoop, hplay, if_true]
      rw [e]
      refine ih (g.update M) h1 (h2.trans hp) h3 h4 ?_
      rcases h5 with h | h
      · rw [h]
        exact hst
      · rw [h]
        exact fun hx => GameState.noConfusion hx
    · have e : Game.gameLoop M g = g := by
        simp only [Game.gameLoop, hplay, if_false]
      rw [e]
      exact ih g hc hp hb hlives hst

/-- The clone of a ball at rest takes `launched` from it and is itself at rest, not stuck, at
the same position and of the same radius. -/
theorem clone_at_rest (sqrt sin cos : α → α) (atan2 : α → α → α) (hsqrt : sqrt 0 = 0)
    (o : Ball α) (r : α) (hvx : o.vx = 0) (hvy : o.vy = 0) :
    (o.clone sqrt sin cos atan2 r).launched = o.launched ∧
    (o.clone sqrt sin cos atan2 r).stuck = false ∧
    (o.clone sqrt sin cos atan2 r).vx = 0 ∧ (o.clone sqrt sin cos atan2 r).vy = 0 ∧
    (o.clone sqrt sin cos atan2 r).y = o.y ∧
    (o.clone sqrt sin cos atan2 r).radius = o.radius := by
  have h0 : sqrt (o.vx * o.vx + o.vy * o.vy) = 0 := by
    rw [hvx, hvy, mul_zero, add_zero]
    exact hsqrt
  refine ⟨rfl, rfl, ?_, ?_, rfl, rfl⟩
  · show cos _ * sqrt (o.vx * o.vx + o.vy * o.vy) = 0
    rw [h0, mul_zero]
  · show sin _ * sqrt (o.vx * o.vx + o.vy * o.vy) = 0
    rw [h0, mul_zero]

/-- `Game.spawnMultiBalls` from a first ball `o` puts the clone made with each of its draws in
the list, keeps the balls that were there, and keeps paddle, bricks, lives and state. -/
theorem spawnMultiBalls_clones (M : MathOps α) (g : Game α) (o : Ball α) (rest : List (Ball α))
    (count : α) (hballs : g.balls = o :: rest) :
    (∀ i, i < (-(M.floor (-count))).toNat →
      o.clone M.sqrt M.sin M.cos M.atan2 (g.random (g.randomIndex + i)) ∈
        (g.spawnMultiBalls M count).balls) ∧
    (g.spawnMultiBalls M count).paddle = g.paddle ∧
    (g.spawnMultiBalls M count).bricks = g.bricks ∧
    (g.spawnMultiBalls M count).lives = g.lives ∧
    (g.spawnMultiBalls M count).state = g.state ∧
    ∀ x ∈ g.balls, x ∈ (g.spawnMultiBalls M count).balls := by
  have e : g.spawnMultiBalls M count =
      Game.spawnClones M o (-(M.floor (-count))).toNat g := by
    simp only [Game.spawnMultiBalls, hballs]
  rw [e]
  obtain ⟨h1, h2, h3, h4, h5⟩ := spawnClones_frame M o (-(M.floor (-count))).toNat g
  exact ⟨fun i hi => spawnClones_mem M o _ g i hi, h1, h2, h3, h4, h5⟩

/-- A property kept by every step of a left fold over the elements of its list holds at the
end. -/
theorem foldl_invariant_mem {β γ : Type} (I : β → Prop) (f : β → γ → β) (l : List γ)
    (hf : ∀ acc x, x ∈ l → I acc → I (f acc x)) (init : β) (h : I init) :
    I (l.foldl f init) := by
  induction l generalizing init with
  | nil => exact h
  | cons x l ih =>
    exact ih (fun acc y hy => hf acc y (List.mem_cons_of_mem x hy)) (f init x)
      (hf init x (List.mem_cons_self x l) h)

/-- Every level has at most eight rows of bricks. -/
theorem rows_le_eight (level : ℕ) :
    (Game.generateLevelConfig level : LevelConfig ℝ).rows ≤ 8 := by
  by_cases h : level > 5
  · simp [Game.generateLevelConfig, h]
  · have h5 : level ≤ 5 := by omega
    interval_cases level <;> simp [Game.generateLevelConfig]

/-- Every brick of a level layout ends at `y ≤ 335`, far above the paddle at
`canvasHeight - 40 = 560`. -/
theorem createBricks_bottom (level : ℕ) (M : MathOps ℝ) (g : Game ℝ)
    (hg : g.levelConfig = Game.generateLevelConfig level) :
    ∀ b ∈ (g.createBricks M).bricks, b.y + b.height ≤ 335 := by
  have hrows := rows_le_eight level
  rw [← hg] at hrows
  simp only [Game.createBricks]
  apply foldl_invariant_mem (fun acc : List (Brick ℝ) × ℕ => ∀ b ∈ acc.1, b.y + b.height ≤ 335)
  · intro acc row hrow hacc
    have hr : row < g.levelConfig.rows := List.mem_range.mp hrow
    have hr7 : (row : ℝ) ≤ 7 := by exact_mod_cast (by omega : row ≤ 7)
    apply foldl_invariant (fun acc : List (Brick ℝ) × ℕ => ∀ b ∈ acc.1, b.y + b.height ≤ 335)
    · intro acc2 col hacc2 b hb
      simp only [Game.createBrick, List.mem_append, List.mem_singleton] at hb
      rcases hb with hb | hb
      · exact hacc2 b hb
      · rw [hb]
        simp only [Brick.new]
        linarith
    · exact hacc
  · intro b hb
    exact absurd hb (List.not_mem_nil b)

/-- C28: `Ball.clone` copies `launched` but not `stuck`.  Let the first ball `o` of the
session be stuck to the paddle (not launched, stuck, zero velocity, `y = paddle.y - radius`,
a radius that is not negative) and let every brick lie more than a radius above it, as the
bricks of every level layout do (`createBricks_bottom`).  Each clone `c` that
`Game.spawnMultiBalls` makes of it is not launched, not stuck, has zero velocity and sits at
`y = paddle.y - radius`; `Ball.update` is a no-op on it and `Ball.isBelowPaddle` is false for
it.  After `spawnMultiBalls`, however many times the game loop runs, `c` is still in the list
of balls as it was, so the list is never empty, the session is never over, and the lives
never drop below the smaller of five and their number at the start. -/
theorem clone_of_stuck_ball_stays (sin cos : ℝ → ℝ) (atan2 : ℝ → ℝ → ℝ) (floor : ℝ → ℤ)
    (pi infinity count : ℝ) (g : Game ℝ) (o : Ball ℝ) (rest : List (Ball ℝ)) (i : ℕ)
    (hl : o.launched = false) (hs : o.stuck = true)
    (hvx : o.vx = 0) (hvy : o.vy = 0) (hy : o.y = g.paddle.y - o.radius) (hr : 0 ≤ o.radius)
    (hballs : g.balls = o :: rest)
    (hb : ∀ b ∈ g.bricks, b.y + b.height + o.radius < o.y)
    (hst : g.state ≠ GameState.gameOver) (hi : i < (-(floor (-count))).toNat) :
    (o.clone Real.sqrt sin cos atan2 (g.random (g.randomIndex + i))).launched = o.launched ∧
    (o.clone Real.sqrt sin cos atan2 (g.random (g.randomIndex + i))).stuck ≠ o.stuck ∧
    (o.clone Real.sqrt sin cos atan2 (g.random (g.randomIndex + i))).vx = 0 ∧
    (o.clone Real.sqrt sin cos atan2 (g.random (g.randomIndex + i))).vy = 0 ∧
    (o.clone Real.sqrt sin cos atan2 (g.random (g.randomIndex + i))).y =
      g.paddle.y - (o.clone Real.sqrt sin cos atan2 (g.random (g.randomIndex + i))).radius ∧
    (∀ (canvasWidth canvasHeight : ℝ) (m : PowerUpManager ℝ),
      (o.clone Real.sqrt sin cos atan2 (g.random (g.randomIndex + i))).update Real.sqrt
          canvasWidth canvasHeight m =
        o.clone Real.sqrt sin cos atan2 (g.random (g.randomIndex + i))) ∧
    (o.clone Real.sqrt sin cos atan2 (g.random (g.randomIndex + i))).isBelowPaddle g.paddle.y
      = false ∧
    ∀ n : ℕ,
      o.clone Real.sqrt sin cos atan2 (g.random (g.randomIndex + i)) ∈
        ((Game.gameLoop ⟨Real.sqrt, sin, cos, atan2, floor, pi, infinity⟩)^[n]
          (g.spawnMultiBalls ⟨Real.sqrt, sin, cos, atan2, floor, pi, infinity⟩ count)).balls ∧
      ((Game.gameLoop ⟨Real.sqrt, sin, cos, atan2, floor, pi, infinity⟩)^[n]
          (g.spawnMultiBalls ⟨Real.sqrt, sin, cos, atan2, floor, pi, infinity⟩ count)).balls
        ≠ [] ∧
      ((Game.gameLoop ⟨Real.sqrt, sin, cos, atan2, floor, pi, infinity⟩)^[n]
          (g.spawnMultiBalls ⟨Real.sqrt, sin, cos, atan2, floor, pi, infinity⟩ count)).state
        ≠ GameState.gameOver ∧
      min 5 g.lives ≤
        ((Game.gameLoop ⟨Real.sqrt, sin, cos, atan2, floor, pi, infinity⟩)^[n]
          (g.spawnMultiBalls ⟨Real.sqrt, sin, cos, atan2, floor, pi, infinity⟩ count)).lives := by
  obtain ⟨c1, c2, c3, c4, c5, c6⟩ := clone_at_rest Real.sqrt sin cos atan2 Real.sqrt_zero o
    (g.random (g.randomIndex + i)) hvx hvy
  obtain ⟨s1, s2, s3, s4, s5, -⟩ := spawnMultiBalls_clones
    ⟨Real.sqrt, sin, cos, atan2, floor, pi, infinity⟩ g o rest count hballs
  have s1i : o.clone Real.sqrt sin cos atan2 (g.random (g.randomIndex + i)) ∈
      (g.spawnMultiBalls ⟨Real.sqrt, sin, cos, atan2, floor, pi, infinity⟩ count).balls :=
    s1 i hi
  generalize o.clone Real.sqrt sin cos atan2 (g.random (g.randomIndex + i)) = c
    at c1 c2 c3 c4 c5 c6 s1i ⊢
  have hcl : c.launched = false := c1.trans hl
  have hcy : c.y - c.radius ≤ g.paddle.y := by
    rw [c5, c6, hy]
    linarith
  refine ⟨c1, ?_, c3, c4, ?_, ?_, ?_, ?_⟩
  · rw [c2, hs]
    exact Bool.false_ne_true
  · rw [c5, c6, hy]
  · intro canvasWidth canvasHeight m
    simp only [Ball.update, hcl, Bool.not_false, Bool.true_or, if_true]
  · simp only [Ball.isBelowPaddle, decide_eq_false_iff_not, not_lt]
    exact hcy
  · intro n
    obtain ⟨k1, -, k3, k4⟩ := gameLoop_idle ⟨Real.sqrt, sin, cos, atan2, floor, pi, infinity⟩
      (min 5 g.lives) (min_le_left 5 g.lives) c hcl c2 (le_of_eq c4) g.paddle.y hcy n
      (g.spawnMultiBalls ⟨Real.sqrt, sin, cos, atan2, floor, pi, infinity⟩ count)
      s1i (by rw [s2]) (by rw [s3, c6, c5]; exact hb)
      (by rw [s4]; exact min_le_right 5 g.lives) (by rw [s5]; exact hst)
    exact ⟨k1, List.ne_nil_of_mem k1, k4, k3⟩

/-- C28, witness: a ball stuck to the paddle is cloned by a multi-ball power-up of value two;
a thousand passes of the game loop later the list of balls is not empty. -/
theorem clone_of_stuck_ball_stays_witness :
    ((Game.gameLoop ⟨Real.sqrt, fun v => v, fun v => v, fun v _ => v, fun v => ⌊v⌋, 3, 0⟩)^[1000]
      (Game.spawnMultiBalls ⟨Real.sqrt, fun v => v, fun v => v, fun v _ => v, fun v => ⌊v⌋, 3, 0⟩
        (Scenario.playing (Paddle.new 325 540 150 22)
          [(Ball.new 400 500 8).stickToPaddle (Paddle.new 325 540 150 22)]
          [Brick.new 100 100 BrickType.normal 1] 3 : Game ℝ) 2)).balls ≠ [] :=
  ((clone_of_stuck_ball_stays (fun v => v) (fun v => v) (fun v _ => v) (fun v => ⌊v⌋) 3 0 2
    (Scenario.playing (Paddle.new 325 540 150 22)
      [(Ball.new 400 500 8).stickToPaddle (Paddle.new 325 540 150 22)]
      [Brick.new 100 100 BrickType.normal 1] 3 : Game ℝ)
    ((Ball.new 400 500 8).stickToPaddle (Paddle.new 325 540 150 22)) [] 0
    rfl rfl rfl rfl rfl (by norm_num [Ball.stickToPaddle, Ball.new]) rfl
    (by
      intro b hmem
      simp only [Scenario.playing, List.mem_singleton] at hmem
      rw [hmem]
      norm_num [Brick.new, Ball.stickToPaddle, Ball.new, Paddle.new])
    (by simp [Scenario.playing])
    (by norm_num)).2.2.2.2.2.2.2 1000).2.1

end CloneBalls

end NeonBreaker

namespace Snake

section SnakeUpdate

variable {α : Type} [LinearOrderedField α]

/-- The coordinate test of the game is membership in the snake. -/
theorem onSnake_iff (snake : List (Cell α)) (cell : Cell α) :
    SnakeGame.onSnake snake cell = true ↔ cell ∈ snake := by
  simp only [SnakeGame.onSnake, List.any_eq_true, Bool.and_eq_true, decide_eq_true_eq]
  constructor
  · rintro ⟨s, hs, hx, hy⟩
    have : s = cell := by
      cases s
      cases cell
      simp only [Cell.mk.injEq]
      exact ⟨hx, hy⟩
    rw [← this]
    exact hs
  · intro h
    exact ⟨cell, h, rfl, rfl⟩

/-- The food loop returns as soon as one of the first `fuel` candidate cells is free. -/
theorem generateFoodLoop_returns (floor : α → Int) (tileCount : α) (snake : List (Cell α))
    (random : Nat → α) (fuel : Nat) (index : Nat)
    (h : ∃ k, k < fuel ∧ SnakeGame.onSnake snake
      { x := ((floor (random (index + 2 * k) * tileCount) : Int) : α),
        y := ((floor (random (index + 2 * k + 1) * tileCount) : Int) : α) } = false) :
    ∃ r, SnakeGame.generateFoodLoop floor tileCount snake random fuel index = some r := by
  induction fuel generalizing index with
  | zero =>
    obtain ⟨k, hk, -⟩ := h
    omega
  | succ n ih =>
    obtain ⟨k, hk, hfree⟩ := h
    by_cases hc : SnakeGame.onSnake snake
        { x := ((floor (random index * tileCount) : Int) : α),
          y := ((floor (random (index + 1) * tileCount) : Int) : α) } = true
    · simp only [SnakeGame.generateFoodLoop, hc, if_true]
      apply ih
      cases k with
      | zero =>
        simp only [Nat.mul_zero, Nat.add_zero] at hfree
        rw [hc] at hfree
        exact absurd hfree (by simp)
      | succ j =>
        refine ⟨j, by omega, ?_⟩
        have e1 : index + 2 + 2 * j = index + 2 * (j + 1) := by ring
        rw [e1]
        exact hfree
    · simp only [SnakeGame.generateFoodLoop, hc, Bool.false_eq_true, if_false]
      exact ⟨_, rfl⟩

/-- `generateFood` and `updateLevel` leave the snake and the score alone. -/
theorem eatFood_frame (floor : α → Int) (fuel : Nat) (g g' : SnakeGame α)
    (h : g.eatFood floor fuel = some g') :
    g'.snake = g.snake ∧ g'.score = g.score + 10 ∧ g'.tileCount = g.tileCount ∧
    g'.gameRunning = g.gameRunning := by
  simp only [SnakeGame.eatFood, SnakeGame.generateFood, Option.map_map,
    Option.map_eq_some'] at h
  obtain ⟨r, -, rfl⟩ := h
  simp only [Function.comp, SnakeGame.updateLevel]
  split_ifs <;> exact ⟨rfl, rfl, rfl, rfl⟩

/-- `eatFood` returns when one of the first `fuel` candidate cells is free. -/
theorem eatFood_returns (floor : α → Int) (fuel : Nat) (g : SnakeGame α)
    (h : ∃ k, k < fuel ∧ SnakeGame.onSnake g.snake
      { x := ((floor (g.random (g.randomIndex + 2 * k) * g.tileCount) : Int) : α),
        y := ((floor (g.random (g.randomIndex + 2 * k + 1) * g.tileCount) : Int) : α) } =
        false) :
    ∃ g', g.eatFood floor fuel = some g' := by
  obtain ⟨r, hr⟩ := generateFoodLoop_returns floor g.tileCount g.snake g.random fuel
    g.randomIndex h
  simp only [SnakeGame.eatFood, SnakeGame.generateFood, hr, Option.map_some']
  exact ⟨_, rfl⟩

/-- C30: for a snake with pairwise distinct segments inside the grid and `head` the cell one
step ahead of the first segment: with direction (0, 0) `update` changes nothing; when `head` is
outside the grid or on a segment (the tail cell included) `update` ends the game and leaves
snake and score as they were; otherwise, when `head` is not the food, the snake moves (new
head, last segment dropped, same length, same score), and when it is the food the snake grows
by the head and the score by 10, and `update` returns as soon as one of the first `fuel`
candidate cells of `generateFood` is free.  In both cases the segments stay pairwise distinct
and inside the grid. -/
theorem update_spec (floor : α → Int) (fuel : Nat) (g : SnakeGame α) (first head : Cell α)
    (rest : List (Cell α)) (hs : g.snake = first :: rest)
    (hh : head = { x := first.x + g.dx, y := first.y + g.dy })
    (hnd : g.snake.Nodup)
    (hin : ∀ s ∈ g.snake, 0 ≤ s.x ∧ s.x < g.tileCount ∧ 0 ≤ s.y ∧ s.y < g.tileCount) :
    (g.dx = 0 ∧ g.dy = 0 → g.update floor fuel = some g) ∧
    (¬ (g.dx = 0 ∧ g.dy = 0) →
      (head.x < 0 ∨ head.x ≥ g.tileCount ∨ head.y < 0 ∨ head.y ≥ g.tileCount ∨
        head ∈ g.snake) →
      g.update floor fuel = some g.gameOver ∧ g.gameOver.snake = g.snake ∧
      g.gameOver.score = g.score ∧ g.gameOver.gameRunning = false) ∧
    (¬ (g.dx = 0 ∧ g.dy = 0) →
      ¬ (head.x < 0 ∨ head.x ≥ g.tileCount ∨ head.y < 0 ∨ head.y ≥ g.tileCount ∨
        head ∈ g.snake) →
      (¬ (head.x = g.food.x ∧ head.y = g.food.y) →
        ∃ g', g.update floor fuel = some g' ∧ g'.snake = head :: g.snake.dropLast ∧
          g'.snake.length = g.snake.length ∧ g'.score = g.score ∧
          g'.gameRunning = g.gameRunning ∧ g'.snake.Nodup ∧
          ∀ s ∈ g'.snake, 0 ≤ s.x ∧ s.x < g'.tileCount ∧ 0 ≤ s.y ∧ s.y < g'.tileCount) ∧
      (head.x = g.food.x ∧ head.y = g.food.y →
        (∀ g', g.update floor fuel = some g' →
          g'.snake = head :: g.snake ∧ g'.snake.length = g.snake.length + 1 ∧
          g'.score = g.score + 10 ∧ g'.gameRunning = g.gameRunning ∧ g'.snake.Nodup ∧
          ∀ s ∈ g'.snake, 0 ≤ s.x ∧ s.x < g'.tileCount ∧ 0 ≤ s.y ∧ s.y < g'.tileCount) ∧
        ((∃ k, k < fuel ∧ SnakeGame.onSnake (head :: g.snake)
            { x := ((floor (g.random (g.randomIndex + 2 * k) * g.tileCount) : Int) : α),
              y := ((floor (g.random (g.randomIndex + 2 * k + 1) * g.tileCount) : Int) :
                α) } = false) →
          ∃ g', g.update floor fuel = some g'))) := by
  subst hh
  dsimp only
  refine ⟨fun h0 => ?_, fun h0 hbad => ?_, fun h0 hok => ?_⟩
  · simp only [SnakeGame.update, h0, and_self, if_true]
  · have hgo : g.gameOver.snake = g.snake ∧ g.gameOver.score = g.score ∧
        g.gameOver.gameRunning = false := by
      simp only [SnakeGame.gameOver]
      split_ifs <;> exact ⟨rfl, rfl, rfl⟩
    refine ⟨?_, hgo⟩
    simp only [SnakeGame.update, h0, if_false, hs]
    by_cases hout : first.x + g.dx < 0 ∨ first.x + g.dx ≥ g.tileCount ∨ first.y + g.dy < 0 ∨
        first.y + g.dy ≥ g.tileCount
    · rw [if_pos hout]
    · rw [if_neg hout]
      have hmem : ({ x := first.x + g.dx, y := first.y + g.dy } : Cell α) ∈ first :: rest := by
        rw [← hs]
        rcases hbad with h | h | h | h | h
        · exact absurd (Or.inl h) hout
        · exact absurd (Or.inr (Or.inl h)) hout
        · exact absurd (Or.inr (Or.inr (Or.inl h))) hout
        · exact absurd (Or.inr (Or.inr (Or.inr h))) hout
        · exact h
      rw [if_pos ((onSnake_iff _ _).mpr hmem)]
  · have hout : ¬ (first.x + g.dx < 0 ∨ first.x + g.dx ≥ g.tileCount ∨ first.y + g.dy < 0 ∨
        first.y + g.dy ≥ g.tileCount) := by
      intro h
      apply hok
      rcases h with h | h | h | h
      · exact Or.inl h
      · exact Or.inr (Or.inl h)
      · exact Or.inr (Or.inr (Or.inl h))
      · exact Or.inr (Or.inr (Or.inr (Or.inl h)))
    have hnm : ({ x := first.x + g.dx, y := first.y + g.dy } : Cell α) ∉ g.snake :=
      fun h => hok (Or.inr (Or.inr (Or.inr (Or.inr h))))
    have hon : SnakeGame.onSnake (first :: rest)
        ({ x := first.x + g.dx, y := first.y + g.dy } : Cell α) = false := by
      rw [← hs, Bool.eq_false_iff, Ne, onSnake_iff]
      exact hnm
    have hhead : 0 ≤ first.x + g.dx ∧ first.x + g.dx < g.tileCount ∧ 0 ≤ first.y + g.dy ∧
        first.y + g.dy < g.tileCount := by
      push_neg at hout
      exact ⟨hout.1, hout.2.1, hout.2.2.1, hout.2.2.2⟩
    constructor
    · intro hfood
      refine ⟨{ g with snake := { x := first.x + g.dx, y := first.y + g.dy } ::
        g.snake.dropLast }, ?_, rfl, ?_, rfl, rfl, ?_, ?_⟩
      · simp only [SnakeGame.update, h0, if_false, hs, hout, hon, Bool.false_eq_true,
          hfood, List.dropLast_cons₂]
      · simp only [List.length_cons, List.length_dropLast, hs]
        omega
      · rw [List.nodup_cons]
        exact ⟨fun h => hnm ((List.dropLast_sublist _).subset h),
          hnd.sublist (List.dropLast_sublist _)⟩
      · intro s hsm
        rcases List.mem_cons.mp hsm with h | h
        · rw [h]
          exact hhead
        · exact hin s ((List.dropLast_sublist _).subset h)
    · intro hfood
      have hu : g.update floor fuel =
          SnakeGame.eatFood floor fuel
            { g with snake := { x := first.x + g.dx, y := first.y + g.dy } :: g.snake } := by
        simp only [SnakeGame.update, h0, if_false, hs]
        rw [if_neg hout, if_neg (by rw [hon]; exact Bool.false_ne_true), if_pos hfood]
      constructor
      · intro g' hg'
        rw [hu] at hg'
        obtain ⟨e1, e2, e3, e4⟩ := eatFood_frame floor fuel _ g' hg'
        refine ⟨e1, ?_, e2, e4, ?_, ?_⟩
        · rw [e1]
          rfl
        · rw [e1]
          exact List.nodup_cons.mpr ⟨hnm, hnd⟩
        · intro s hsm
          rw [e1] at hsm
          rw [e3]
          rcases List.mem_cons.mp hsm with h | h
          · rw [h]
            exact hhead
          · exact hin s h
      · intro hfree
        rw [hu]
        exact eatFood_returns floor fuel _ hfree

/-- C30, witness: from `Scenario.headingRight` the snake eats the food at (11, 10): `update`
returns (the first candidate food cell (5, 5) is free), the snake is (11, 10), (10, 10) and the
score 10. -/
theorem update_spec_witness :
    ∃ g' : SnakeGame ℚ,
      (Scenario.headingRight : SnakeGame ℚ).update (fun v : ℚ => ⌊v⌋) 1 = some g' ∧
      g'.snake = [{ x := 10 + 1, y := 10 + 0 }, { x := 10, y := 10 }] ∧
      g'.score = 0 + 10 := by
  have h := (update_spec (fun v : ℚ => ⌊v⌋) 1 (Scenario.headingRight : SnakeGame ℚ)
    { x := 10, y := 10 } { x := 10 + 1, y := 10 + 0 } [] rfl rfl (List.nodup_singleton _)
    (by
      intro s hs
      simp only [Scenario.headingRight, List.mem_singleton] at hs
      rw [hs]
      norm_num [Scenario.headingRight])).2.2
    (by norm_num [Scenario.headingRight])
    (by
      simp only [Scenario.headingRight, List.mem_singleton, Cell.mk.injEq]
      norm_num)
  obtain ⟨hall, hex⟩ := h.2 (by norm_num [Scenario.headingRight])
  obtain ⟨g', hg'⟩ := hex ⟨0, by norm_num, by
    have hf : ⌊(1 / 4 : ℚ) * 20⌋ = 5 := by
      rw [Int.floor_eq_iff]
      norm_num
    simp only [Scenario.headingRight, SnakeGame.onSnake, hf]
    norm_num⟩
  exact ⟨g', hg', (hall g' hg').1, (hall g' hg').2.2.1⟩

end SnakeUpdate

end Snake
